import Mathlib

/-!
# Scene lifecycle and transitions of the NGI game loader

A shallow embedding of `engines/ngi/gameloader.cpp`: the scene registry
(`_sc2array` and the scene-tag list), the snapshot store
(`savePicAniInfos` / `applyPicAniInfos`), `loadScene`, `unloadScene`,
`gotoScene` and `preloadScene`.

Conventions of the embedding

* A `Scene *` is an address (`Nat`) into `Engine.heap`; the null pointer is
  `none`.  `delete` removes the cell, so a pointer kept elsewhere dangles.
* An array read whose index is not below the size, and a member access
  through a null or freed pointer, do not return: the function yields a
  `Fault`.
* Functions of other translation units that the loader only calls
  (the scene-switch hook, the preload callback, queue chaining, scene
  construction from an archive or a document, `Scene::init`) are fields of
  `Env`.  They act on `Engine`, the state reachable through `g_nmi`, and are
  assumed to return.
* `GameLoader.trace` is instrumentation: every call the two transition
  functions make to a collaborator or to a sibling operation appends one
  `Event`, in program order.
-/

namespace NGI

/-! ## Faults -/

/-- Ways in which a call can fail to return. -/
inductive Fault
  | outOfBounds
  | badPointer
  deriving DecidableEq, Repr

/-! ## Plain records -/

/-- One entry of `_preloadItems` (fields as read by `PreloadItems::load`). -/
structure PreloadItem where
  preloadId1 : Int
  preloadId2 : Int
  sceneId : Int
  param : Int
  deriving DecidableEq, Repr

/-- One entry of `Sc2::_entranceData` (fields as written by `LoadEntranceXML`). -/
structure EntranceInfo where
  _sceneId : Int
  _field_4 : Int
  _messageQueueId : Int
  deriving DecidableEq, Repr

/-- A dynamic-object snapshot (fields as written by `LoadPicAniInfoXML`).
`type`, `flags` and `field_24` are bit sets and are kept as naturals. -/
structure PicAniInfo where
  type : Nat
  objectId : Int
  field_8 : Int
  sceneId : Int
  ox : Int
  oy : Int
  priority : Int
  staticsId : Int
  movementId : Int
  dynamicPhaseIndex : Int
  flags : Nat
  field_24 : Nat
  someDynamicPhaseIndex : Int
  deriving DecidableEq, Repr

/-- The value left by the default constructor `PicAniInfo()`. -/
def PicAniInfo.zero : PicAniInfo :=
  ⟨0, 0, 0, 0, 0, 0, 0, 0, 0, 0, 0, 0, 0⟩

/-- Modelled from the spec: the command record `ExCommand` (declared in
messages.h, not part of the sources at hand).  The ten constructor
arguments are kept positionally; `_excFlags`, `_param` and `_z` are the
members the loader assigns afterwards. -/
structure ExCommand where
  _parentId : Int
  _messageKind : Int
  _messageNum : Int
  _x : Int
  _y : Int
  a7 : Int
  a8 : Int
  _sceneClickX : Int
  _sceneClickY : Int
  a11 : Int
  _excFlags : Nat
  _param : Int
  _z : Int
  deriving DecidableEq, Repr

/-- The constructor call `ExCommand(parentId, messageKind, messageNum, x, y,
a7, a8, sceneClickX, sceneClickY, a11)`; the remaining members start at 0. -/
def ExCommand.new (parentId messageKind messageNum x y a7 a8 sceneClickX sceneClickY a11 : Int) :
    ExCommand :=
  ⟨parentId, messageKind, messageNum, x, y, a7, a8, sceneClickX, sceneClickY, a11, 0, 0, 0⟩

/-- Modelled from the spec: a message queue of a scene (declared in
messages.h, not part of the sources at hand): its id, its flag word and its
commands. -/
structure MessageQueue where
  _dataId : Int
  _flags : Nat
  _exCommands : List ExCommand
  deriving DecidableEq, Repr

/-- Modelled from the spec: the motion controller owned by a scene record
(declared in motion.h, not part of the sources at hand): its variant tag and
the ids of the objects attached to it. -/
structure MotionController where
  _objtype : Nat
  attached : List Int
  deriving DecidableEq, Repr

/-- Modelled from the spec: `MotionController::detachAllObjects` (motion.cpp,
not part of the sources at hand) detaches every object and keeps the
controller. -/
def MotionController.detachAllObjects (mc : MotionController) : MotionController :=
  ⟨mc._objtype, []⟩

/-! ## Scene objects -/

/-- Modelled from the spec: a still picture of a scene (declared in gfx.h, not
part of the sources at hand), reduced to the dynamic state the snapshot
contract names: id, copy index `_odelay`, the two flag words, position and
draw priority. -/
structure PictureObject where
  _id : Int
  _odelay : Int
  _flags : Nat
  _field_8 : Nat
  _ox : Int
  _oy : Int
  _priority : Int
  deriving DecidableEq, Repr

/-- Modelled from the spec: an animated object of a scene (declared in
statics.h, not part of the sources at hand), reduced to the dynamic state the
snapshot contract names.  `_statics` and `_movement` hold the id of the
current static pose and movement, 0 for none. -/
structure StaticANIObject where
  _id : Int
  _odelay : Int
  _flags : Nat
  _field_8 : Nat
  _ox : Int
  _oy : Int
  _priority : Int
  _sceneId : Int
  _messageQueueId : Nat
  _statics : Int
  _movement : Int
  _dynamicPhaseIndex : Int
  _someDynamicPhaseIndex : Int
  deriving DecidableEq, Repr

/-- Modelled from the spec: `GameObject::getPicAniInfo` on a picture: kind bit
2, id, copy index, position, priority and the two flag words. -/
def PictureObject.getPicAniInfo (o : PictureObject) : PicAniInfo :=
  { PicAniInfo.zero with
    type := 2, objectId := o._id, field_8 := o._odelay, sceneId := 0,
    ox := o._ox, oy := o._oy, priority := o._priority,
    flags := o._flags, field_24 := o._field_8 }

/-- Modelled from the spec: `GameObject::setPicAniInfo` on a picture pushes
the snapshot onto the object: position, priority, copy index and both flag
words. -/
def PictureObject.setPicAniInfo (o : PictureObject) (info : PicAniInfo) : PictureObject :=
  { o with
    _ox := info.ox, _oy := info.oy, _priority := info.priority,
    _odelay := info.field_8, _flags := info.flags, _field_8 := info.field_24 }

/-- Modelled from the spec: `GameObject::getPicAniInfo` on an animated object.
The reported type carries kind bit 1 in its low half and run-time bits (the
queue the object is busy with) above bit 15. -/
def StaticANIObject.getPicAniInfo (o : StaticANIObject) : PicAniInfo :=
  { type := o._messageQueueId * 65536 + 1, objectId := o._id, field_8 := o._odelay,
    sceneId := o._sceneId, ox := o._ox, oy := o._oy, priority := o._priority,
    staticsId := o._statics, movementId := o._movement,
    dynamicPhaseIndex := o._dynamicPhaseIndex, flags := o._flags, field_24 := o._field_8,
    someDynamicPhaseIndex := o._someDynamicPhaseIndex }

/-- Modelled from the spec: `GameObject::setPicAniInfo` on an animated object
pushes the snapshot onto the object. -/
def StaticANIObject.setPicAniInfo (o : StaticANIObject) (info : PicAniInfo) : StaticANIObject :=
  { o with
    _messageQueueId := (info.type / 65536) % 65536,
    _odelay := info.field_8, _flags := info.flags, _field_8 := info.field_24,
    _ox := info.ox, _oy := info.oy, _priority := info.priority,
    _statics := info.staticsId, _movement := info.movementId,
    _dynamicPhaseIndex := info.dynamicPhaseIndex,
    _someDynamicPhaseIndex := info.someDynamicPhaseIndex }

/-- A scene, reduced to what the loader touches: its id, the picture list, the
animated-object list and the message queues.  The object lists hold pointers,
so an entry may be null. -/
structure Scene where
  _sceneId : Int
  _picObjList : List (Option PictureObject)
  _staticANIObjectList1 : List (Option StaticANIObject)
  _messageQueueList : List MessageQueue
  deriving DecidableEq, Repr

/-- Index and value of the first non-null entry satisfying `p`. -/
def findObj {α : Type} (p : α → Bool) : List (Option α) → Option (Nat × α)
  | [] => none
  | none :: rest => (findObj p rest).map (fun r => (r.1 + 1, r.2))
  | some o :: rest =>
    if p o then some (0, o) else (findObj p rest).map (fun r => (r.1 + 1, r.2))

/-- Modelled from the spec: `Scene::getPictureObjectById` (scene.cpp, not part
of the sources at hand) finds a picture by (id, copy index), first match. -/
def Scene.getPictureObjectById (sc : Scene) (objId copy : Int) : Option (Nat × PictureObject) :=
  findObj (fun o => o._id == objId && o._odelay == copy) sc._picObjList

/-- Modelled from the spec: `Scene::getStaticANIObject1ById` (scene.cpp, not
part of the sources at hand) finds an animated object by (id, copy index),
first match; the copy index -1 stands for any copy (the anchor lookups of
`gotoScene` name the object by id alone). -/
def Scene.getStaticANIObject1ById (sc : Scene) (objId copy : Int) :
    Option (Nat × StaticANIObject) :=
  findObj (fun o => o._id == objId && (copy == -1 || o._odelay == copy)) sc._staticANIObjectList1

/-- Modelled from the spec: `Scene::addStaticANIObject` (scene.cpp, not part
of the sources at hand) appends the object to the animated-object list. -/
def Scene.addStaticANIObject (sc : Scene) (o : StaticANIObject) : Scene :=
  { sc with _staticANIObjectList1 := sc._staticANIObjectList1 ++ [some o] }

/-- Modelled from the spec: `Scene::getMessageQueueById` (scene.cpp, not part
of the sources at hand) finds a queue of the scene by id, first match. -/
def Scene.getMessageQueueById (sc : Scene) (id : Int) : Option MessageQueue :=
  sc._messageQueueList.find? (fun q => q._dataId == id)

/-! ## Registry and engine state -/

/-- A scene record (`Sc2`); `Sc2::Sc2()` leaves `_scene` and
`_motionController` null and `_isLoaded` false. -/
structure Sc2 where
  _sceneId : Int
  _scene : Option Nat
  _isLoaded : Bool
  _motionController : Option MotionController
  _defPicAniInfos : List PicAniInfo
  _picAniInfos : List PicAniInfo
  _entranceData : List EntranceInfo
  _sceneFile : String
  deriving DecidableEq, Repr

/-- A scene tag: the scene id and the owning pointer to the live scene. -/
structure SceneTag where
  _sceneId : Int
  _scene : Option Nat
  deriving DecidableEq, Repr

/-- The state reachable through `g_nmi`: the registry (`_sc2array`, the tag
list of the game project), the live scenes, the current scene, the pending
input coordinates.  `savedEntrance` is modelled from the spec: the
"last entrance used" variable `Entrance` under OBJSTATES/SAVEGAME of the
game-state store (`none` while it was never written). -/
structure Engine where
  _sc2array : List Sc2
  _sceneTagList : List SceneTag
  heap : List (Nat × Scene)
  _currentScene : Option Nat
  _msgX : Int
  _msgY : Int
  _msgObjectId2 : Int
  savedEntrance : Option Int
  deriving DecidableEq, Repr

/-- Read through a scene pointer. -/
def heapGet (h : List (Nat × Scene)) (a : Nat) : Option Scene :=
  match h with
  | [] => none
  | (b, s) :: rest => if b = a then some s else heapGet rest a

/-- Write through a scene pointer (the cell must exist). -/
def heapSet (h : List (Nat × Scene)) (a : Nat) (s : Scene) : List (Nat × Scene) :=
  match h with
  | [] => []
  | (b, t) :: rest => if b = a then (b, s) :: rest else (b, t) :: heapSet rest a s

/-- The effect of `delete` on a scene pointer. -/
def heapFree (h : List (Nat × Scene)) (a : Nat) : List (Nat × Scene) :=
  h.filter (fun c => c.1 != a)

/-- Events recorded by the transition functions, in program order. -/
inductive Event
  | preloadCallback (item : PreloadItem) (flag : Int)
  | saveScenePicAniInfos (sceneId : Int)
  | clearGlobalMessageQueueList1
  | unloadScene (sceneId : Int)
  | loadScene (sceneId : Int)
  | postMessage (ex : ExCommand)
  | sceneSwitcher (entrance : EntranceInfo)
  | chain (mq : MessageQueue)
  deriving DecidableEq, Repr

/-- The game loader: the engine state it works on, the pending preload pair,
the preload items, the anchor object id `_field_FA`, and the event trace. -/
structure GameLoader where
  eng : Engine
  _preloadSceneId : Int
  _preloadEntranceId : Int
  _preloadItems : List PreloadItem
  _field_FA : Int
  trace : List Event
  deriving DecidableEq, Repr

/-- The collaborators of the loader.  `_preloadCallback` and the scene-switch
hook are function pointers installed by the engine; the callback receives
the preload item by reference, so it returns the item as it leaves it. -/
structure Env where
  /-- The test `g_nmi->getGameGID() == GID_POPOVICH`. -/
  isPopovich : Bool
  /-- `SceneTag::loadScene` on the tag at the given index of the tag list. -/
  tagLoadScene : Nat → Engine → Engine
  /-- The effect on the engine state of `loadSceneXML(sceneId)`, which builds the
  scene through the document parser, the archive and the input controller. -/
  loadSceneXML : Int → Engine → Engine
  /-- `Scene::init`. -/
  sceneInit : Scene → Scene
  /-- `_preloadCallback`, `none` when no callback is installed. -/
  _preloadCallback : Option (PreloadItem → Int → Engine → Bool × PreloadItem × Engine)
  /-- `g_nmi->sceneSwitcher`. -/
  sceneSwitcher : EntranceInfo → Engine → Bool × Engine
  /-- `MessageQueue::chain(0)`. -/
  chain : MessageQueue → Engine → Bool × Engine
  /-- `clearGlobalMessageQueueList1`. -/
  clearGlobalMessageQueueList1 : Engine → Engine

/-! ## Small helpers of the embedding -/

/-- Replace the entry at index `i` by its image under `f`. -/
def updateAt {α : Type} (l : List α) (i : Nat) (f : α → α) : List α :=
  match l, i with
  | [], _ => []
  | x :: rest, 0 => f x :: rest
  | x :: rest, i + 1 => x :: updateAt rest i f

/-- The array read `_sc2array[idx]`. -/
def Engine.sc2At (e : Engine) (idx : Nat) : Except Fault Sc2 :=
  match e._sc2array[idx]? with
  | some r => .ok r
  | none => .error .outOfBounds

/-- The read `*st` of the tag a lookup returned (position `idx` of the tag list). -/
def Engine.tagAt (e : Engine) (idx : Nat) : Except Fault SceneTag :=
  match e._sceneTagList[idx]? with
  | some t => .ok t
  | none => .error .badPointer

/-- The read `*p` through a non-null scene pointer. -/
def Engine.deref (e : Engine) (a : Nat) : Except Fault Scene :=
  match heapGet e.heap a with
  | some s => .ok s
  | none => .error .badPointer

/-- An assignment to members of `_sc2array[idx]`. -/
def Engine.updSc2 (e : Engine) (idx : Nat) (f : Sc2 → Sc2) : Engine :=
  { e with _sc2array := updateAt e._sc2array idx f }

/-- An assignment to members of the tag at position `idx`. -/
def Engine.updTag (e : Engine) (idx : Nat) (f : SceneTag → SceneTag) : Engine :=
  { e with _sceneTagList := updateAt e._sceneTagList idx f }

/-- An assignment through the scene pointer `a`. -/
def Engine.setScene (e : Engine) (a : Nat) (s : Scene) : Engine :=
  { e with heap := heapSet e.heap a s }

/-! ## Registry lookup -/

/-- The inner loop of `getSceneTagBySceneId`: the position in the tag list of
the first tag carrying `sceneId`, counting from `num`. -/
def findSceneTag (sceneId : Int) : List SceneTag → Nat → Option Nat
  | [], _ => none
  | s :: rest, num => if s._sceneId == sceneId then some num else findSceneTag sceneId rest (num + 1)

/-- The outer loop of `getSceneTagBySceneId`: for every record carrying
`sceneId` the tag list is scanned; the first hit is returned. -/
def scanSc2array (tags : List SceneTag) (sceneId : Int) : List Sc2 → Option Nat
  | [] => none
  | r :: rest =>
    if r._sceneId == sceneId then
      match findSceneTag sceneId tags 0 with
      | some num => some num
      | none => scanSc2array tags sceneId rest
    else scanSc2array tags sceneId rest

/-- `GameLoader::getSceneTagBySceneId`: `none` stands for the result -1 with
`*st = 0`; `some num` is the returned index, `*st` being the tag at position
`num` of the tag list. -/
def getSceneTagBySceneId (e : Engine) (sceneId : Int) : Option Nat :=
  if e._sc2array.length > 0 ∧ e._sceneTagList.length > 0 then
    scanSc2array e._sceneTagList sceneId e._sc2array
  else none

/-! ## Snapshot store -/

/-- The mask test of `savePicAniInfos`:
`(obj->_flags & flag1) == flag1 && (obj->_field_8 & flag2) == flag2`. -/
def passesMasks (flags field_8 flag1 flag2 : Nat) : Bool :=
  (flags &&& flag1) == flag1 && (field_8 &&& flag2) == flag2

/-- The first loop of `savePicAniInfos`, over `_picObjList`. -/
def savePictures (flag1 flag2 : Nat) (l : List (Option PictureObject)) : List PicAniInfo :=
  l.filterMap (fun p =>
    match p with
    | some obj => if passesMasks obj._flags obj._field_8 flag1 flag2 then some obj.getPicAniInfo else none
    | none => none)

/-- The second loop of `savePicAniInfos`, over `_staticANIObjectList1`; the
type of each entry is masked with 0xFFFF. -/
def saveAnis (flag1 flag2 : Nat) (l : List (Option StaticANIObject)) : List PicAniInfo :=
  l.filterMap (fun p =>
    match p with
    | some obj =>
      if passesMasks obj._flags obj._field_8 flag1 flag2 then
        some { obj.getPicAniInfo with type := obj.getPicAniInfo.type &&& 0xFFFF }
      else none
    | none => none)

/-- `GameLoader::savePicAniInfos`; the argument is `none` for a null scene. -/
def savePicAniInfos (sc : Option Scene) (flag1 flag2 : Nat) : List PicAniInfo :=
  match sc with
  | none => []
  | some sc =>
    if sc._picObjList.length = 0 then []
    else if ((sc._staticANIObjectList1.length : Int) + sc._picObjList.length - 1) < 1 then []
    else savePictures flag1 flag2 sc._picObjList ++ saveAnis flag1 flag2 sc._staticANIObjectList1

/-- `GameLoader::saveScenePicAniInfos`. -/
def saveScenePicAniInfos (sceneId : Int) (e : Engine) : Except Fault Engine :=
  match getSceneTagBySceneId e sceneId with
  | none => .ok e
  | some idx => do
    let r ← e.sc2At idx
    if !r._isLoaded then
      return e
    let st ← e.tagAt idx
    match st._scene with
    | none => return e
    | some a =>
      let sc ← e.deref a
      return e.updSc2 idx (fun r => { r with _picAniInfos := savePicAniInfos (some sc) 0 128 })

/-- `GameLoader::unloadScene`. -/
def unloadScene (sceneId : Int) (e : Engine) : Except Fault (Bool × Engine) :=
  match getSceneTagBySceneId e sceneId with
  | none => .ok (false, e)
  | some idx => do
    let r ← e.sc2At idx
    let e1 ← if r._isLoaded then saveScenePicAniInfos sceneId e else pure e
    -- _sc2array[sceneTag]._motionController->detachAllObjects()
    let r1 ← e1.sc2At idx
    let e2 ← match r1._motionController with
      | none => Except.error Fault.badPointer
      | some mc =>
        pure (e1.updSc2 idx (fun r => { r with _motionController := some mc.detachAllObjects }))
    -- delete tag->_scene; tag->_scene = nullptr
    let tag ← e2.tagAt idx
    let e3 ← match tag._scene with
      | none => pure e2
      | some a => do
        let _ ← e2.deref a
        pure { e2 with heap := heapFree e2.heap a }
    let e4 := e3.updTag idx (fun t => { t with _scene := none })
    let _ ← e4.sc2At idx
    return (true, e4.updSc2 idx (fun r => { r with _isLoaded := false, _scene := none }))

/-! ## Snapshot reapplication -/

/-- Modelled from the spec: `NGIEngine::accessScene` (ngi.cpp, not part of the
sources at hand) resolves a scene id through the registry: the live scene of
the first tag carrying the id; `none` is the null result (no such tag, or a
tag without a live scene). -/
def accessScene (e : Engine) (sceneId : Int) : Option Scene :=
  match e._sceneTagList.find? (fun t => t._sceneId == sceneId) with
  | some t =>
    match t._scene with
    | some b => heapGet e.heap b
    | none => none
  | none => none

/-- The picture branch of the loop body of `applyPicAniInfos`
(`info.type & 2`), on the scene `sc`. -/
def Scene.applyPictureInfo (sc : Scene) (info : PicAniInfo) : Scene :=
  match sc.getPictureObjectById info.objectId info.field_8 with
  | some (i, _) =>
    { sc with _picObjList := updateAt sc._picObjList i (Option.map (fun p => p.setPicAniInfo info)) }
  | none =>
    match sc.getPictureObjectById info.objectId 0 with
    | some (_, pict) =>
      -- new PictureObject(pict), push_back, setPicAniInfo
      { sc with _picObjList := sc._picObjList ++ [some (pict.setPicAniInfo info)] }
    | none => sc

/-- The animated-object branch of the loop body of `applyPicAniInfos`, once
`scNew` is resolved. -/
def Scene.applyAniInfo (sc : Scene) (scNew : Scene) (info : PicAniInfo) : Scene :=
  match sc.getStaticANIObject1ById info.objectId info.field_8 with
  | some (i, _) =>
    { sc with _staticANIObjectList1 :=
        updateAt sc._staticANIObjectList1 i (Option.map (fun a => a.setPicAniInfo info)) }
  | none =>
    match scNew.getStaticANIObject1ById info.objectId 0 with
    | some (_, ani) =>
      -- new StaticANIObject(ani), addStaticANIObject, setPicAniInfo
      sc.addStaticANIObject (ani.setPicAniInfo info)
    | none => sc

/-- The loop body of `GameLoader::applyPicAniInfos` for the scene at `sc`. -/
def applyPicAniInfo (sc : Nat) (info : PicAniInfo) (e : Engine) : Except Fault Engine :=
  if info.type &&& 2 ≠ 0 then do
    let s ← e.deref sc
    return e.setScene sc (s.applyPictureInfo info)
  else if info.type &&& 1 = 0 then
    return e
  else
    match accessScene e info.sceneId with
    | none => return e
    | some scNew => do
      let s ← e.deref sc
      return e.setScene sc (s.applyAniInfo scNew info)

/-- `GameLoader::applyPicAniInfos`: the entries are applied in list order; an
empty list returns at once. -/
def applyPicAniInfos (sc : Nat) : List PicAniInfo → Engine → Except Fault Engine
  | [], e => .ok e
  | info :: rest, e =>
    match applyPicAniInfo sc info e with
    | .ok e1 => applyPicAniInfos sc rest e1
    | .error f => .error f

/-! ## Loading -/

/-- The construction step of `loadScene`: when the tag has no scene, the scene
is built from the record's document (Popovich with a non-empty `_sceneFile`)
or by `SceneTag::loadScene`. -/
def constructScene (env : Env) (sceneId : Int) (idx : Nat) (e : Engine) : Except Fault Engine := do
  let st ← e.tagAt idx
  match st._scene with
  | some _ => return e
  | none =>
    if env.isPopovich then do
      let r ← e.sc2At idx
      if r._sceneFile ≠ "" then
        return env.loadSceneXML sceneId e
      else
        return env.tagLoadScene idx e
    else
      return env.tagLoadScene idx e

/-- `GameLoader::loadScene`. -/
def loadScene (env : Env) (sceneId : Int) (e : Engine) : Except Fault (Bool × Engine) :=
  match getSceneTagBySceneId e sceneId with
  | none => .ok (false, e)
  | some idx => do
    let e1 ← constructScene env sceneId idx e
    let st ← e1.tagAt idx
    match st._scene with
    | none => return (false, e1)
    | some a =>
      -- st->_scene->init()
      let sc ← e1.deref a
      let e2 := e1.setScene a (env.sceneInit sc)
      let r2 ← e2.sc2At idx
      let e3 ← applyPicAniInfos a r2._defPicAniInfos e2
      let r3 ← e3.sc2At idx
      let e4 ← applyPicAniInfos a r3._picAniInfos e3
      let st4 ← e4.tagAt idx
      let _ ← e4.sc2At idx
      return (true, e4.updSc2 idx (fun r => { r with _scene := st4._scene, _isLoaded := true }))

/-! ## Scene switch -/

/-- The entrance scan of `gotoScene`,
`for (entranceIdx = 0; _entranceData[entranceIdx]._field_4 != entranceId; entranceIdx++)
   if (entranceIdx >= _entranceData.size()) return false;`.
The list argument is the part of `_entranceData` from `entranceIdx` on, so its
head is `_entranceData[entranceIdx]` and the empty list is the read at
`entranceIdx = size`.  `ok none` is `return false`, `ok (some i)` leaves the
loop with `entranceIdx = i`. -/
def scanEntrances (entranceId : Int) (size : Nat) : List EntranceInfo → Nat → Except Fault (Option Nat)
  | [], _ => .error .outOfBounds
  | en :: rest, entranceIdx =>
    if en._field_4 != entranceId then
      if entranceIdx ≥ size then .ok none
      else scanEntrances entranceId size rest (entranceIdx + 1)
    else .ok (some entranceIdx)

/-- The choice of `entranceIdx` in `gotoScene`: the scan, skipped for scene 726. -/
def selectEntrance (sceneId entranceId : Int) (entranceData : List EntranceInfo) :
    Except Fault (Option Nat) :=
  if sceneId ≠ 726 then scanEntrances entranceId entranceData.length entranceData 0
  else .ok (some 0)

/-- The read `_sc2array[sc2idx]._entranceData[entranceIdx]`. -/
def Engine.entranceAt (e : Engine) (sc2idx entranceIdx : Nat) : Except Fault EntranceInfo := do
  let r ← e.sc2At sc2idx
  match r._entranceData[entranceIdx]? with
  | some en => .ok en
  | none => .error .outOfBounds

/-- The statement `stobj->_flags &= mask` on the anchor object
`getStaticANIObject1ById(_field_FA, -1)` of the scene, when there is one. -/
def Scene.maskAnchorFlags (sc : Scene) (anchorId : Int) (mask : Nat) : Scene :=
  match sc.getStaticANIObject1ById anchorId (-1) with
  | some (i, _) =>
    { sc with _staticANIObjectList1 :=
        updateAt sc._staticANIObjectList1 i (Option.map (fun a => { a with _flags := a._flags &&& mask })) }
  | none => sc

/-- The queue handed to `chain` by `gotoScene`: the clone of `mq1`, with the
command for the anchor object appended when the scene has one, and flag 1 set. -/
def entranceQueue (sc : Scene) (anchorId : Int) (mq1 : MessageQueue) : MessageQueue :=
  let mq : MessageQueue := mq1
  let mq : MessageQueue :=
    match sc.getStaticANIObject1ById anchorId (-1) with
    | some (_, stobj) =>
      let ex := ExCommand.new stobj._id 34 256 0 0 0 1 0 0 0
      let ex := { ex with _z := 256, _messageNum := 0, _excFlags := ex._excFlags ||| 3 }
      { mq with _exCommands := mq._exCommands ++ [ex] }
    | none => mq
  { mq with _flags := mq._flags ||| 1 }

/-- The part of `gotoScene` after the scene-switch hook accepted: the input
coordinates are reset, the tag's scene becomes current, and the entrance's
queue is chained or the anchor object masked. -/
def gotoSceneEnter (env : Env) (sc2idx entranceIdx : Nat) (g : GameLoader) :
    Except Fault Bool × GameLoader :=
  let e3 := { g.eng with _msgObjectId2 := 0, _msgY := -1, _msgX := -1 }
  match e3.tagAt sc2idx with
  | .error f => (.error f, { g with eng := e3 })
  | .ok st =>
    let e4 := { e3 with _currentScene := st._scene }
    let g4 := { g with eng := e4 }
    match e4.entranceAt sc2idx entranceIdx with
    | .error f => (.error f, g4)
    | .ok en =>
      match e4._currentScene with
      | none => (.error .badPointer, g4)
      | some a =>
        match e4.deref a with
        | .error f => (.error f, g4)
        | .ok sc =>
          match sc.getMessageQueueById en._messageQueueId with
          | some mq1 =>
            let mq := entranceQueue sc g._field_FA mq1
            let e5 := e4.setScene a (sc.maskAnchorFlags g._field_FA 0x100)
            let r := env.chain mq e5
            let g6 := { g with eng := r.2, trace := g.trace ++ [Event.chain mq] }
            if !r.1 then (.ok false, g6) else (.ok true, g6)
          | none =>
            (.ok true, { g with eng := e4.setScene a (sc.maskAnchorFlags g._field_FA 0xfeff) })

/-- `GameLoader::gotoScene`. -/
def gotoScene (env : Env) (sceneId entranceId : Int) (g : GameLoader) :
    Except Fault Bool × GameLoader :=
  match getSceneTagBySceneId g.eng sceneId with
  | none => (.ok false, g)
  | some sc2idx =>
    match g.eng.sc2At sc2idx with
    | .error f => (.error f, g)
    | .ok r =>
      if !r._isLoaded then (.ok false, g)
      else if r._entranceData.length < 1 then
        match g.eng.tagAt sc2idx with
        | .error f => (.error f, g)
        | .ok st => (.ok true, { g with eng := { g.eng with _currentScene := st._scene } })
      else if r._entranceData.length = 0 then (.ok false, g)
      else
        match selectEntrance sceneId entranceId r._entranceData with
        | .error f => (.error f, g)
        | .ok none => (.ok false, g)
        | .ok (some entranceIdx) =>
          -- sg->setSubVarAsInt("Entrance", entranceId)
          let e1 := { g.eng with savedEntrance := some entranceId }
          match e1.entranceAt sc2idx entranceIdx with
          | .error f => (.error f, { g with eng := e1 })
          | .ok en =>
            let r := env.sceneSwitcher en e1
            let g2 := { g with eng := r.2, trace := g.trace ++ [Event.sceneSwitcher en] }
            if !r.1 then (.ok false, g2)
            else gotoSceneEnter env sc2idx entranceIdx g2

/-! ## Preload -/

/-- The search loop of `preloadScene`: the index of the first item with
`preloadId1 == sceneId && preloadId2 == entranceId`, counting from `i`. -/
def findPreloadItem (sceneId entranceId : Int) : List PreloadItem → Nat → Option Nat
  | [], _ => none
  | it :: rest, i =>
    if it.preloadId1 == sceneId && it.preloadId2 == entranceId then some i
    else findPreloadItem sceneId entranceId rest (i + 1)

/-- The guarded call `if (_preloadCallback) _preloadCallback(_preloadItems[idx], flag)`:
the result of the callback (true when none is installed) and the state it
leaves; the item is passed by reference. -/
def GameLoader.callPreloadCallback (env : Env) (idx : Nat) (flag : Int) (g : GameLoader) :
    Bool × GameLoader :=
  match env._preloadCallback, g._preloadItems[idx]? with
  | some cb, some item =>
    let r := cb item flag g.eng
    (r.1, { g with
              eng := r.2.2,
              _preloadItems := g._preloadItems.set idx r.2.1,
              trace := g.trace ++ [Event.preloadCallback item flag] })
  | _, _ => (true, g)

/-- The statement
`if (g_nmi->_currentScene && g_nmi->_currentScene->_sceneId == sceneId) g_nmi->_currentScene = 0`. -/
def clearCurrentScene (sceneId : Int) (e : Engine) : Except Fault Engine :=
  match e._currentScene with
  | none => .ok e
  | some a => do
    let sc ← e.deref a
    if sc._sceneId == sceneId then
      return { e with _currentScene := none }
    else
      return e

/-- The part of `preloadScene` after the progress-0 callback let the swap go on. -/
def preloadSwap (env : Env) (sceneId : Int) (idx : Nat) (g1 : GameLoader) :
    Except Fault Bool × GameLoader :=
  match clearCurrentScene sceneId g1.eng with
  | .error f => (.error f, g1)
  | .ok e2 =>
    let g2 := { g1 with eng := e2, trace := g1.trace ++ [Event.saveScenePicAniInfos sceneId] }
    match saveScenePicAniInfos sceneId e2 with
    | .error f => (.error f, g2)
    | .ok e3 =>
      let g4 := { g2 with
                  eng := env.clearGlobalMessageQueueList1 e3,
                  trace := g2.trace ++ [Event.clearGlobalMessageQueueList1, Event.unloadScene sceneId] }
      match unloadScene sceneId g4.eng with
      | .error f => (.error f, g4)
      | .ok (_, e5) =>
        let g6 := (GameLoader.callPreloadCallback env idx 50 { g4 with eng := e5 }).2
        match g6._preloadItems[idx]? with
        | none => (.error .outOfBounds, g6)
        | some item =>
          let g7 := { g6 with trace := g6.trace ++ [Event.loadScene item.sceneId] }
          match loadScene env item.sceneId g7.eng with
          | .error f => (.error f, g7)
          | .ok (_, e8) =>
            let ex := { ExCommand.new item.sceneId 17 62 0 0 0 1 0 0 0 with
                        _excFlags := 2, _param := item.param }
            let g9 := { g7 with eng := e8, _preloadSceneId := 0, _preloadEntranceId := 0 }
            let g10 := (GameLoader.callPreloadCallback env idx 100 g9).2
            (.ok true, { g10 with trace := g10.trace ++ [Event.postMessage ex] })

/-- `GameLoader::preloadScene`. -/
def preloadScene (env : Env) (sceneId entranceId : Int) (g : GameLoader) :
    Except Fault Bool × GameLoader :=
  if g._preloadSceneId ≠ sceneId ∨ g._preloadEntranceId ≠ entranceId then
    (.ok true, { g with _preloadSceneId := sceneId, _preloadEntranceId := entranceId })
  else
    match findPreloadItem sceneId entranceId g._preloadItems 0 with
    | none => (.ok false, { g with _preloadSceneId := 0, _preloadEntranceId := 0 })
    | some idx =>
      let r := GameLoader.callPreloadCallback env idx 0 g
      if !r.1 then (.ok false, r.2)
      else preloadSwap env sceneId idx r.2

/-! ## Sample states used by the concrete checks -/

/-- A collaborator set with no preload callback, an accepting scene-switch
hook, a chaining collaborator that reports failure, and construction steps
that build nothing. -/
def sampleEnv : Env :=
  { isPopovich := false
    tagLoadScene := fun _ e => e
    loadSceneXML := fun _ e => e
    sceneInit := fun s => s
    _preloadCallback := none
    sceneSwitcher := fun _ e => (true, e)
    chain := fun _ e => (false, e)
    clearGlobalMessageQueueList1 := fun e => e }

/-- A preload callback that never vetoes and leaves item and engine alone. -/
def quietCallback : PreloadItem → Int → Engine → Bool × PreloadItem × Engine :=
  fun item _ e => (true, item, e)

/-- The sample collaborators with `quietCallback` installed. -/
def sampleEnvCb : Env :=
  { sampleEnv with _preloadCallback := some quietCallback }

/-- Scene 5: one picture, one queue with id 9. -/
def sampleScene : Scene :=
  { _sceneId := 5
    _picObjList := [some ⟨1, 0, 0, 0, 0, 0, 0⟩]
    _staticANIObjectList1 := []
    _messageQueueList := [⟨9, 0, []⟩] }

/-- The record of scene 5: loaded, with a motion controller and one entrance
whose hint id is 1 and whose queue id is 9. -/
def sampleSc2 : Sc2 :=
  { _sceneId := 5
    _scene := some 7
    _isLoaded := true
    _motionController := some ⟨0, []⟩
    _defPicAniInfos := []
    _picAniInfos := []
    _entranceData := [⟨5, 1, 9⟩]
    _sceneFile := "" }

/-- An engine state with scene 5 registered, loaded and live at address 7, and
no current scene. -/
def sampleEngine : Engine :=
  { _sc2array := [sampleSc2]
    _sceneTagList := [⟨5, some 7⟩]
    heap := [(7, sampleScene)]
    _currentScene := none
    _msgX := 0
    _msgY := 0
    _msgObjectId2 := 0
    savedEntrance := none }

/-- A loader on `sampleEngine` with the pending pair (5, 1) and one preload
item from (5, 1) to scene 6 with param 3. -/
def sampleLoader : GameLoader :=
  { eng := sampleEngine
    _preloadSceneId := 5
    _preloadEntranceId := 1
    _preloadItems := [⟨5, 1, 6, 3⟩]
    _field_FA := 0
    trace := [] }

/-- The record of scene 5 as `addSceneXML` leaves it: registered, never
loaded, no motion controller. -/
def bareSc2 : Sc2 :=
  { _sceneId := 5
    _scene := none
    _isLoaded := false
    _motionController := none
    _defPicAniInfos := []
    _picAniInfos := []
    _entranceData := []
    _sceneFile := "sc5.xml" }

/-- A loader in which scene 5 is registered by `addSceneXML` only, (5, 1) is
pending and one preload item leads from (5, 1) to scene 6. -/
def bareLoader : GameLoader :=
  { eng :=
      { _sc2array := [bareSc2]
        _sceneTagList := [⟨5, none⟩]
        heap := []
        _currentScene := none
        _msgX := 0
        _msgY := 0
        _msgObjectId2 := 0
        savedEntrance := none }
    _preloadSceneId := 5
    _preloadEntranceId := 1
    _preloadItems := [⟨5, 1, 6, 3⟩]
    _field_FA := 0
    trace := [] }

/-- The command `preloadScene` builds for an item:
`ExCommand(item.sceneId, 17, 62, 0, 0, 0, 1, 0, 0, 0)` with `_excFlags = 2`
and `_param = item.param`. -/
def preloadCommand (item : PreloadItem) : ExCommand :=
  { ExCommand.new item.sceneId 17 62 0 0 0 1 0 0 0 with _excFlags := 2, _param := item.param }

/-- The engine state `sampleEngine` after scene 5 was unloaded: the scene is
freed, the tag and the record point nowhere, the record is not loaded. -/
def sampleUnloaded : Engine :=
  { sampleEngine with
    _sc2array := [{ sampleSc2 with _scene := none, _isLoaded := false }]
    _sceneTagList := [⟨5, none⟩]
    heap := [] }

/-- A picture snapshot (kind bit 2) for object 1, copy 0, at the given
position and priority. -/
def pictureInfo (ox oy priority : Int) : PicAniInfo :=
  { PicAniInfo.zero with type := 2, objectId := 1, ox := ox, oy := oy, priority := priority }

/-- The record of scene 5 before a load: a default snapshot placing picture 1
at (10, 10) and a current snapshot placing it at (20, 20). -/
def snapSc2 : Sc2 :=
  { sampleSc2 with
    _scene := none
    _isLoaded := false
    _defPicAniInfos := [pictureInfo 10 10 1]
    _picAniInfos := [pictureInfo 20 20 2] }

/-- Scene 5 registered with `snapSc2`, not constructed yet. -/
def snapEngine : Engine :=
  { sampleUnloaded with _sc2array := [snapSc2] }

/-- Collaborators whose `SceneTag::loadScene` builds `sampleScene` at address
7 and stores the pointer in the tag. -/
def buildEnv : Env :=
  { sampleEnv with
    tagLoadScene := fun idx e =>
      { e with heap := (7, sampleScene) :: e.heap
               _sceneTagList := updateAt e._sceneTagList idx (fun t => { t with _scene := some 7 }) } }

/-- The state `snapEngine` right after the construction step of `buildEnv`. -/
def snapBuilt : Engine :=
  { snapEngine with heap := [(7, sampleScene)], _sceneTagList := [⟨5, some 7⟩] }

/-! ## Scene-level view of snapshot reapplication -/

/-- The effect of one iteration of the loop of `applyPicAniInfos` on the scene
it is applied to: `e` is the engine state around the scene, `a` the address
of the scene and `s` its present contents. -/
def sceneApplyInfo (e : Engine) (a : Nat) (info : PicAniInfo) (s : Scene) : Scene :=
  if info.type &&& 2 ≠ 0 then s.applyPictureInfo info
  else if info.type &&& 1 = 0 then s
  else
    match accessScene (e.setScene a s) info.sceneId with
    | none => s
    | some scNew => s.applyAniInfo scNew info

/-- The effect of the whole loop of `applyPicAniInfos` on the scene it is
applied to, entries in list order. -/
def sceneApplyInfos (e : Engine) (a : Nat) : List PicAniInfo → Scene → Scene
  | [], s => s
  | info :: rest, s => sceneApplyInfos e a rest (sceneApplyInfo e a info s)


/-- The commands posted according to a trace, in posting order. -/
def postedCommands (t : List Event) : List ExCommand :=
  t.filterMap (fun ev =>
    match ev with
    | Event.postMessage ex => some ex
    | _ => none)

/-- The engine state `sampleEngine` with the motion controller of scene 5
missing: the record is loaded and its scene is live, as after loading a scene
registered by `addSceneXML` whose document has no MCTLCOMPOUND node. -/
def sampleNoController : Engine :=
  { sampleEngine with _sc2array := [{ sampleSc2 with _motionController := none }] }

/-- The record list and the tag list are index-aligned: same length and the
same scene id at every index. -/
def Engine.Aligned (e : Engine) : Prop :=
  e._sc2array.map (fun r => r._sceneId) = e._sceneTagList.map (fun t => t._sceneId)

/-- Scene 8: three pictures and two animated objects, none of them null. -/
def fiveObjectScene : Scene :=
  { _sceneId := 8
    _picObjList := [some ⟨1, 0, 0, 0, 0, 0, 0⟩, some ⟨2, 0, 0, 0, 5, 5, 1⟩, some ⟨3, 0, 0, 0, 9, 9, 2⟩]
    _staticANIObjectList1 :=
      [some ⟨10, 0, 0, 0, 1, 2, 3, 8, 0, 0, 0, 0, 0⟩, some ⟨11, 0, 0, 0, 4, 5, 6, 8, 0, 0, 0, 0, 0⟩]
    _messageQueueList := [] }

/-! ## Registration -/

/-- `GameLoader::addSceneXML`: a record (as `Sc2::Sc2()` leaves it, with the
id and the document name) and a tag (with the id) are appended; nothing is
looked up first. -/
def addSceneXML (sceneId : Int) (fname : String) (e : Engine) : Engine :=
  { e with
    _sc2array := e._sc2array ++
      [{ _sceneId := sceneId
         _scene := none
         _isLoaded := false
         _motionController := none
         _defPicAniInfos := []
         _picAniInfos := []
         _entranceData := []
         _sceneFile := fname }]
    _sceneTagList := e._sceneTagList ++ [⟨sceneId, none⟩] }

/-- The loop of `GameLoader::findSc2`, counting from `i`. -/
def findSc2Loop (sceneId : Int) : List Sc2 → Nat → Option Nat
  | [], _ => none
  | r :: rest, i => if r._sceneId == sceneId then some i else findSc2Loop sceneId rest (i + 1)

/-- `GameLoader::findSc2`: the position of the first record carrying the id
(the returned pointer is `&_sc2array[i]`), `none` for null. -/
def findSc2 (e : Engine) (sceneId : Int) : Option Nat :=
  findSc2Loop sceneId e._sc2array 0

/-- Modelled from the spec: the variant tag `kObjTypeMctlCompound` of a
compound motion controller (declared in a header that is not part of the
sources at hand); only its being one fixed tag is used. -/
def kObjTypeMctlCompound : Nat := 7

/-- The text the conversion `%08d` (or `%08i`) produces for a number: decimal
digits, padded with zeros to eight characters, the sign included. -/
def formatInt08 (n : Int) : String :=
  let digits := toString n.natAbs
  if n < 0 then "-" ++ String.mk (List.replicate (7 - digits.length) '0') ++ digits
  else String.mk (List.replicate (8 - digits.length) '0') ++ digits

/-- The text `Common::String::format("sc%08i.xml", sceneId)`. -/
def formatSc2File (sceneId : Int) : String :=
  "sc" ++ formatInt08 sceneId ++ ".xml"

/-- Modelled from the spec: `GameProject::addSceneTag` (not part of the sources
at hand) appends a tag that carries the id of the scene and refers to it. -/
def addSceneTag (tags : List SceneTag) (sceneId : Int) (scene : Nat) : List SceneTag :=
  tags ++ [⟨sceneId, some scene⟩]

/-- `GameLoader::makeSc2` for the scene at address `scene`: a record with the
scene's id, a fresh compound controller, the scene pointer and the generated
document name is appended (`_isLoaded` stays false, as `Sc2::Sc2()` sets it),
and a tag is added; nothing is looked up first. -/
def makeSc2 (scene : Nat) (e : Engine) : Except Fault Engine := do
  let sc ← e.deref scene
  return { e with
    _sc2array := e._sc2array ++
      [{ _sceneId := sc._sceneId
         _scene := some scene
         _isLoaded := false
         _motionController := some ⟨kObjTypeMctlCompound, []⟩
         _defPicAniInfos := []
         _picAniInfos := []
         _entranceData := []
         _sceneFile := formatSc2File sc._sceneId }]
    _sceneTagList := addSceneTag e._sceneTagList sc._sceneId scene }

/-- One registration: a call of `addSceneXML` or of `makeSc2`. -/
inductive Registration
  | addSceneXML (sceneId : Int) (fname : String)
  | makeSc2 (scene : Nat)

/-- The scene id a registration carries; for `makeSc2` it is read from the
scene. -/
def Registration.sceneId (heap : List (Nat × Scene)) : Registration → Int
  | .addSceneXML sceneId _ => sceneId
  | .makeSc2 scene =>
    match heapGet heap scene with
    | some sc => sc._sceneId
    | none => 0

/-- The effect of one registration. -/
def register (op : Registration) (e : Engine) : Except Fault Engine :=
  match op with
  | .addSceneXML sceneId fname => .ok (addSceneXML sceneId fname e)
  | .makeSc2 scene => makeSc2 scene e

/-- The effect of a sequence of registrations, in order. -/
def registerAll : List Registration → Engine → Except Fault Engine
  | [], e => .ok e
  | op :: rest, e =>
    match register op e with
    | .ok e1 => registerAll rest e1
    | .error f => .error f

/-- An engine state with an empty registry and the given live scenes. -/
def emptyRegistry (heap : List (Nat × Scene)) : Engine :=
  { _sc2array := []
    _sceneTagList := []
    heap := heap
    _currentScene := none
    _msgX := 0
    _msgY := 0
    _msgObjectId2 := 0
    savedEntrance := none }

/-! ## Parsed documents -/

/-- Modelled from the spec: a node of the key-value tree the document parser
returns (`GameVar`, declared in a header that is not part of the sources at
hand): its name, its integer and its text properties, and its children in
`_subVars`/`_nextVarObj` order. -/
inductive GameVar
  | node (varName : String) (ints : List (String × Int)) (strings : List (String × String))
      (subVars : List GameVar)

/-- The member `_varName`. -/
def GameVar._varName : GameVar → String
  | .node n _ _ _ => n

/-- The children: `_subVars` followed along `_nextVarObj`. -/
def GameVar._subVars : GameVar → List GameVar
  | .node _ _ _ cs => cs

/-- Modelled from the spec: `GameVar::getPropertyAsInt`, 0 for a property the
node does not have. -/
def GameVar.getPropertyAsInt : GameVar → String → Int
  | .node _ ints _ _, key =>
    match ints.find? (fun p => p.1 == key) with
    | some p => p.2
    | none => 0

/-- Modelled from the spec: `GameVar::getPropertyAsString`, the empty text for
a property the node does not have. -/
def GameVar.getPropertyAsString : GameVar → String → String
  | .node _ _ strings _, key =>
    match strings.find? (fun p => p.1 == key) with
    | some p => p.2
    | none => ""

/-- Modelled from the spec: `GameVar::getSubVarsCountByName`, the number of
children with the given name. -/
def GameVar.getSubVarsCountByName (gv : GameVar) (name : String) : Nat :=
  (gv._subVars.filter (fun c => c._varName == name)).length

/-! ## The synthesized backdrop -/

/-- The tag `MKTAG(a, b, c, d)` of four bytes. -/
def MKTAG (a b c d : Nat) : Nat :=
  a * 16777216 + b * 65536 + c * 256 + d

/-- The conversion of an `int` to `uint`. -/
def toUint (x : Int) : Nat :=
  (x % 4294967296).toNat

/-- Modelled from the spec: what the tile loop reads from a background tile
(`BigPicture`, not part of the sources at hand) once `load2` and `init` have
run on it: its dimensions and the type of its bitmap. -/
structure BigPicture where
  dimX : Int
  dimY : Int
  bitmapType : Nat
  deriving DecidableEq, Repr

/-- The test of the tile loop on a bitmap type. -/
def isHighDepthTag (bitmapType : Nat) : Bool :=
  bitmapType == MKTAG 'C'.toNat 'B'.toNat 0x88 0x88
    || bitmapType == MKTAG 'C'.toNat 'B'.toNat 0x80 0x08
    || bitmapType == MKTAG 'C'.toNat 'B'.toNat 0x08 0x88

/-- The locals of the tile loop of `loadSceneXML(GameVar*)` together with
`_bigPictureArray`; an array slot is `none` while nothing was loaded into the
`BigPicture` it points to. -/
structure TileScan where
  _bigPictureArray : List (Option BigPicture)
  type : Bool
  dim : Int × Int
  width : Int
  height : Int
  deriving DecidableEq, Repr

/-- The body of the inner tile loop for column `i` and row `j`: a blank tile
is pushed, the tile file `j * xDim + i` is loaded into slot `i` of the array,
and dimensions and bitmap type are read from slot `i`. -/
def tileStep (loadTile : Nat → BigPicture) (xDim i j : Nat) (s : TileScan) :
    Except Fault TileScan :=
  let arr := s._bigPictureArray ++ [none]
  if i < arr.length then
    let arr1 := arr.set i (some (loadTile ((j * xDim + i) % 4294967296)))
    match arr1[i]? with
    | some (some t) =>
      .ok { _bigPictureArray := arr1
            type := if isHighDepthTag t.bitmapType then true else s.type
            dim := (t.dimX, t.dimY)
            width := s.width
            height := s.height + t.dimY }
    | _ => .error .badPointer
  else .error .outOfBounds

/-- The inner tile loop `for (j; j < yDim; ++j)` with `n` iterations left. -/
def tileColumn (loadTile : Nat → BigPicture) (xDim i : Nat) :
    Nat → Nat → TileScan → Except Fault TileScan
  | 0, _, s => .ok s
  | n + 1, j, s =>
    match tileStep loadTile xDim i j s with
    | .ok s1 => tileColumn loadTile xDim i n (j + 1) s1
    | .error f => .error f

/-- The outer tile loop `for (i; i < xDim; ++i)` with `n` iterations left:
`height` is reset, the column is run, and the width of the tile last read is
added to `width`. -/
def tileGrid (loadTile : Nat → BigPicture) (xDim yDim : Nat) :
    Nat → Nat → TileScan → Except Fault TileScan
  | 0, _, s => .ok s
  | n + 1, i, s =>
    match tileColumn loadTile xDim i yDim 0 { s with height := 0 } with
    | .ok s1 => tileGrid loadTile xDim yDim n (i + 1) { s1 with width := s1.width + s1.dim.1 }
    | .error f => .error f

/-- The seven words `loadSceneXML(GameVar*)` writes at `data + 16`. -/
structure DibHeader where
  x : Int
  y : Int
  width : Nat
  height : Nat
  pixels : Nat
  type : Nat
  flags : Nat
  deriving DecidableEq, Repr

/-- The tile loop and the header of the synthesized backdrop of
`loadSceneXML(GameVar*)`.  `loadTile sceneId n` is the content of tile file
`n` of the scene; `dim` starts at (0, 0); `height0` stands for the value of the
local `height`, which the code leaves unset until the outer loop runs. -/
def backdropHeader (loadTile : Int → Nat → BigPicture) (height0 : Int) (gv : GameVar) :
    Except Fault DibHeader :=
  let sceneId := gv.getPropertyAsInt "id"
  let xDim := toUint (gv.getPropertyAsInt "nPartsX")
  let yDim := toUint (gv.getPropertyAsInt "nPartsY")
  match tileGrid (loadTile sceneId) xDim yDim xDim 0 ⟨[], false, (0, 0), 0, height0⟩ with
  | .ok s =>
    .ok { x := 0
          y := 0
          width := toUint s.width
          height := toUint s.height
          pixels := 0
          type := if s.type then MKTAG 'C'.toNat 'B'.toNat 0x88 0x88
                  else MKTAG 'C'.toNat 'B'.toNat 0x05 0x65
          flags := 0 }
  | .error f => .error f

/-! ## Document-sourced scenes -/

/-- `LoadEntranceXML`: the three numbers of an entrance (the two texts it
copies are not part of `EntranceInfo` here). -/
def LoadEntranceXML (gv : GameVar) : EntranceInfo :=
  { _sceneId := gv.getPropertyAsInt "nIdScene"
    _field_4 := gv.getPropertyAsInt "nIdHind"
    _messageQueueId := gv.getPropertyAsInt "nIdQueue" }

/-- `LoadPicAniInfoXML`: every member of the snapshot is assigned from a
property of the node. -/
def LoadPicAniInfoXML (gv : GameVar) : PicAniInfo :=
  { type := toUint (gv.getPropertyAsInt "dwObjType")
    objectId := gv.getPropertyAsInt "nId"
    field_8 := gv.getPropertyAsInt "iCopy"
    sceneId := gv.getPropertyAsInt "nParentScene"
    ox := gv.getPropertyAsInt "x"
    oy := gv.getPropertyAsInt "y"
    priority := gv.getPropertyAsInt "z"
    staticsId := gv.getPropertyAsInt "nIdStatics"
    movementId := gv.getPropertyAsInt "nIdMovement"
    dynamicPhaseIndex := gv.getPropertyAsInt "nMovementPhase"
    flags := toUint (gv.getPropertyAsInt "wFlags")
    field_24 := toUint (gv.getPropertyAsInt "dwExFlags")
    someDynamicPhaseIndex := gv.getPropertyAsInt "nStopPhase" }

/-- What `loadSceneXML` obtains from files and from loaders whose results
depend on files: the parsed document of a scene file, the background tiles,
the picture and animated object of a node (`LoadPicXML`, `LoadAniXML`, null
for an animated object that is a copy), the queue of a node
(`MessageQueue::loadFromXML`), the controller of a node
(`LoadMctlCompoundXML`), and the value the local `height` holds before it is
first assigned. -/
structure DocLoaders where
  parseXML : String → Option GameVar
  loadTile : Int → Nat → BigPicture
  LoadPicXML : GameVar → String → PictureObject
  LoadAniXML : GameVar → String → Option StaticANIObject
  loadFromXML : GameVar → MessageQueue
  LoadMctlCompoundXML : GameVar → Except Fault MotionController
  height0 : Int

/-- The locals of the child loop of `loadSceneXML(GameVar*)`. -/
structure SceneBuild where
  scene : Scene
  entranceArray : List EntranceInfo
  objStateArray : List PicAniInfo
  entrance : Nat
  objState : Nat
  mctlCompound : Option MotionController

/-- The body of the child loop of `loadSceneXML(GameVar*)` for the child `i`. -/
def loadChild (dl : DocLoaders) (filePrefix : String) (i : GameVar) (b : SceneBuild) :
    Except Fault SceneBuild :=
  if i._varName == "PICTURE" then
    .ok { b with scene :=
            { b.scene with _picObjList := b.scene._picObjList ++ [some (dl.LoadPicXML i filePrefix)] } }
  else if i._varName == "ANI" then
    match dl.LoadAniXML i filePrefix with
    | some aniObj =>
      .ok { b with scene := b.scene.addStaticANIObject { aniObj with _sceneId := b.scene._sceneId } }
    | none => .ok b
  else if i._varName == "ENTRANCE" then
    if b.entrance < b.entranceArray.length then
      .ok { b with entranceArray := b.entranceArray.set b.entrance (LoadEntranceXML i)
                   entrance := b.entrance + 1 }
    else .error .outOfBounds
  else if i._varName == "QUEUE" then
    .ok { b with scene :=
            { b.scene with _messageQueueList := b.scene._messageQueueList ++ [dl.loadFromXML i] } }
  else if i._varName == "OBJSTATE" then
    if b.objState < b.objStateArray.length then
      .ok { b with objStateArray := b.objStateArray.set b.objState (LoadPicAniInfoXML i)
                   objState := b.objState + 1 }
    else .error .outOfBounds
  else if i._varName == "MCTLCOMPOUND" then
    match dl.LoadMctlCompoundXML i with
    | .ok mc => .ok { b with mctlCompound := some mc }
    | .error f => .error f
  else .ok b

/-- The child loop of `loadSceneXML(GameVar*)`, children in document order. -/
def loadChildren (dl : DocLoaders) (filePrefix : String) :
    List GameVar → SceneBuild → Except Fault SceneBuild
  | [], b => .ok b
  | i :: rest, b =>
    match loadChild dl filePrefix i b with
    | .ok b1 => loadChildren dl filePrefix rest b1
    | .error f => .error f

/-- The address `new Scene()` returns: one that no live scene has. -/
def freshAddr (h : List (Nat × Scene)) : Nat :=
  (h.map (fun c => c.1)).foldl max 0 + 1

/-- Modelled from the spec: `GameProject::findSceneTagById` (not part of the
sources at hand) finds the first tag carrying the id; `none` is null. -/
def findSceneTagById (e : Engine) (sceneId : Int) : Option Nat :=
  findSceneTag sceneId e._sceneTagList 0

/-- The registry part of `loadSceneXML(GameVar*)`: the record of the scene is
looked up; when there is none, `makeSc2` adds one and the lookup is repeated,
otherwise the scene pointer is stored in the record and in the tag with the
scene's id.  The result is the position of the record and the new state. -/
def attachScene (scene : Nat) (sceneId : Int) (e : Engine) : Except Fault (Nat × Engine) :=
  match findSc2 e sceneId with
  | none => do
    let e1 ← makeSc2 scene e
    match findSc2 e1 sceneId with
    | some idx => return (idx, e1)
    | none => throw Fault.badPointer
  | some idx =>
    let e1 := e.updSc2 idx (fun r => { r with _scene := some scene })
    match findSceneTagById e1 sceneId with
    | some t => return (idx, e1.updTag t (fun st => { st with _scene := some scene }))
    | none => throw Fault.badPointer

/-- `GameLoader::loadSceneXML(GameVar *gv)`.  A node with a document name
registers the scene through `addSceneXML`.  Otherwise the scene is built (the
synthesized backdrop picture first, then the children), attached to the
registry, and its record receives the default snapshots, the entrances and the
controller; `_isLoaded` is not assigned. -/
def loadSceneXMLGameVar (dl : DocLoaders) (gv : GameVar) (e : Engine) : Except Fault Engine :=
  let xmlFile := gv.getPropertyAsString "szXmlFile"
  if xmlFile ≠ "" then
    .ok (addSceneXML (gv.getPropertyAsInt "id") xmlFile e)
  else do
    let sceneId := gv.getPropertyAsInt "id"
    let objStateCount := gv.getSubVarsCountByName "OBJSTATE"
    let entranceCount := gv.getSubVarsCountByName "ENTRANCE"
    let _ ← backdropHeader dl.loadTile dl.height0 gv
    let scene : Scene :=
      { _sceneId := sceneId
        _picObjList := [some ⟨0, 0, 0, 0, 0, 0, 0⟩]
        _staticANIObjectList1 := []
        _messageQueueList := [] }
    let filePrefix := formatInt08 sceneId ++ String.singleton (Char.ofNat 92)
    let b ← loadChildren dl filePrefix gv._subVars
      { scene := scene
        entranceArray := List.replicate entranceCount ⟨0, 0, 0⟩
        objStateArray := List.replicate objStateCount PicAniInfo.zero
        entrance := 0
        objState := 0
        mctlCompound := none }
    let a := freshAddr e.heap
    let e1 := { e with heap := e.heap ++ [(a, b.scene)] }
    let (idx, e2) ← attachScene a sceneId e1
    let _ ← e2.sc2At idx
    let e3 := e2.updSc2 idx (fun r =>
      { r with _defPicAniInfos := b.objStateArray
               _entranceData := b.entranceArray
               _motionController := b.mctlCompound })
    let xmlFile2 := gv.getPropertyAsString "szXmlFile"
    if xmlFile2 ≠ "" then
      return e3.updSc2 idx (fun r => { r with _sceneFile := xmlFile2 })
    else
      return e3

/-- `GameLoader::loadSceneXML(int sceneId)`: when the record has no scene and
names a document, the document is parsed and handed to the other overload;
afterwards the archive is stored through `_sc2array[idx]._scene`. -/
def loadSceneXML (dl : DocLoaders) (sceneId : Int) (e : Engine) : Except Fault (Bool × Engine) :=
  match getSceneTagBySceneId e sceneId with
  | none => .ok (false, e)
  | some idx => do
    let r ← e.sc2At idx
    match r._scene with
    | some _ => return (true, e)
    | none =>
      if r._sceneFile = "" then
        return (false, e)
      else
        match dl.parseXML r._sceneFile with
        | none => throw Fault.badPointer
        | some gv => do
          let e1 ← loadSceneXMLGameVar dl gv e
          let r1 ← e1.sc2At idx
          match r1._scene with
          | none => throw Fault.badPointer
          | some a =>
            let _ ← e1.deref a
            return (true, e1)

/-- Two flag lists agree at every index both have. -/
def flagsAgree : List Bool → List Bool → Bool
  | x :: xs, y :: ys => (x == y) && flagsAgree xs ys
  | _, _ => true

/-- Two flag lists agree at every index both have, except that at index `idx`
the first flag may be false while the second is true. -/
def flagsAgreeBut : Nat → List Bool → List Bool → Bool
  | 0, x :: xs, y :: ys => (!x || y) && flagsAgree xs ys
  | idx + 1, x :: xs, y :: ys => (x == y) && flagsAgreeBut idx xs ys
  | _, _, _ => true

/-- The loaded flags of the records, in registry order. -/
def Engine.loadedFlags (e : Engine) : List Bool :=
  e._sc2array.map (fun r => r._isLoaded)

/-- For every tag, in registry order, whether it refers to a scene. -/
def Engine.sceneFlags (e : Engine) : List Bool :=
  e._sceneTagList.map (fun t => t._scene.isSome)

/-- The agreement of loaded flag and live-scene reference: at every index,
the record is loaded iff the tag at that index refers to a scene. -/
def Engine.loadedAgrees (e : Engine) : Bool :=
  flagsAgree e.loadedFlags e.sceneFlags

/-- The agreement everywhere but at `idx`, where the tag may already refer to
a scene that the record is not yet marked loaded for. -/
def Engine.loadedAgreesBut (e : Engine) (idx : Nat) : Bool :=
  flagsAgreeBut idx e.loadedFlags e.sceneFlags

/-- The collaborators keep the agreement of loaded flag and live-scene
reference: hook, chaining, queue clearing and preload callback keep it as it
is, and the two construction steps keep it but for the tag of the scene they
construct. -/
structure EnvKeeps (env : Env) : Prop where
  sceneSwitcher : ∀ en e, e.loadedAgrees = true → (env.sceneSwitcher en e).2.loadedAgrees = true
  chain : ∀ mq e, e.loadedAgrees = true → (env.chain mq e).2.loadedAgrees = true
  clear : ∀ e, e.loadedAgrees = true → (env.clearGlobalMessageQueueList1 e).loadedAgrees = true
  callback : ∀ cb item flag e, env._preloadCallback = some cb → e.loadedAgrees = true →
    (cb item flag e).2.2.loadedAgrees = true
  tagLoadScene : ∀ idx e, e.loadedAgrees = true →
    (env.tagLoadScene idx e).loadedAgreesBut idx = true
  loadSceneXML : ∀ sceneId idx e, getSceneTagBySceneId e sceneId = some idx →
    e.loadedAgrees = true → (env.loadSceneXML sceneId e).loadedAgreesBut idx = true

/-- A scene node with id 5, no document name and no children. -/
def sceneNode5 : GameVar :=
  .node "SCENE" [("id", 5)] [] []

/-- Loaders for a document store that holds `sceneNode5` under every name. -/
def sampleLoaders : DocLoaders :=
  { parseXML := fun _ => some sceneNode5
    loadTile := fun _ _ => ⟨0, 0, MKTAG 'C'.toNat 'B'.toNat 0x05 0x65⟩
    LoadPicXML := fun _ _ => ⟨0, 0, 0, 0, 0, 0, 0⟩
    LoadAniXML := fun _ _ => none
    loadFromXML := fun _ => ⟨0, 0, []⟩
    LoadMctlCompoundXML := fun _ => .ok ⟨kObjTypeMctlCompound, []⟩
    height0 := 0 }

/-- The registry after scene 5 was registered by `addSceneXML` under the name
"sc5.xml" and the live scene 8 at address 3 by `makeSc2`. -/
def twoRegistered : Engine :=
  { _sc2array :=
      [{ _sceneId := 5
         _scene := none
         _isLoaded := false
         _motionController := none
         _defPicAniInfos := []
         _picAniInfos := []
         _entranceData := []
         _sceneFile := "sc5.xml" },
       { _sceneId := 8
         _scene := some 3
         _isLoaded := false
         _motionController := some ⟨kObjTypeMctlCompound, []⟩
         _defPicAniInfos := []
         _picAniInfos := []
         _entranceData := []
         _sceneFile := "sc00000008.xml" }]
    _sceneTagList := [⟨5, none⟩, ⟨8, some 3⟩]
    heap := [(3, fiveObjectScene)]
    _currentScene := none
    _msgX := 0
    _msgY := 0
    _msgObjectId2 := 0
    savedEntrance := none }

/-- Scene 5 as it is played: two pictures and two animated objects that have
moved; the first animated object belongs to scene 5, the second names scene
99 as its owner. -/
def roundTripScene : Scene :=
  { _sceneId := 5
    _picObjList := [some ⟨1, 0, 0, 0, 0, 0, 0⟩, some ⟨2, 0, 0, 0, 5, 5, 1⟩]
    _staticANIObjectList1 :=
      [some ⟨10, 0, 0, 0, 3, 3, 2, 5, 0, 4, 6, 1, 0⟩,
       some ⟨11, 0, 0, 0, 6, 6, 2, 99, 0, 0, 0, 0, 0⟩]
    _messageQueueList := [] }

/-- Scene 5 as a reload builds it: the same objects in their initial state. -/
def rebuiltScene : Scene :=
  { _sceneId := 5
    _picObjList := [some ⟨1, 0, 0, 0, 0, 0, 0⟩, some ⟨2, 0, 0, 0, 0, 0, 0⟩]
    _staticANIObjectList1 :=
      [some ⟨10, 0, 0, 0, 0, 0, 0, 5, 0, 0, 0, 0, 0⟩,
       some ⟨11, 0, 0, 0, 0, 0, 0, 99, 0, 0, 0, 0, 0⟩]
    _messageQueueList := [] }

/-- Scene 5 registered and loaded, with `roundTripScene` live at address 7. -/
def roundTripEngine : Engine :=
  { sampleEngine with heap := [(7, roundTripScene)] }

/-- The state after scene 5 of `roundTripEngine` was unloaded and loaded again
by `rebuildEnv`. -/
def roundTripReloaded : Engine :=
  { sampleEngine with heap := [(7, rebuiltScene)] }

/-- Collaborators whose `SceneTag::loadScene` builds `rebuiltScene` at address
7 and stores the pointer in the tag. -/
def rebuildEnv : Env :=
  { sampleEnv with
    tagLoadScene := fun idx e =>
      { e with heap := (7, rebuiltScene) :: e.heap
               _sceneTagList := updateAt e._sceneTagList idx (fun t => { t with _scene := some 7 }) } }

/-- A scene node with id 5 and a background grid of one column and two rows. -/
def gridNode : GameVar :=
  .node "SCENE" [("id", 5), ("nPartsX", 1), ("nPartsY", 2)] [] []

/-- Tile files of 10 by 10 pixels: file 0 has a bitmap of type
`MKTAG('C','B',0x88,0x88)`, every other file one of type
`MKTAG('C','B',0x05,0x65)`. -/
def gridTiles : Int → Nat → BigPicture :=
  fun _ n =>
    if n = 0 then ⟨10, 10, MKTAG 'C'.toNat 'B'.toNat 0x88 0x88⟩
    else ⟨10, 10, MKTAG 'C'.toNat 'B'.toNat 0x05 0x65⟩

/-- The sample collaborators with a scene-switch hook that rejects every
entrance and leaves the state alone. -/
def rejectEnv : Env :=
  { sampleEnv with sceneSwitcher := fun _ e => (false, e) }

/-- Scene 8 with its first animated object busy: `_messageQueueId` 3 puts
bits above bit 15 into the type the object reports. -/
def busyScene : Scene :=
  { fiveObjectScene with
    _staticANIObjectList1 :=
      [some ⟨10, 0, 0, 0, 1, 2, 3, 8, 3, 0, 0, 0, 0⟩, some ⟨11, 0, 0, 0, 4, 5, 6, 8, 0, 0, 0, 0, 0⟩] }

/-! ## Motion data of a document -/

/-- Modelled from the spec: a polygonal reaction zone (`ReactPolygonal`,
declared in a header that is not part of the sources at hand), reduced to its
point array. -/
structure ReactPolygonal where
  _points : List (Int × Int)
  deriving DecidableEq, Repr

/-- The loop `for (; gv; gv->_nextVarObj, point++)` of `LoadReactPolygonalXML`.
The pointer `gv` is the sibling chain from the current node on, the empty
chain for null.  The increment evaluates `gv->_nextVarObj` and drops the
value, so `gv` is the same chain in the next iteration; the write
`_points[point]` is an array access, which past the size does not return. -/
def reactLoop (gv : List GameVar) (points : List (Int × Int)) (point : Nat) :
    Except Fault (List (Int × Int)) :=
  match gv with
  | [] => .ok points
  | node :: next =>
    if point < points.length then
      reactLoop (node :: next)
        (points.set point (node.getPropertyAsInt "x", node.getPropertyAsInt "y")) (point + 1)
    else .error .outOfBounds
termination_by points.length - point
decreasing_by
  simp only [List.length_set]
  omega

/-- `LoadReactPolygonalXML`; `gv` is the sibling chain from the node on. -/
def LoadReactPolygonalXML (gv : List GameVar) : Except Fault ReactPolygonal :=
  match gv with
  | [] => .error .badPointer
  | node :: next =>
    let numPoints := node.getPropertyAsInt "iNumPoints"
    match reactLoop (node :: next) (List.replicate (toUint numPoints) (0, 0)) 0 with
    | .ok points => .ok ⟨points⟩
    | .error f => .error f

/-- Modelled from the spec: a grid controller (`MctlGrid`, not part of the
sources at hand) as `new MctlGrid(w, h)` followed by `loadFromXML(node)`
leaves it: its two dimensions and the node it was loaded from. -/
structure MctlGrid where
  width : Int
  height : Int
  node : GameVar

/-- One item of a compound controller: the optional reaction zone and the
optional grid. -/
structure MctlItem where
  _movGraphReactObj : Option ReactPolygonal
  _motionControllerObj : Option MctlGrid

/-- The compound controller `LoadMctlCompoundXML` builds. -/
structure MctlCompound where
  _motionControllers : List MctlItem

/-- The body of the loop of `LoadMctlCompoundXML` up to `push_back`: the item
built from the chain `sv`, and `sv` as the body leaves it (the chain is
advanced once after a reaction zone). -/
def mctlItemXML (sv : List GameVar) : Except Fault (MctlItem × List GameVar) :=
  match sv with
  | [] => .ok (⟨none, none⟩, [])
  | c :: rest =>
    if c._varName == "MCTLREACTZONE" then
      match LoadReactPolygonalXML (c :: rest) with
      | .error f => .error f
      | .ok react =>
        match rest with
        | [] => .ok (⟨some react, none⟩, [])
        | d :: rest2 =>
          if d._varName == "MCTLGRID" then
            .ok (⟨some react, some ⟨800, 600, d⟩⟩, d :: rest2)
          else .ok (⟨some react, none⟩, d :: rest2)
    else if c._varName == "MCTLGRID" then
      .ok (⟨none, some ⟨800, 600, c⟩⟩, c :: rest)
    else .ok (⟨none, none⟩, c :: rest)

/-- The loop of `LoadMctlCompoundXML` with `n` iterations left: the item is
pushed, then `sv = sv->_nextVarObj` is executed whether or not `sv` is null. -/
def mctlLoop : Nat → List GameVar → List MctlItem → Except Fault (List MctlItem)
  | 0, _, items => .ok items
  | n + 1, sv, items =>
    match mctlItemXML sv with
    | .error f => .error f
    | .ok (item, sv1) =>
      match sv1 with
      | [] => .error .badPointer
      | _ :: next => mctlLoop n next (items ++ [item])

/-- `LoadMctlCompoundXML`. -/
def LoadMctlCompoundXML (gv : GameVar) : Except Fault MctlCompound :=
  match mctlLoop (gv.getPropertyAsInt "nNumChildren").toNat gv._subVars [] with
  | .ok items => .ok ⟨items⟩
  | .error f => .error f

/-- A grid node. -/
def gridNode1 : GameVar :=
  .node "MCTLGRID" [] [] []

/-- A reaction-zone node with one point, (3, 4). -/
def zoneNode1 : GameVar :=
  .node "MCTLREACTZONE" [("iNumPoints", 1), ("x", 3), ("y", 4)] [] []

/-- A compound node that announces one child and has one grid child. -/
def compoundOneGrid : GameVar :=
  .node "MCTLCOMPOUND" [("nNumChildren", 1)] [] [gridNode1]

/-- A compound node that announces two children and has one grid child. -/
def compoundShort : GameVar :=
  .node "MCTLCOMPOUND" [("nNumChildren", 2)] [] [gridNode1]

/-- A compound node that announces one child and has a reaction zone followed
by a grid. -/
def compoundZoneGrid : GameVar :=
  .node "MCTLCOMPOUND" [("nNumChildren", 1)] [] [zoneNode1, gridNode1]

/-- The item the loop of `LoadMctlCompoundXML` builds from a child that is not
a reaction zone: a grid child gives an item holding the grid, any other child
an empty item. -/
def plainItem (c : GameVar) : MctlItem :=
  if c._varName == "MCTLGRID" then ⟨none, some ⟨800, 600, c⟩⟩ else ⟨none, none⟩

/-! ## Movements of a document -/

/-- The text a conversion `%0wd` produces for a number: decimal digits,
padded with zeros to `w` characters, the sign included. -/
def formatIntPadded (w : Nat) (n : Int) : String :=
  let digits := toString n.natAbs
  if n < 0 then "-" ++ String.mk (List.replicate (w - 1 - digits.length) '0') ++ digits
  else String.mk (List.replicate (w - digits.length) '0') ++ digits

/-- The members of `ExCommand` (and, for kind 63, of `ObjstateCommand`) that
`LoadStateXML` assigns. -/
structure StateCommand where
  objstate : Option (String × Int)
  _messageKind : Int
  _parentId : Int
  _x : Int
  _y : Int
  _sceneClickX : Int
  _sceneClickY : Int
  _field_30 : Int
  _field_34 : Int
  _z : Int
  _invId : Int
  _param : Int
  _field_2C : Int
  _messageNum : Int
  _excFlags : Int
  _parId : Int
  _field_24 : Int
  _field_3C : Int
  deriving DecidableEq, Repr

/-- `LoadStateXML`: kind 63 gives an `ObjstateCommand` with object name and
value (and `_messageKind` 63), every other kind a plain command; the remaining
members are read the same way in both branches. -/
def LoadStateXML (gv : GameVar) : StateCommand :=
  let kind := gv.getPropertyAsInt "iId"
  { objstate :=
      if kind = 63 then
        some (gv.getPropertyAsString "sObject", gv.getPropertyAsInt "dwState")
      else none
    _messageKind := kind
    _parentId := gv.getPropertyAsInt "oWho"
    _x := gv.getPropertyAsInt "cpXY.x"
    _y := gv.getPropertyAsInt "cpXY.y"
    _sceneClickX := gv.getPropertyAsInt "cpXYStep.x"
    _sceneClickY := gv.getPropertyAsInt "cpXYStep.y"
    _field_30 := gv.getPropertyAsInt "cpReserved.x"
    _field_34 := gv.getPropertyAsInt "cpReserved.y"
    _z := gv.getPropertyAsInt "iZ"
    _invId := gv.getPropertyAsInt "iZStep"
    _param := gv.getPropertyAsInt "iReserved"
    _field_2C := gv.getPropertyAsInt "iReserved2"
    _messageNum := gv.getPropertyAsInt "iNum"
    _excFlags := gv.getPropertyAsInt "dwFlags"
    _parId := gv.getPropertyAsInt "dwParent"
    _field_24 := gv.getPropertyAsInt "bWait"
    _field_3C := gv.getPropertyAsInt "bFree" }

/-- Modelled from the spec: a static pose (`Statics`, declared in statics.h,
not part of the sources at hand) as `LoadStaticsXML` leaves it: the file it
was loaded from, its name and its id. -/
structure Statics where
  fileName : String
  _staticsName : String
  _staticsId : Int
  deriving DecidableEq, Repr

/-- Modelled from the spec: one frame of a movement (`DynamicPhase`, declared
in statics.h, not part of the sources at hand) as the phase loop of
`LoadMovementXML` leaves it: the file it was loaded from, its command and its
countdown. -/
structure DynamicPhase where
  fileName : String
  _exCommand : Option StateCommand
  _initialCountdown : Int
  deriving DecidableEq, Repr

/-- An entry of `Movement::_dynamicPhases`, an array of pointers: a phase that
is alive, a phase that was destroyed by `delete` while its pointer stayed in
the array, or a pointer to a static pose (null when the pose is). -/
inductive PhasePtr
  | phase (ph : DynamicPhase)
  | deleted (ph : DynamicPhase)
  | statics (st : Option Statics)
  deriving DecidableEq, Repr

/-- Modelled from the spec: a movement (`Movement`, declared in statics.h, not
part of the sources at hand), reduced to the members `LoadMovementXML`
assigns; `_field_50` is `none` while it holds what the constructor put
there. -/
structure Movement where
  _id : Int
  _objectName : String
  _staticsObj1 : Option Statics
  _staticsObj2 : Option Statics
  _mx : Int
  _my : Int
  _m2x : Int
  _m2y : Int
  _counterMax : Int
  _field_50 : Option Int
  _framePosOffsets : List (Int × Int)
  _dynamicPhases : List PhasePtr
  deriving DecidableEq, Repr

/-- The loop of `LoadMovementXML` over the static poses of the animated
object: the pose with id `prevId` and the pose with id `nextId`, the loop
ending as soon as both are found. -/
def findStatics (prevId nextId : Int) :
    List Statics → Option Statics × Option Statics → Option Statics × Option Statics
  | [], p => p
  | st :: rest, p =>
    let o1 := if st._staticsId == prevId then some st else p.1
    let o2 := if st._staticsId == nextId then some st else p.2
    if o1.isSome && o2.isSome then (o1, o2) else findStatics prevId nextId rest (o1, o2)

/-- The inner loop of the phase loop: the command of a phase is the one
loaded from its last COMMAND child, with `_field_3C` set to 0. -/
def phaseCommand : List GameVar → Option StateCommand → Option StateCommand
  | [], c => c
  | l :: rest, c =>
    if l._varName == "COMMAND" then
      phaseCommand rest (some { LoadStateXML l with _field_3C := 0 })
    else phaseCommand rest c

/-- The locals of the phase loop of `LoadMovementXML`. -/
structure PhaseScan where
  _framePosOffsets : List (Int × Int)
  phase : Nat
  _dynamicPhases : List PhasePtr
  deriving DecidableEq, Repr

/-- The phase the body of the phase loop builds from the PHASE node `k` once
`phase` was counted up: loaded from the file numbered by `phase`, with the
command of its COMMAND children and the countdown `iPouse`. -/
def loadPhase (movPrefix : String) (id : Int) (phase : Nat) (k : GameVar) : DynamicPhase :=
  { fileName := movPrefix ++ formatInt08 id ++ "." ++ formatIntPadded 3 phase
    _exCommand := phaseCommand k._subVars none
    _initialCountdown := k.getPropertyAsInt "iPouse" }

/-- The body of the phase loop for the child `k`, a PHASE node: the offset
`_framePosOffsets[phase]` is written, `phase` is counted up, and the phase
loaded from the file numbered by the new `phase` is pushed. -/
def phaseStep (movPrefix : String) (id : Int) (k : GameVar) (s : PhaseScan) :
    Except Fault PhaseScan :=
  if s.phase < s._framePosOffsets.length then
    .ok { _framePosOffsets := s._framePosOffsets.set s.phase
            (k.getPropertyAsInt "csStep.x", k.getPropertyAsInt "csStep.y")
          phase := s.phase + 1
          _dynamicPhases :=
            s._dynamicPhases ++ [PhasePtr.phase (loadPhase movPrefix id (s.phase + 1) k)] }
  else .error .outOfBounds

/-- The phase loop of `LoadMovementXML` over the children of the node. -/
def phaseLoop (movPrefix : String) (id : Int) : List GameVar → PhaseScan → Except Fault PhaseScan
  | [], s => .ok s
  | k :: rest, s =>
    if k._varName == "PHASE" then
      match phaseStep movPrefix id k s with
      | .ok s1 => phaseLoop movPrefix id rest s1
      | .error f => .error f
    else phaseLoop movPrefix id rest s

/-- The statements `last = _dynamicPhases.back(); if (last) delete last;`: the
object the last pointer refers to is destroyed, the array keeps the pointer. -/
def deleteLastPhase (l : List PhasePtr) : Except Fault (List PhasePtr) :=
  match l.getLast? with
  | none => .error .outOfBounds
  | some (PhasePtr.phase ph) => .ok (l.dropLast ++ [PhasePtr.deleted ph])
  | some last => .ok (l.dropLast ++ [last])

/-- `LoadMovementXML`; of the animated object only `_staticsList` is read.
The result is `none` for the null the function returns on a mirrored
movement. -/
def LoadMovementXML (gv : GameVar) (filePrefix : String) (_staticsList : List Statics) :
    Except Fault (Option Movement) :=
  if gv.getPropertyAsInt "nIdMirror" ≠ 0 then .ok none
  else
    let id := gv.getPropertyAsInt "id"
    let prevId := gv.getPropertyAsInt "nIdPrev"
    let nextId := gv.getPropertyAsInt "nIdNext"
    let st := findStatics prevId nextId _staticsList (none, none)
    let movPrefix := filePrefix ++ formatInt08 id ++ String.singleton (Char.ofNat 92)
    let dynCount := gv.getPropertyAsInt "dwNumPhases"
    match phaseLoop movPrefix id gv._subVars
        ⟨List.replicate (toUint dynCount) (0, 0), 0, []⟩ with
    | .error f => .error f
    | .ok s =>
      match deleteLastPhase s._dynamicPhases with
      | .error f => .error f
      | .ok phases =>
        .ok (some
          { _id := id
            _objectName := gv.getPropertyAsString "title"
            _staticsObj1 := st.1
            _staticsObj2 := st.2
            _mx := gv.getPropertyAsInt "nPrevStepX"
            _my := gv.getPropertyAsInt "nPrevStepY"
            _m2x := gv.getPropertyAsInt "nNextStepX"
            _m2y := gv.getPropertyAsInt "nNextStepY"
            _counterMax := gv.getPropertyAsInt "dwLoopDelay"
            _field_50 := if gv.getPropertyAsInt "bUseAuto" ≠ 0 then some 0 else none
            _framePosOffsets := s._framePosOffsets
            _dynamicPhases := phases ++ [PhasePtr.statics st.2] })

/-- The PHASE children of a node, in document order. -/
def phaseNodes (gv : GameVar) : List GameVar :=
  gv._subVars.filter (fun k => k._varName == "PHASE")

/-- The phases the phase loop builds from a list of PHASE nodes when `phase`
is `start` before the first of them. -/
def phasesFrom (movPrefix : String) (id : Int) : Nat → List GameVar → List DynamicPhase
  | _, [] => []
  | start, k :: rest => loadPhase movPrefix id (start + 1) k :: phasesFrom movPrefix id (start + 1) rest

/-- The phases `LoadMovementXML` loads for a movement node: one per PHASE
child, in document order, numbered from 1. -/
def loadedPhases (gv : GameVar) (filePrefix : String) : List DynamicPhase :=
  phasesFrom
    (filePrefix ++ formatInt08 (gv.getPropertyAsInt "id") ++ String.singleton (Char.ofNat 92))
    (gv.getPropertyAsInt "id") 0 (phaseNodes gv)

/-- A movement node with id 7 from pose 1 to pose 2, with one PHASE child. -/
def movementNode1 : GameVar :=
  .node "MOVEMENT" [("id", 7), ("nIdPrev", 1), ("nIdNext", 2), ("dwNumPhases", 1)] []
    [.node "PHASE" [("csStep.x", 4), ("csStep.y", 5), ("iPouse", 6)] [] []]

/-- The static poses 1 and 2 of an animated object. -/
def poses12 : List Statics :=
  [⟨"pose1.dib", "one", 1⟩, ⟨"pose2.dib", "two", 2⟩]

/-- The indices at which the entrance scan of `gotoScene` reads
`_entranceData`, in order: the loop condition reads `_entranceData[entranceIdx]`
before every pass of the body, also when `entranceIdx` has reached the size.
The list argument is the part of `_entranceData` from `entranceIdx` on, as in
`scanEntrances`. -/
def scanEntrancesReads (entranceId : Int) (size : Nat) : List EntranceInfo → Nat → List Nat
  | [], entranceIdx => [entranceIdx]
  | en :: rest, entranceIdx =>
    if en._field_4 != entranceId then
      if entranceIdx ≥ size then [entranceIdx]
      else entranceIdx :: scanEntrancesReads entranceId size rest (entranceIdx + 1)
    else [entranceIdx]

/-! ## preloadScene: the pending pair -/

/-- C1: when (sceneId, entranceId) differs from the pending pair in at least
one component, `preloadScene` returns true, records the pair as pending and
changes nothing else: the engine state (current scene, scene records, live
scenes), the preload items and the event trace (no callback, no save, unload
or load, no posted command) are those of the state before the call. -/
theorem preloadScene_records_new_pair (env : Env) (g : GameLoader) (sceneId entranceId : Int)
    (h : g._preloadSceneId ≠ sceneId ∨ g._preloadEntranceId ≠ entranceId) :
    preloadScene env sceneId entranceId g
      = (.ok true, { g with _preloadSceneId := sceneId, _preloadEntranceId := entranceId }) := by
  unfold preloadScene
  rw [if_pos h]

/-- Witness of C1: with (5, 1) pending, the request (5, 2) is only recorded. -/
theorem preloadScene_records_new_pair_witness :
    (sampleLoader._preloadSceneId ≠ 5 ∨ sampleLoader._preloadEntranceId ≠ 2) ∧
    preloadScene sampleEnv 5 2 sampleLoader
      = (.ok true, { sampleLoader with _preloadSceneId := 5, _preloadEntranceId := 2 }) :=
  ⟨by decide, preloadScene_records_new_pair sampleEnv sampleLoader 5 2 (by decide)⟩

/-- No item of the list matches (sceneId, entranceId): the search loop of
`preloadScene` leaves `idx` at -1. -/
theorem findPreloadItem_none (sceneId entranceId : Int) (items : List PreloadItem) (i : Nat)
    (h : ∀ it ∈ items, ¬ (it.preloadId1 = sceneId ∧ it.preloadId2 = entranceId)) :
    findPreloadItem sceneId entranceId items i = none := by
  induction items generalizing i with
  | nil => rfl
  | cons it rest ih =>
    have h1 := h it (List.mem_cons_self _ _)
    have h2 : ∀ x ∈ rest, ¬ (x.preloadId1 = sceneId ∧ x.preloadId2 = entranceId) :=
      fun x hx => h x (List.mem_cons_of_mem _ hx)
    have hc : (it.preloadId1 == sceneId && it.preloadId2 == entranceId) = false := by
      simp only [Bool.and_eq_false_iff, beq_eq_false_iff_ne]
      by_cases h3 : it.preloadId1 = sceneId
      · exact Or.inr (fun h4 => h1 ⟨h3, h4⟩)
      · exact Or.inl h3
    simp only [findPreloadItem, hc]
    exact ih (i + 1) h2

/-- C2: when the pending pair already equals (sceneId, entranceId) and no
preload item has `preloadId1 == sceneId` and `preloadId2 == entranceId`,
`preloadScene` returns false, resets the pending pair to (0, 0) and leaves
everything else as it was: the engine state (current scene, scene records),
the preload items and the event trace (the callback is not invoked). -/
theorem preloadScene_no_matching_item (env : Env) (g : GameLoader) (sceneId entranceId : Int)
    (hs : g._preloadSceneId = sceneId) (he : g._preloadEntranceId = entranceId)
    (hno : ∀ it ∈ g._preloadItems, ¬ (it.preloadId1 = sceneId ∧ it.preloadId2 = entranceId)) :
    preloadScene env sceneId entranceId g
      = (.ok false, { g with _preloadSceneId := 0, _preloadEntranceId := 0 }) := by
  unfold preloadScene
  have hn : ¬ (g._preloadSceneId ≠ sceneId ∨ g._preloadEntranceId ≠ entranceId) := by
    simp [hs, he]
  rw [if_neg hn, findPreloadItem_none sceneId entranceId g._preloadItems 0 hno]

/-- Witness of C2: (7, 1) is pending and the only item is keyed (5, 1). -/
theorem preloadScene_no_matching_item_witness :
    preloadScene sampleEnvCb 7 1 { sampleLoader with _preloadSceneId := 7 }
      = (.ok false,
          { sampleLoader with _preloadSceneId := 0, _preloadEntranceId := 0 }) :=
  preloadScene_no_matching_item sampleEnvCb { sampleLoader with _preloadSceneId := 7 } 7 1
    rfl rfl (by decide)

/-! ## preloadScene: the swap -/

/-- The search loop of `preloadScene` returns the lowest index of a matching
item. -/
theorem findPreloadItem_some (sceneId entranceId : Int) (items : List PreloadItem) (i idx : Nat)
    (h : findPreloadItem sceneId entranceId items i = some idx) :
    ∃ k it, idx = i + k ∧ items[k]? = some it ∧
      it.preloadId1 = sceneId ∧ it.preloadId2 = entranceId ∧
      ∀ j, j < k → ∀ jt, items[j]? = some jt →
        ¬ (jt.preloadId1 = sceneId ∧ jt.preloadId2 = entranceId) := by
  induction items generalizing i with
  | nil => simp [findPreloadItem] at h
  | cons it rest ih =>
    simp only [findPreloadItem] at h
    by_cases hc : (it.preloadId1 == sceneId && it.preloadId2 == entranceId) = true
    · rw [if_pos hc] at h
      simp only [Bool.and_eq_true, beq_iff_eq] at hc
      refine ⟨0, it, ?_, by simp, hc.1, hc.2, ?_⟩
      · simpa using h.symm
      · intro j hj; omega
    · rw [if_neg hc] at h
      obtain ⟨k, kt, hk, hget, h1, h2, hmin⟩ := ih (i + 1) h
      refine ⟨k + 1, kt, by omega, by simpa using hget, h1, h2, ?_⟩
      intro j hj jt hjt
      cases j with
      | zero =>
        simp only [List.getElem?_cons_zero, Option.some.injEq] at hjt
        subst hjt
        simpa only [Bool.and_eq_true, beq_iff_eq] using hc
      | succ j =>
        simp only [List.getElem?_cons_succ] at hjt
        exact hmin j (by omega) jt hjt

/-- C3 (as amended): with the pair pending, a matching item at the index the
search loop returns, a callback installed that does not veto at progress 0,
and the nested calls completing, `preloadScene` returns true and its
observable steps are, in this order: callback with progress 0; snapshot of
the trigger scene, clearing of the global queue list and unload of the
trigger scene; callback with progress 50; load of the destination scene;
callback with progress 100; posting of the navigation command. -/
theorem preloadScene_step_order (env : Env) (g : GameLoader) (sceneId entranceId : Int)
    (cb : PreloadItem → Int → Engine → Bool × PreloadItem × Engine)
    (idx : Nat) (item item1 item2 item3 : PreloadItem) (e1 e2 e3 e5 e6 e8 e9 : Engine)
    (u l b50 b100 : Bool)
    (hs : g._preloadSceneId = sceneId) (he : g._preloadEntranceId = entranceId)
    (hfind : findPreloadItem sceneId entranceId g._preloadItems 0 = some idx)
    (hitem : g._preloadItems[idx]? = some item)
    (hcb : env._preloadCallback = some cb)
    (h0 : cb item 0 g.eng = (true, item1, e1))
    (h1 : clearCurrentScene sceneId e1 = .ok e2)
    (h2 : saveScenePicAniInfos sceneId e2 = .ok e3)
    (h3 : unloadScene sceneId (env.clearGlobalMessageQueueList1 e3) = .ok (u, e5))
    (h4 : cb item1 50 e5 = (b50, item2, e6))
    (h5 : loadScene env item2.sceneId e6 = .ok (l, e8))
    (h6 : cb item2 100 e8 = (b100, item3, e9)) :
    preloadScene env sceneId entranceId g
      = (.ok true,
          { eng := e9
            _preloadSceneId := 0
            _preloadEntranceId := 0
            _preloadItems := g._preloadItems.set idx item3
            _field_FA := g._field_FA
            trace := g.trace ++
              [Event.preloadCallback item 0,
               Event.saveScenePicAniInfos sceneId,
               Event.clearGlobalMessageQueueList1,
               Event.unloadScene sceneId,
               Event.preloadCallback item1 50,
               Event.loadScene item2.sceneId,
               Event.preloadCallback item2 100,
               Event.postMessage (preloadCommand item2)] }) := by
  have hlt : idx < g._preloadItems.length := by
    rcases List.getElem?_eq_some_iff.mp hitem with ⟨hlt, _⟩
    exact hlt
  have hn : ¬ (g._preloadSceneId ≠ sceneId ∨ g._preloadEntranceId ≠ entranceId) := by
    simp [hs, he]
  unfold preloadScene
  rw [if_neg hn, hfind]
  simp only [GameLoader.callPreloadCallback, hcb, hitem, h0, Bool.not_true, Bool.false_eq_true,
    if_false]
  unfold preloadSwap
  simp only [h1, h2, h3, GameLoader.callPreloadCallback, hcb, List.getElem?_set_self, hlt,
    List.length_set, h4, h5, h6, List.set_set, preloadCommand, List.append_assoc,
    List.cons_append, List.nil_append, List.singleton_append]

/-- Witness of C3 (as amended): the swap from scene 5 through the item
(5, 1, 6, 3) with a callback that never vetoes. -/
theorem preloadScene_step_order_witness :
    preloadScene sampleEnvCb 5 1 sampleLoader
      = (.ok true,
          { eng := sampleUnloaded
            _preloadSceneId := 0
            _preloadEntranceId := 0
            _preloadItems := [⟨5, 1, 6, 3⟩]
            _field_FA := 0
            trace :=
              [Event.preloadCallback ⟨5, 1, 6, 3⟩ 0,
               Event.saveScenePicAniInfos 5,
               Event.clearGlobalMessageQueueList1,
               Event.unloadScene 5,
               Event.preloadCallback ⟨5, 1, 6, 3⟩ 50,
               Event.loadScene 6,
               Event.preloadCallback ⟨5, 1, 6, 3⟩ 100,
               Event.postMessage (preloadCommand ⟨5, 1, 6, 3⟩)] }) :=
  preloadScene_step_order sampleEnvCb sampleLoader 5 1 quietCallback 0
    ⟨5, 1, 6, 3⟩ ⟨5, 1, 6, 3⟩ ⟨5, 1, 6, 3⟩ ⟨5, 1, 6, 3⟩
    sampleEngine sampleEngine sampleEngine sampleUnloaded sampleUnloaded sampleUnloaded
    sampleUnloaded true false true true
    rfl rfl rfl rfl rfl rfl rfl rfl rfl rfl rfl rfl

/-- Counterexample to C3 as stated: in the swap from scene 5 the callback with
progress 50 runs before the destination scene is loaded, and the callback
with progress 100 runs before the command is posted; the order the claim
gives (load before progress 50, post before progress 100) is not the order
of the call. -/
theorem preloadScene_step_order_counterexample :
    (preloadScene sampleEnvCb 5 1 sampleLoader).1 = .ok true ∧
    (preloadScene sampleEnvCb 5 1 sampleLoader).2.trace
      = [Event.preloadCallback ⟨5, 1, 6, 3⟩ 0,
         Event.saveScenePicAniInfos 5,
         Event.clearGlobalMessageQueueList1,
         Event.unloadScene 5,
         Event.preloadCallback ⟨5, 1, 6, 3⟩ 50,
         Event.loadScene 6,
         Event.preloadCallback ⟨5, 1, 6, 3⟩ 100,
         Event.postMessage (preloadCommand ⟨5, 1, 6, 3⟩)] ∧
    (preloadScene sampleEnvCb 5 1 sampleLoader).2.trace
      ≠ [Event.preloadCallback ⟨5, 1, 6, 3⟩ 0,
         Event.saveScenePicAniInfos 5,
         Event.clearGlobalMessageQueueList1,
         Event.unloadScene 5,
         Event.loadScene 6,
         Event.preloadCallback ⟨5, 1, 6, 3⟩ 50,
         Event.postMessage (preloadCommand ⟨5, 1, 6, 3⟩),
         Event.preloadCallback ⟨5, 1, 6, 3⟩ 100] :=
  ⟨rfl, rfl, by decide⟩

/-- A guarded callback call posts nothing and leaves the pending pair and the
anchor id alone. -/
theorem callPreloadCallback_frame (env : Env) (idx : Nat) (flag : Int) (g : GameLoader) :
    postedCommands (GameLoader.callPreloadCallback env idx flag g).2.trace
      = postedCommands g.trace ∧
    (GameLoader.callPreloadCallback env idx flag g).2._preloadSceneId = g._preloadSceneId ∧
    (GameLoader.callPreloadCallback env idx flag g).2._preloadEntranceId
      = g._preloadEntranceId := by
  unfold GameLoader.callPreloadCallback
  split
  · simp [postedCommands]
  · exact ⟨rfl, rfl, rfl⟩

/-- What `preloadScene` does when the pair is pending, the search loop returns
`idx`, the progress-0 callback (if any) does not veto and the nested calls
complete: it returns true, the pending pair is (0, 0), and exactly one
command is posted, `preloadCommand item` (message kind 17, message number
62, `_excFlags` 2) for the item at `idx` as it stands when `loadScene` is
called with its destination id, whatever `loadScene` returns. -/
theorem preloadScene_swap_command (env : Env) (g g1 : GameLoader) (sceneId entranceId : Int)
    (idx : Nat) (item : PreloadItem) (e2 e3 e5 e8 : Engine) (u l : Bool)
    (hs : g._preloadSceneId = sceneId) (he : g._preloadEntranceId = entranceId)
    (hfind : findPreloadItem sceneId entranceId g._preloadItems 0 = some idx)
    (h0 : GameLoader.callPreloadCallback env idx 0 g = (true, g1))
    (h1 : clearCurrentScene sceneId g1.eng = .ok e2)
    (h2 : saveScenePicAniInfos sceneId e2 = .ok e3)
    (h3 : unloadScene sceneId (env.clearGlobalMessageQueueList1 e3) = .ok (u, e5))
    (h4 : (GameLoader.callPreloadCallback env idx 50
            { g1 with
              eng := e5
              trace := g1.trace ++ [Event.saveScenePicAniInfos sceneId] ++
                [Event.clearGlobalMessageQueueList1, Event.unloadScene sceneId] }).2._preloadItems[idx]?
          = some item)
    (h5 : loadScene env item.sceneId
          (GameLoader.callPreloadCallback env idx 50
            { g1 with
              eng := e5
              trace := g1.trace ++ [Event.saveScenePicAniInfos sceneId] ++
                [Event.clearGlobalMessageQueueList1, Event.unloadScene sceneId] }).2.eng
          = .ok (l, e8)) :
    (preloadScene env sceneId entranceId g).1 = .ok true ∧
    (preloadScene env sceneId entranceId g).2._preloadSceneId = 0 ∧
    (preloadScene env sceneId entranceId g).2._preloadEntranceId = 0 ∧
    postedCommands (preloadScene env sceneId entranceId g).2.trace
      = postedCommands g.trace ++ [preloadCommand item] ∧
    (preloadCommand item)._parentId = item.sceneId ∧
    (preloadCommand item)._param = item.param ∧
    (preloadCommand item)._messageKind = 17 ∧
    (preloadCommand item)._messageNum = 62 ∧
    (preloadCommand item)._excFlags = 2 := by
  have hn : ¬ (g._preloadSceneId ≠ sceneId ∨ g._preloadEntranceId ≠ entranceId) := by
    simp [hs, he]
  have hp0 := (callPreloadCallback_frame env idx 0 g).1
  rw [h0] at hp0
  simp only at hp0
  have hrun : preloadScene env sceneId entranceId g
      = (.ok true,
          { (GameLoader.callPreloadCallback env idx 100
              { (GameLoader.callPreloadCallback env idx 50
                  { g1 with
                    eng := e5
                    trace := g1.trace ++ [Event.saveScenePicAniInfos sceneId] ++
                      [Event.clearGlobalMessageQueueList1, Event.unloadScene sceneId] }).2 with
                eng := e8
                _preloadSceneId := 0
                _preloadEntranceId := 0
                trace := (GameLoader.callPreloadCallback env idx 50
                  { g1 with
                    eng := e5
                    trace := g1.trace ++ [Event.saveScenePicAniInfos sceneId] ++
                      [Event.clearGlobalMessageQueueList1, Event.unloadScene sceneId] }).2.trace
                  ++ [Event.loadScene item.sceneId] }).2 with
            trace := (GameLoader.callPreloadCallback env idx 100
              { (GameLoader.callPreloadCallback env idx 50
                  { g1 with
                    eng := e5
                    trace := g1.trace ++ [Event.saveScenePicAniInfos sceneId] ++
                      [Event.clearGlobalMessageQueueList1, Event.unloadScene sceneId] }).2 with
                eng := e8
                _preloadSceneId := 0
                _preloadEntranceId := 0
                trace := (GameLoader.callPreloadCallback env idx 50
                  { g1 with
                    eng := e5
                    trace := g1.trace ++ [Event.saveScenePicAniInfos sceneId] ++
                      [Event.clearGlobalMessageQueueList1, Event.unloadScene sceneId] }).2.trace
                  ++ [Event.loadScene item.sceneId] }).2.trace
              ++ [Event.postMessage (preloadCommand item)] }) := by
    unfold preloadScene
    rw [if_neg hn, hfind]
    simp only [h0, Bool.not_true, Bool.false_eq_true, if_false]
    unfold preloadSwap
    simp only [h1, h2, h3, h4, h5, preloadCommand]
  rw [hrun]
  have f100 := callPreloadCallback_frame env idx 100
    { (GameLoader.callPreloadCallback env idx 50
        { g1 with
          eng := e5
          trace := g1.trace ++ [Event.saveScenePicAniInfos sceneId] ++
            [Event.clearGlobalMessageQueueList1, Event.unloadScene sceneId] }).2 with
      eng := e8
      _preloadSceneId := 0
      _preloadEntranceId := 0
      trace := (GameLoader.callPreloadCallback env idx 50
        { g1 with
          eng := e5
          trace := g1.trace ++ [Event.saveScenePicAniInfos sceneId] ++
            [Event.clearGlobalMessageQueueList1, Event.unloadScene sceneId] }).2.trace
        ++ [Event.loadScene item.sceneId] }
  have f50 := callPreloadCallback_frame env idx 50
    { g1 with
      eng := e5
      trace := g1.trace ++ [Event.saveScenePicAniInfos sceneId] ++
        [Event.clearGlobalMessageQueueList1, Event.unloadScene sceneId] }
  refine ⟨rfl, f100.2.1, f100.2.2, ?_, rfl, rfl, rfl, rfl, rfl⟩
  have hstep : ∀ (t : List Event) (ev : Event), (∀ ex, ev ≠ Event.postMessage ex) →
      postedCommands (t ++ [ev]) = postedCommands t := by
    intro t ev hev
    cases ev <;> simp_all [postedCommands]
  have hpost : ∀ (t : List Event) (ex : ExCommand),
      postedCommands (t ++ [Event.postMessage ex]) = postedCommands t ++ [ex] := by
    intro t ex
    simp [postedCommands]
  simp only [hpost]
  rw [f100.1]
  simp only [hstep _ (Event.loadScene item.sceneId) (by intro ex; simp)]
  rw [f50.1]
  simp only
  have h3ev : postedCommands (g1.trace ++ [Event.saveScenePicAniInfos sceneId] ++
      [Event.clearGlobalMessageQueueList1, Event.unloadScene sceneId])
      = postedCommands g1.trace := by
    simp [postedCommands]
  rw [h3ev, hp0]

/-- C4 at the failing input: scene 5 is registered as `addSceneXML` leaves it
(its record has no motion controller), (5, 1) is pending and the item
(5, 1, 6, 3) matches.  `preloadScene(5, 1)` reaches `unloadScene(5)`, which
calls `detachAllObjects` through the null `_motionController`: the call does
not return true, the pending pair stays (5, 1) and no command is posted. -/
theorem preloadScene_null_controller_fault :
    preloadScene sampleEnv 5 1 bareLoader
      = (.error Fault.badPointer,
          { bareLoader with
            trace := [Event.saveScenePicAniInfos 5,
                      Event.clearGlobalMessageQueueList1,
                      Event.unloadScene 5] }) ∧
    unloadScene 5 bareLoader.eng = .error Fault.badPointer :=
  ⟨rfl, rfl⟩

/-! ## gotoScene: early exits -/

/-- C5: for a scene id that is not registered, and for a registered scene id
whose record has `_isLoaded == false`, `gotoScene` returns false for every
entrance id and the state after the call is the state before it: current
scene, input coordinates, saved `Entrance` variable, scene records and event
trace (the scene-switch hook is not invoked) are unchanged. -/
theorem gotoScene_unregistered_or_unloaded (env : Env) (g : GameLoader)
    (sceneId entranceId : Int)
    (h : getSceneTagBySceneId g.eng sceneId = none ∨
         ∃ idx r, getSceneTagBySceneId g.eng sceneId = some idx ∧
           g.eng._sc2array[idx]? = some r ∧ r._isLoaded = false) :
    gotoScene env sceneId entranceId g = (.ok false, g) := by
  unfold gotoScene
  rcases h with h | ⟨idx, r, hl, hr, hu⟩
  · rw [h]
  · rw [hl]
    simp only [Engine.sc2At, hr, hu, Bool.not_false, if_true]

/-- Witness of C5: scene 6 is not registered in `sampleLoader`. -/
theorem gotoScene_unregistered_or_unloaded_witness :
    gotoScene sampleEnv 6 1 sampleLoader = (.ok false, sampleLoader) :=
  gotoScene_unregistered_or_unloaded sampleEnv sampleLoader 6 1 (Or.inl rfl)

/-- C6: for a registered, loaded scene whose record has an empty entrance
list, `gotoScene` returns true for every entrance id and the only change of
state is that `g_nmi->_currentScene` becomes the scene pointer of the tag: the
saved `Entrance` variable, the input coordinates, the scenes with their
queues and the event trace (no hook, no chaining) are unchanged. -/
theorem gotoScene_no_entrances (env : Env) (g : GameLoader) (sceneId entranceId : Int)
    (idx : Nat) (r : Sc2) (st : SceneTag)
    (hl : getSceneTagBySceneId g.eng sceneId = some idx)
    (hr : g.eng._sc2array[idx]? = some r)
    (ht : g.eng._sceneTagList[idx]? = some st)
    (hloaded : r._isLoaded = true)
    (hempty : r._entranceData = []) :
    gotoScene env sceneId entranceId g
      = (.ok true, { g with eng := { g.eng with _currentScene := st._scene } }) := by
  unfold gotoScene
  rw [hl]
  simp [Engine.sc2At, Engine.tagAt, hr, ht, hloaded, hempty]

/-- Witness of C6: scene 5 of `sampleLoader` with its entrance list emptied. -/
theorem gotoScene_no_entrances_witness :
    gotoScene sampleEnv 5 3
        { sampleLoader with
          eng := { sampleEngine with _sc2array := [{ sampleSc2 with _entranceData := [] }] } }
      = (.ok true,
          { sampleLoader with
            eng := { sampleEngine with
                     _sc2array := [{ sampleSc2 with _entranceData := [] }]
                     _currentScene := some 7 } }) :=
  gotoScene_no_entrances sampleEnv
    { sampleLoader with
      eng := { sampleEngine with _sc2array := [{ sampleSc2 with _entranceData := [] }] } }
    5 3 0 { sampleSc2 with _entranceData := [] } ⟨5, some 7⟩ rfl rfl rfl rfl rfl

/-! ## gotoScene: the entrance scan -/

/-- When no entry of the scanned part matches and the scan started inside the
entrance list, the loop condition ends up reading `_entranceData[size]`: the
bounds check of the loop body comes one read too late. -/
theorem scanEntrances_no_match (entranceId : Int) (size : Nat) (l : List EntranceInfo) (i : Nat)
    (hsz : i + l.length ≤ size)
    (hno : ∀ en ∈ l, en._field_4 ≠ entranceId) :
    scanEntrances entranceId size l i = .error Fault.outOfBounds := by
  induction l generalizing i with
  | nil => rfl
  | cons en rest ih =>
    have h1 : (en._field_4 != entranceId) = true := by
      simpa using hno en (List.mem_cons_self _ _)
    have h2 : ¬ (i ≥ size) := by
      simp only [List.length_cons] at hsz
      omega
    simp only [scanEntrances, h1, if_true, h2, if_false]
    apply ih
    · simp only [List.length_cons] at hsz
      omega
    · intro x hx
      exact hno x (List.mem_cons_of_mem _ hx)

/-- When the scan leaves the loop with an index, that index is the position of
the first entry whose hint id equals the requested entrance id. -/
theorem scanEntrances_some (entranceId : Int) (size : Nat) (l : List EntranceInfo) (i k : Nat)
    (h : scanEntrances entranceId size l i = .ok (some k)) :
    ∃ j en, k = i + j ∧ l[j]? = some en ∧ en._field_4 = entranceId ∧
      ∀ j2, j2 < j → ∀ e2, l[j2]? = some e2 → e2._field_4 ≠ entranceId := by
  induction l generalizing i with
  | nil => simp [scanEntrances] at h
  | cons en rest ih =>
    simp only [scanEntrances] at h
    by_cases hc : (en._field_4 != entranceId) = true
    · rw [if_pos hc] at h
      by_cases hb : i ≥ size
      · rw [if_pos hb] at h
        simp at h
      · rw [if_neg hb] at h
        obtain ⟨j, e1, hk, hget, hm, hmin⟩ := ih (i + 1) h
        refine ⟨j + 1, e1, by omega, by simpa using hget, hm, ?_⟩
        intro j2 hj2 e2 he2
        cases j2 with
        | zero =>
          simp only [List.getElem?_cons_zero, Option.some.injEq] at he2
          subst he2
          simpa using hc
        | succ j2 =>
          simp only [List.getElem?_cons_succ] at he2
          exact hmin j2 (by omega) e2 he2
    · rw [if_neg hc] at h
      simp only [Except.ok.injEq, Option.some.injEq] at h
      refine ⟨0, en, by omega, by simp, ?_, ?_⟩
      · simpa using hc
      · intro j2 hj2; omega

/-- C7 on the code: for a registered, loaded scene other than 726 whose
entrance list is non-empty and has no entry with the requested hint id,
`gotoScene` does not return false: the scan reads `_entranceData[size]`
before its bounds check is reached, and the call faults (state untouched). -/
theorem gotoScene_no_match_reads_past_end (env : Env) (g : GameLoader)
    (sceneId entranceId : Int) (idx : Nat) (r : Sc2)
    (hl : getSceneTagBySceneId g.eng sceneId = some idx)
    (hr : g.eng._sc2array[idx]? = some r)
    (hloaded : r._isLoaded = true)
    (h726 : sceneId ≠ 726)
    (hne : r._entranceData ≠ [])
    (hno : ∀ en ∈ r._entranceData, en._field_4 ≠ entranceId) :
    gotoScene env sceneId entranceId g = (.error Fault.outOfBounds, g) := by
  have hlen : ¬ (r._entranceData.length < 1) := by
    cases hd : r._entranceData with
    | nil => exact absurd hd hne
    | cons a b => simp
  have hlen0 : ¬ (r._entranceData.length = 0) := by omega
  have hscan := scanEntrances_no_match entranceId r._entranceData.length r._entranceData 0
    (by omega) hno
  unfold gotoScene
  rw [hl]
  simp only [Engine.sc2At, hr, hloaded, Bool.not_true, Bool.false_eq_true, if_false, hlen, hlen0,
    selectEntrance, h726, ne_eq, not_false_eq_true, if_true, hscan]

/-- Witness of C7 on the code (the failing input): scene 5 has the single
entrance with hint id 1 and `gotoScene(5, 2)` is called. -/
theorem gotoScene_no_match_reads_past_end_witness :
    gotoScene sampleEnv 5 2 sampleLoader = (.error Fault.outOfBounds, sampleLoader) :=
  gotoScene_no_match_reads_past_end sampleEnv sampleLoader 5 2 0 sampleSc2 rfl rfl rfl
    (by decide) (by decide) (by decide)

/-! ## gotoScene: the selected entrance -/

/-- The part of `gotoScene` after the hook records no scene-switch event: its
trace is the incoming trace, possibly followed by one chaining event. -/
theorem gotoSceneEnter_trace (env : Env) (sc2idx entranceIdx : Nat) (g : GameLoader) :
    (gotoSceneEnter env sc2idx entranceIdx g).2.trace = g.trace ∨
    ∃ mq, (gotoSceneEnter env sc2idx entranceIdx g).2.trace = g.trace ++ [Event.chain mq] := by
  unfold gotoSceneEnter
  simp only
  split
  · exact Or.inl rfl
  · split
    · exact Or.inl rfl
    · split
      · exact Or.inl rfl
      · split
        · exact Or.inl rfl
        · split
          · split
            · exact Or.inr ⟨_, rfl⟩
            · exact Or.inr ⟨_, rfl⟩
          · exact Or.inl rfl

/-- When the choice of `entranceIdx` succeeds, the index is 0 for scene 726
and otherwise the position of the first entry with the requested hint id. -/
theorem selectEntrance_some (sceneId entranceId : Int) (l : List EntranceInfo) (i : Nat)
    (hne : l ≠ [])
    (h : selectEntrance sceneId entranceId l = .ok (some i)) :
    ∃ en, l[i]? = some en ∧
      (sceneId = 726 → i = 0) ∧
      (sceneId ≠ 726 → en._field_4 = entranceId ∧
        ∀ j, j < i → ∀ e2, l[j]? = some e2 → e2._field_4 ≠ entranceId) := by
  unfold selectEntrance at h
  by_cases h726 : sceneId = 726
  · simp only [h726, ne_eq, not_true_eq_false, if_false, Except.ok.injEq,
      Option.some.injEq] at h
    subst h
    cases l with
    | nil => exact absurd rfl hne
    | cons a b => exact ⟨a, by simp, fun _ => rfl, fun hc => absurd h726 hc⟩
  · simp only [ne_eq, h726, not_false_eq_true, if_true] at h
    obtain ⟨j, en, hk, hget, hm, hmin⟩ := scanEntrances_some entranceId l.length l 0 i h
    have hij : i = j := by omega
    subst hij
    exact ⟨en, hget, fun hc => absurd hc h726, fun _ => ⟨hm, hmin⟩⟩

/-- C8: for a registered, loaded scene with a non-empty entrance list, whenever
`gotoScene` invokes the scene-switch hook, the entrance handed to it is entry
0 of the list when the scene id is 726 (whatever the entrance id), and
otherwise the entry with the smallest index whose hint id equals the
entrance id; the same index is the one the rest of the call reads the
message-queue id from. -/
theorem gotoScene_hook_entrance (env : Env) (g : GameLoader) (sceneId entranceId : Int)
    (idx : Nat) (r : Sc2) (en : EntranceInfo)
    (hl : getSceneTagBySceneId g.eng sceneId = some idx)
    (hr : g.eng._sc2array[idx]? = some r)
    (hloaded : r._isLoaded = true)
    (hne : r._entranceData ≠ [])
    (hhook : Event.sceneSwitcher en ∈
      (gotoScene env sceneId entranceId g).2.trace.drop g.trace.length) :
    ∃ i, r._entranceData[i]? = some en ∧
      (sceneId = 726 → i = 0) ∧
      (sceneId ≠ 726 → en._field_4 = entranceId ∧
        ∀ j, j < i → ∀ e2, r._entranceData[j]? = some e2 → e2._field_4 ≠ entranceId) ∧
      gotoScene env sceneId entranceId g
        = (if !(env.sceneSwitcher en { g.eng with savedEntrance := some entranceId }).1 then
            (.ok false,
              { g with
                eng := (env.sceneSwitcher en { g.eng with savedEntrance := some entranceId }).2
                trace := g.trace ++ [Event.sceneSwitcher en] })
          else
            gotoSceneEnter env idx i
              { g with
                eng := (env.sceneSwitcher en { g.eng with savedEntrance := some entranceId }).2
                trace := g.trace ++ [Event.sceneSwitcher en] }) := by
  have hlen : ¬ (r._entranceData.length < 1) := by
    cases hd : r._entranceData with
    | nil => exact absurd hd hne
    | cons a b => simp
  have hlen0 : ¬ (r._entranceData.length = 0) := by omega
  have hunf : gotoScene env sceneId entranceId g
      = (match selectEntrance sceneId entranceId r._entranceData with
        | .error f => (.error f, g)
        | .ok none => (.ok false, g)
        | .ok (some entranceIdx) =>
          match Engine.entranceAt { g.eng with savedEntrance := some entranceId } idx entranceIdx with
          | .error f => (.error f, { g with eng := { g.eng with savedEntrance := some entranceId } })
          | .ok en =>
            if !(env.sceneSwitcher en { g.eng with savedEntrance := some entranceId }).1 then
              (.ok false,
                { g with
                  eng := (env.sceneSwitcher en { g.eng with savedEntrance := some entranceId }).2
                  trace := g.trace ++ [Event.sceneSwitcher en] })
            else
              gotoSceneEnter env idx entranceIdx
                { g with
                  eng := (env.sceneSwitcher en { g.eng with savedEntrance := some entranceId }).2
                  trace := g.trace ++ [Event.sceneSwitcher en] }) := by
    unfold gotoScene
    rw [hl]
    simp only [Engine.sc2At, hr, hloaded, Bool.not_true, Bool.false_eq_true, if_false, hlen, hlen0]
  rw [hunf] at hhook ⊢
  cases hsel : selectEntrance sceneId entranceId r._entranceData with
  | error f =>
    rw [hsel] at hhook
    simp at hhook
  | ok o =>
    cases o with
    | none =>
      rw [hsel] at hhook
      simp at hhook
    | some i =>
      obtain ⟨en0, hget, h1, h2⟩ := selectEntrance_some sceneId entranceId r._entranceData i hne hsel
      have hat : Engine.entranceAt { g.eng with savedEntrance := some entranceId } idx i
          = .ok en0 := by
        simp only [Engine.entranceAt, Engine.sc2At, hr, hget, bind, Except.bind]
      rw [hsel] at hhook
      simp only [hat] at hhook ⊢
      have hen : en = en0 := by
        by_cases hsw : (env.sceneSwitcher en0 { g.eng with savedEntrance := some entranceId }).1
        · simp only [hsw, Bool.not_true, Bool.false_eq_true, if_false] at hhook
          rcases gotoSceneEnter_trace env idx i
              { g with
                eng := (env.sceneSwitcher en0 { g.eng with savedEntrance := some entranceId }).2
                trace := g.trace ++ [Event.sceneSwitcher en0] } with ht | ⟨mq, ht⟩
          · rw [ht] at hhook
            simpa using hhook
          · rw [ht] at hhook
            simpa using hhook
        · simp only [hsw, Bool.not_false, if_true] at hhook
          simpa using hhook
      subst hen
      exact ⟨i, hget, h1, h2, rfl⟩

/-- Witness of C8: `gotoScene(5, 1)` on `sampleLoader` hands the entrance with
hint id 1 to the hook. -/
theorem gotoScene_hook_entrance_witness :
    ∃ i, sampleSc2._entranceData[i]? = some ⟨5, 1, 9⟩ ∧
      ((5 : Int) = 726 → i = 0) ∧
      ((5 : Int) ≠ 726 → (⟨5, 1, 9⟩ : EntranceInfo)._field_4 = 1 ∧
        ∀ j, j < i → ∀ e2, sampleSc2._entranceData[j]? = some e2 → e2._field_4 ≠ 1) ∧
      gotoScene sampleEnv 5 1 sampleLoader
        = (if !(sampleEnv.sceneSwitcher ⟨5, 1, 9⟩
                { sampleLoader.eng with savedEntrance := some 1 }).1 then
            (.ok false,
              { sampleLoader with
                eng := (sampleEnv.sceneSwitcher ⟨5, 1, 9⟩
                         { sampleLoader.eng with savedEntrance := some 1 }).2
                trace := sampleLoader.trace ++ [Event.sceneSwitcher ⟨5, 1, 9⟩] })
          else
            gotoSceneEnter sampleEnv 0 i
              { sampleLoader with
                eng := (sampleEnv.sceneSwitcher ⟨5, 1, 9⟩
                         { sampleLoader.eng with savedEntrance := some 1 }).2
                trace := sampleLoader.trace ++ [Event.sceneSwitcher ⟨5, 1, 9⟩] }) :=
  gotoScene_hook_entrance sampleEnv sampleLoader 5 1 0 sampleSc2 ⟨5, 1, 9⟩ rfl rfl rfl
    (by decide) (by decide)

/-! ## gotoScene: chaining failure -/

/-- C9 (as amended): when an entrance is selected, the scene-switch hook
accepts, the entrance's message queue exists in the target scene and chaining
the cloned queue reports failure, `gotoScene` returns false, and the switch of
the current scene made before the chaining is not undone: the chaining
collaborator is handed a state whose `g_nmi->_currentScene` is the tag's
scene, and the state after the call is the state that collaborator leaves, so
the current scene is the target scene whenever chaining leaves
`g_nmi->_currentScene` alone. -/
theorem gotoScene_chain_failure (env : Env) (g : GameLoader) (sceneId entranceId : Int)
    (idx i : Nat) (r : Sc2) (en en2 : EntranceInfo) (e2 e6 : Engine) (st : SceneTag)
    (a : Nat) (sc : Scene) (mq1 : MessageQueue)
    (hl : getSceneTagBySceneId g.eng sceneId = some idx)
    (hr : g.eng._sc2array[idx]? = some r)
    (hloaded : r._isLoaded = true)
    (hne : r._entranceData ≠ [])
    (hsel : selectEntrance sceneId entranceId r._entranceData = .ok (some i))
    (hen : r._entranceData[i]? = some en)
    (hsw : env.sceneSwitcher en { g.eng with savedEntrance := some entranceId } = (true, e2))
    (ht : e2._sceneTagList[idx]? = some st)
    (hst : st._scene = some a)
    (hen2 : Engine.entranceAt e2 idx i = .ok en2)
    (hsc : heapGet e2.heap a = some sc)
    (hmq : sc.getMessageQueueById en2._messageQueueId = some mq1)
    (hchain : env.chain (entranceQueue sc g._field_FA mq1)
        (Engine.setScene
          { e2 with _msgObjectId2 := 0, _msgY := -1, _msgX := -1, _currentScene := some a }
          a (sc.maskAnchorFlags g._field_FA 0x100)) = (false, e6)) :
    gotoScene env sceneId entranceId g
      = (.ok false,
          { g with
            eng := e6
            trace := g.trace ++
              [Event.sceneSwitcher en, Event.chain (entranceQueue sc g._field_FA mq1)] }) ∧
    (Engine.setScene
        { e2 with _msgObjectId2 := 0, _msgY := -1, _msgX := -1, _currentScene := some a }
        a (sc.maskAnchorFlags g._field_FA 0x100))._currentScene = st._scene ∧
    (e6._currentScene = some a →
      (gotoScene env sceneId entranceId g).2.eng._currentScene = st._scene) := by
  have hlen : ¬ (r._entranceData.length < 1) := by
    cases hd : r._entranceData with
    | nil => exact absurd hd hne
    | cons a b => simp
  have hlen0 : ¬ (r._entranceData.length = 0) := by omega
  have hat : Engine.entranceAt { g.eng with savedEntrance := some entranceId } idx i
      = .ok en := by
    simp only [Engine.entranceAt, Engine.sc2At, hr, hen, bind, Except.bind]
  have hen2b : Engine.entranceAt
      { e2 with _msgObjectId2 := 0, _msgY := -1, _msgX := -1, _currentScene := some a } idx i
      = .ok en2 := by
    simpa only [Engine.entranceAt, Engine.sc2At] using hen2
  have hmain : gotoScene env sceneId entranceId g
      = (.ok false,
          { g with
            eng := e6
            trace := g.trace ++
              [Event.sceneSwitcher en, Event.chain (entranceQueue sc g._field_FA mq1)] }) := by
    unfold gotoScene
    rw [hl]
    simp only [Engine.sc2At, hr, hloaded, Bool.not_true, Bool.false_eq_true, if_false, hlen,
      hlen0, hsel, hat, hsw]
    unfold gotoSceneEnter
    simp only [Engine.tagAt, ht, hst, hen2b, Engine.deref, hsc, hmq, hchain, Bool.not_false,
      if_true, List.append_assoc, List.singleton_append]
  refine ⟨hmain, ?_, ?_⟩
  · simp only [Engine.setScene, hst]
  · intro h6
    rw [hmain]
    simp only [h6, hst]

/-- Witness of C9 (as amended): `gotoScene(5, 1)` on `sampleLoader`, whose
chaining collaborator reports failure. -/
theorem gotoScene_chain_failure_witness :
    gotoScene sampleEnv 5 1 sampleLoader
      = (.ok false,
          { sampleLoader with
            eng := { sampleEngine with
                     savedEntrance := some 1, _msgObjectId2 := 0, _msgY := -1, _msgX := -1,
                     _currentScene := some 7 }
            trace := [Event.sceneSwitcher ⟨5, 1, 9⟩, Event.chain ⟨9, 1, []⟩] }) :=
  (gotoScene_chain_failure sampleEnv sampleLoader 5 1 0 0 sampleSc2 ⟨5, 1, 9⟩ ⟨5, 1, 9⟩
    { sampleEngine with savedEntrance := some 1 }
    { sampleEngine with
      savedEntrance := some 1, _msgObjectId2 := 0, _msgY := -1, _msgX := -1,
      _currentScene := some 7 }
    ⟨5, some 7⟩ 7 sampleScene ⟨9, 0, []⟩
    rfl rfl rfl (by decide) rfl rfl rfl rfl rfl rfl rfl rfl rfl).1

/-- Counterexample to C9 as stated: in `gotoScene(5, 1)` on `sampleLoader` the
entrance with hint id 1 is selected, the hook accepts, queue 9 exists in
scene 5 and chaining reports failure; the call returns false, yet the current
scene, null before the call, is the scene at address 7 after it. -/
theorem gotoScene_chain_failure_counterexample :
    (gotoScene sampleEnv 5 1 sampleLoader).1 = .ok false ∧
    (gotoScene sampleEnv 5 1 sampleLoader).2.trace
      = [Event.sceneSwitcher ⟨5, 1, 9⟩, Event.chain ⟨9, 1, []⟩] ∧
    sampleLoader.eng._currentScene = none ∧
    (gotoScene sampleEnv 5 1 sampleLoader).2.eng._currentScene = some 7 ∧
    (gotoScene sampleEnv 5 1 sampleLoader).2.eng._currentScene
      ≠ sampleLoader.eng._currentScene :=
  ⟨rfl, rfl, rfl, rfl, by decide⟩

/-! ## loadScene: init, default snapshot, current snapshot -/

/-- Reading back a cell just written through a live pointer. -/
theorem heapGet_heapSet_self (h : List (Nat × Scene)) (a : Nat) (s0 s : Scene)
    (hl : heapGet h a = some s0) : heapGet (heapSet h a s) a = some s := by
  induction h with
  | nil => simp [heapGet] at hl
  | cons c rest ih =>
    obtain ⟨b, t⟩ := c
    by_cases hb : b = a
    · simp [heapSet, heapGet, hb]
    · simp only [heapGet, hb, if_false] at hl
      simp [heapSet, heapGet, hb, ih hl]

/-- A second write through the same pointer overwrites the first. -/
theorem heapSet_heapSet (h : List (Nat × Scene)) (a : Nat) (s1 s2 : Scene) :
    heapSet (heapSet h a s1) a s2 = heapSet h a s2 := by
  induction h with
  | nil => rfl
  | cons c rest ih =>
    obtain ⟨b, t⟩ := c
    by_cases hb : b = a
    · simp [heapSet, hb]
    · simp [heapSet, hb, ih]

/-- Writing back what a cell holds changes nothing. -/
theorem heapSet_same (h : List (Nat × Scene)) (a : Nat) (s : Scene)
    (hl : heapGet h a = some s) : heapSet h a s = h := by
  induction h with
  | nil => rfl
  | cons c rest ih =>
    obtain ⟨b, t⟩ := c
    by_cases hb : b = a
    · simp only [heapGet, hb, if_true, Option.some.injEq] at hl
      simp [heapSet, hb, hl]
    · simp only [heapGet, hb, if_false] at hl
      simp [heapSet, hb, ih hl]

/-- A write through a pointer neither creates nor frees a cell. -/
theorem heapGet_heapSet_isSome (h : List (Nat × Scene)) (a b : Nat) (s : Scene) :
    (heapGet (heapSet h a s) b).isSome = (heapGet h b).isSome := by
  induction h with
  | nil => rfl
  | cons c rest ih =>
    obtain ⟨d, t⟩ := c
    by_cases hd : d = a
    · subst hd
      by_cases hb : d = b
      · subst hb
        simp [heapSet, heapGet]
      · simp [heapSet, heapGet, hb]
    · by_cases hb : d = b
      · subst hb
        simp [heapSet, heapGet, hd]
      · simp [heapSet, heapGet, hd, hb, ih]

/-- One iteration of `applyPicAniInfos` on a live scene returns, and its
effect is confined to that scene. -/
theorem applyPicAniInfo_setScene (e : Engine) (a : Nat) (s0 s : Scene) (info : PicAniInfo)
    (hl : heapGet e.heap a = some s0) :
    applyPicAniInfo a info (e.setScene a s) = .ok (e.setScene a (sceneApplyInfo e a info s)) := by
  have hg : heapGet (e.setScene a s).heap a = some s := heapGet_heapSet_self e.heap a s0 s hl
  have hss : ∀ t, (e.setScene a s).setScene a t = e.setScene a t := by
    intro t
    simp only [Engine.setScene, heapSet_heapSet]
  have hid : e.setScene a s = (e.setScene a s).setScene a s := by
    rw [hss]
  unfold applyPicAniInfo sceneApplyInfo
  by_cases h2 : info.type &&& 2 ≠ 0
  · simp only [h2, if_true, Engine.deref, hg, bind, Except.bind, pure, Except.pure, hss,
      ne_eq, not_false_eq_true]
  · by_cases h1 : info.type &&& 1 = 0
    · simp only [h2, if_false, h1, if_true, pure, Except.pure]
    · simp only [h2, if_false, h1]
      cases hacc : accessScene (e.setScene a s) info.sceneId with
      | none => simp only [pure, Except.pure]
      | some sn =>
        simp only [Engine.deref, hg, bind, Except.bind, pure, Except.pure, hss]

/-- `applyPicAniInfos` on a live scene returns, and its effect is confined to
that scene. -/
theorem applyPicAniInfos_setScene (e : Engine) (a : Nat) (s0 : Scene) (l : List PicAniInfo)
    (s : Scene) (hl : heapGet e.heap a = some s0) :
    applyPicAniInfos a l (e.setScene a s) = .ok (e.setScene a (sceneApplyInfos e a l s)) := by
  induction l generalizing s with
  | nil => rfl
  | cons info rest ih =>
    simp only [applyPicAniInfos, applyPicAniInfo_setScene e a s0 s info hl, sceneApplyInfos]
    exact ih _

/-- The object a lookup returns satisfies the lookup predicate. -/
theorem findObj_pred {α : Type} (p : α → Bool) (l : List (Option α)) (i : Nat) (o : α)
    (h : findObj p l = some (i, o)) : p o = true := by
  induction l generalizing i with
  | nil => simp [findObj] at h
  | cons x rest ih =>
    cases x with
    | none =>
      simp only [findObj, Option.map_eq_some', Prod.mk.injEq] at h
      obtain ⟨⟨j, o2⟩, hj, _, ho⟩ := h
      subst ho
      exact ih j hj
    | some y =>
      simp only [findObj] at h
      by_cases hp : p y = true
      · rw [if_pos hp] at h
        simp only [Option.some.injEq, Prod.mk.injEq] at h
        rw [← h.2]
        exact hp
      · rw [if_neg hp] at h
        simp only [Option.map_eq_some', Prod.mk.injEq] at h
        obtain ⟨⟨j, o2⟩, hj, _, ho⟩ := h
        subst ho
        exact ih j hj

/-- Appending to the list does not change a successful lookup. -/
theorem findObj_append {α : Type} (p : α → Bool) (l l2 : List (Option α)) (x : Nat × α)
    (h : findObj p l = some x) : findObj p (l ++ l2) = some x := by
  induction l generalizing x with
  | nil => simp [findObj] at h
  | cons y rest ih =>
    cases y with
    | none =>
      simp only [findObj, Option.map_eq_some'] at h
      obtain ⟨z, hz, hx⟩ := h
      have h3 := ih z hz
      change findObj p (none :: (rest ++ l2)) = some x
      simp only [findObj, h3, Option.map_some', hx]
    | some y =>
      simp only [findObj] at h
      by_cases hp : p y = true
      · rw [if_pos hp] at h
        change findObj p (some y :: (rest ++ l2)) = some x
        simp only [findObj, hp, if_true, h]
      · rw [if_neg hp] at h
        simp only [Option.map_eq_some'] at h
        obtain ⟨z, hz, hx⟩ := h
        have h3 := ih z hz
        change findObj p (some y :: (rest ++ l2)) = some x
        simp only [findObj, hp, if_false, h3, Option.map_some', hx, Bool.false_eq_true]

/-- Updating the object a lookup returns, so that it still satisfies the
predicate, makes the same lookup return the updated object. -/
theorem findObj_updateAt_hit {α : Type} (p : α → Bool) (f : α → α) (l : List (Option α))
    (i : Nat) (o : α) (h : findObj p l = some (i, o)) (hf : p (f o) = true) :
    findObj p (updateAt l i (Option.map f)) = some (i, f o) := by
  induction l generalizing i with
  | nil => simp [findObj] at h
  | cons x rest ih =>
    cases x with
    | none =>
      simp only [findObj, Option.map_eq_some', Prod.mk.injEq] at h
      obtain ⟨⟨j, o2⟩, hj, hi, ho⟩ := h
      subst ho
      simp only at hi
      subst hi
      simp only [updateAt, findObj, ih j hj, Option.map_some']
    | some y =>
      simp only [findObj] at h
      by_cases hp : p y = true
      · rw [if_pos hp] at h
        simp only [Option.some.injEq, Prod.mk.injEq] at h
        obtain ⟨hi, ho⟩ := h
        subst hi
        subst ho
        simp only [updateAt, Option.map_some', findObj, hf, if_true]
      · rw [if_neg hp] at h
        simp only [Option.map_eq_some', Prod.mk.injEq] at h
        obtain ⟨⟨j, o2⟩, hj, hi, ho⟩ := h
        subst ho
        simp only at hi
        subst hi
        simp only [updateAt, findObj, hp, if_false, ih j hj, Option.map_some',
          Bool.false_eq_true]

/-- Updating an object that neither before nor after the update satisfies a
predicate does not change the lookup by that predicate. -/
theorem findObj_updateAt_miss {α : Type} (p q : α → Bool) (f : α → α) (l : List (Option α))
    (j : Nat) (o2 : α) (h : findObj p l = some (j, o2))
    (hq : q o2 = false) (hqf : q (f o2) = false) :
    findObj q (updateAt l j (Option.map f)) = findObj q l := by
  induction l generalizing j with
  | nil => simp [findObj] at h
  | cons x rest ih =>
    cases x with
    | none =>
      simp only [findObj, Option.map_eq_some', Prod.mk.injEq] at h
      obtain ⟨⟨k, o3⟩, hk, hi, ho⟩ := h
      subst ho
      simp only at hi
      subst hi
      simp only [updateAt, findObj, ih k hk]
    | some y =>
      simp only [findObj] at h
      by_cases hp : p y = true
      · rw [if_pos hp] at h
        simp only [Option.some.injEq, Prod.mk.injEq] at h
        obtain ⟨hi, ho⟩ := h
        subst hi
        subst ho
        simp only [updateAt, Option.map_some', findObj, hq, hqf, if_false, Bool.false_eq_true]
      · rw [if_neg hp] at h
        simp only [Option.map_eq_some', Prod.mk.injEq] at h
        obtain ⟨⟨k, o3⟩, hk, hi, ho⟩ := h
        subst ho
        simp only at hi
        subst hi
        simp only [updateAt, findObj, ih k hk]


/-- A picture entry sets its snapshot on the picture it addresses. -/
theorem applyPictureInfo_same (sc : Scene) (c : PicAniInfo) (i : Nat) (o : PictureObject)
    (h : sc.getPictureObjectById c.objectId c.field_8 = some (i, o)) :
    (sc.applyPictureInfo c).getPictureObjectById c.objectId c.field_8
      = some (i, o.setPicAniInfo c) := by
  have hp := findObj_pred _ _ _ _ h
  simp only [Bool.and_eq_true, beq_iff_eq] at hp
  unfold Scene.applyPictureInfo
  rw [h]
  simp only [Scene.getPictureObjectById] at h ⊢
  apply findObj_updateAt_hit _ _ _ _ _ h
  simp [PictureObject.setPicAniInfo, hp.1]

/-- A picture entry leaves pictures with another (id, copy index) alone. -/
theorem applyPictureInfo_other (sc : Scene) (info : PicAniInfo) (id k : Int)
    (x : Nat × PictureObject)
    (hk : ¬ (info.objectId = id ∧ info.field_8 = k))
    (h : sc.getPictureObjectById id k = some x) :
    (sc.applyPictureInfo info).getPictureObjectById id k = some x := by
  unfold Scene.applyPictureInfo
  cases h1 : sc.getPictureObjectById info.objectId info.field_8 with
  | some y =>
    obtain ⟨j, o2⟩ := y
    have hp := findObj_pred _ _ _ _ h1
    simp only [Bool.and_eq_true, beq_iff_eq] at hp
    simp only [Scene.getPictureObjectById] at h h1 ⊢
    rw [findObj_updateAt_miss _ _ _ _ _ _ h1, h]
    · simp only [Bool.and_eq_false_iff, beq_eq_false_iff_ne, ne_eq]
      by_cases hid : o2._id = id
      · right
        intro hod
        exact hk ⟨hp.1.symm.trans hid, hp.2.symm.trans hod⟩
      · left
        exact hid
    · simp only [PictureObject.setPicAniInfo, Bool.and_eq_false_iff, beq_eq_false_iff_ne, ne_eq]
      by_cases hid : o2._id = id
      · right
        intro hod
        exact hk ⟨hp.1.symm.trans hid, hod⟩
      · left
        exact hid
  | none =>
    simp only
    cases h2 : sc.getPictureObjectById info.objectId 0 with
    | some y =>
      simp only [Scene.getPictureObjectById] at h ⊢
      exact findObj_append _ _ _ _ h
    | none => exact h

/-- A picture entry keeps every picture at its position and keeps its id. -/
theorem applyPictureInfo_any (sc : Scene) (info : PicAniInfo) (id k : Int) (i : Nat)
    (o : PictureObject) (h : sc.getPictureObjectById id k = some (i, o)) :
    ∃ o2, (sc.applyPictureInfo info).getPictureObjectById id k = some (i, o2) ∧
      o2._id = o._id := by
  by_cases hk : info.objectId = id ∧ info.field_8 = k
  · obtain ⟨h1, h2⟩ := hk
    subst h1
    subst h2
    exact ⟨o.setPicAniInfo info, applyPictureInfo_same sc info i o h, rfl⟩
  · exact ⟨o, applyPictureInfo_other sc info id k (i, o) hk h, rfl⟩

/-- A picture entry does not touch the animated objects. -/
theorem applyPictureInfo_anis (sc : Scene) (info : PicAniInfo) :
    (sc.applyPictureInfo info)._staticANIObjectList1 = sc._staticANIObjectList1 := by
  unfold Scene.applyPictureInfo
  split
  · rfl
  · split <;> rfl

/-- An animated-object entry does not touch the pictures. -/
theorem applyAniInfo_pictures (sc sn : Scene) (info : PicAniInfo) :
    (sc.applyAniInfo sn info)._picObjList = sc._picObjList := by
  unfold Scene.applyAniInfo
  split
  · rfl
  · split <;> rfl

/-- An animated-object entry sets its snapshot on the object it addresses. -/
theorem applyAniInfo_same (sc sn : Scene) (c : PicAniInfo) (i : Nat) (o : StaticANIObject)
    (h : sc.getStaticANIObject1ById c.objectId c.field_8 = some (i, o)) :
    (sc.applyAniInfo sn c).getStaticANIObject1ById c.objectId c.field_8
      = some (i, o.setPicAniInfo c) := by
  have hp := findObj_pred _ _ _ _ h
  simp only [Bool.and_eq_true, beq_iff_eq] at hp
  unfold Scene.applyAniInfo
  rw [h]
  simp only [Scene.getStaticANIObject1ById] at h ⊢
  apply findObj_updateAt_hit _ _ _ _ _ h
  simp [StaticANIObject.setPicAniInfo, hp.1]

/-- An animated-object entry leaves the object (id, k) alone when it names
another id, or the same id with a copy index that is neither k nor the
wildcard -1. -/
theorem applyAniInfo_other (sc sn : Scene) (info : PicAniInfo) (id k : Int)
    (x : Nat × StaticANIObject)
    (hk1 : k ≠ -1)
    (hk : ¬ (info.objectId = id ∧ (info.field_8 = k ∨ info.field_8 = -1)))
    (h : sc.getStaticANIObject1ById id k = some x) :
    (sc.applyAniInfo sn info).getStaticANIObject1ById id k = some x := by
  unfold Scene.applyAniInfo
  cases h1 : sc.getStaticANIObject1ById info.objectId info.field_8 with
  | some y =>
    obtain ⟨j, o2⟩ := y
    have hp := findObj_pred _ _ _ _ h1
    simp only [Bool.and_eq_true, beq_iff_eq, Bool.or_eq_true] at hp
    simp only [Scene.getStaticANIObject1ById] at h h1 ⊢
    rw [findObj_updateAt_miss _ _ _ _ _ _ h1, h]
    · simp only [Bool.and_eq_false_iff, beq_eq_false_iff_ne, ne_eq, Bool.or_eq_false_iff]
      by_cases hid : o2._id = id
      · right
        refine ⟨hk1, ?_⟩
        intro hod
        rcases hp.2 with hw | hw
        · exact hk ⟨hp.1.symm.trans hid, Or.inr hw⟩
        · exact hk ⟨hp.1.symm.trans hid, Or.inl (hw.symm.trans hod)⟩
      · left
        exact hid
    · simp only [StaticANIObject.setPicAniInfo, Bool.and_eq_false_iff, beq_eq_false_iff_ne,
        ne_eq, Bool.or_eq_false_iff]
      by_cases hid : o2._id = id
      · right
        refine ⟨hk1, ?_⟩
        intro hod
        exact hk ⟨hp.1.symm.trans hid, Or.inl hod⟩
      · left
        exact hid
  | none =>
    simp only
    cases h2 : sn.getStaticANIObject1ById info.objectId 0 with
    | some y =>
      simp only [Scene.getStaticANIObject1ById, Scene.addStaticANIObject] at h ⊢
      exact findObj_append _ _ _ _ h
    | none => exact h

/-- An animated-object entry that is not a wildcard entry for `id` keeps the
object (id, k) at its position and keeps its id. -/
theorem applyAniInfo_any (sc sn : Scene) (info : PicAniInfo) (id k : Int) (i : Nat)
    (o : StaticANIObject)
    (hk1 : k ≠ -1)
    (hw : ¬ (info.objectId = id ∧ info.field_8 = -1))
    (h : sc.getStaticANIObject1ById id k = some (i, o)) :
    ∃ o2, (sc.applyAniInfo sn info).getStaticANIObject1ById id k = some (i, o2) ∧
      o2._id = o._id ∧ o2._sceneId = o._sceneId := by
  by_cases hk : info.objectId = id ∧ info.field_8 = k
  · obtain ⟨h1, h2⟩ := hk
    subst h1
    subst h2
    exact ⟨o.setPicAniInfo info, applyAniInfo_same sc sn info i o h, rfl, rfl⟩
  · refine ⟨o, applyAniInfo_other sc sn info id k (i, o) hk1 ?_ h, rfl, rfl⟩
    rintro ⟨h1, h2 | h2⟩
    · exact hk ⟨h1, h2⟩
    · exact hw ⟨h1, h2⟩

/-- Applying a concatenation is applying the parts one after the other. -/
theorem sceneApplyInfos_append (e : Engine) (a : Nat) (l1 l2 : List PicAniInfo) (s : Scene) :
    sceneApplyInfos e a (l1 ++ l2) s = sceneApplyInfos e a l2 (sceneApplyInfos e a l1 s) := by
  induction l1 generalizing s with
  | nil => rfl
  | cons x rest ih => exact ih _

/-- Any entry keeps every picture at its position and keeps its id. -/
theorem sceneApplyInfo_pic_any (e : Engine) (a : Nat) (info : PicAniInfo) (s : Scene)
    (id k : Int) (i : Nat) (o : PictureObject)
    (h : s.getPictureObjectById id k = some (i, o)) :
    ∃ o2, (sceneApplyInfo e a info s).getPictureObjectById id k = some (i, o2) ∧
      o2._id = o._id := by
  unfold sceneApplyInfo
  split
  · exact applyPictureInfo_any s info id k i o h
  · split
    · exact ⟨o, h, rfl⟩
    · split
      · exact ⟨o, h, rfl⟩
      · refine ⟨o, ?_, rfl⟩
        simp only [Scene.getPictureObjectById, applyAniInfo_pictures] at h ⊢
        exact h

/-- An entry that is not a picture entry for (id, k) leaves the picture
(id, k) alone. -/
theorem sceneApplyInfo_pic_other (e : Engine) (a : Nat) (info : PicAniInfo) (s : Scene)
    (id k : Int) (x : Nat × PictureObject)
    (hk : info.type &&& 2 ≠ 0 → ¬ (info.objectId = id ∧ info.field_8 = k))
    (h : s.getPictureObjectById id k = some x) :
    (sceneApplyInfo e a info s).getPictureObjectById id k = some x := by
  unfold sceneApplyInfo
  split
  · rename_i h2
    exact applyPictureInfo_other s info id k x (hk h2) h
  · split
    · exact h
    · split
      · exact h
      · simp only [Scene.getPictureObjectById, applyAniInfo_pictures] at h ⊢
        exact h

/-- Any list keeps every picture at its position and keeps its id. -/
theorem sceneApplyInfos_pic_any (e : Engine) (a : Nat) (l : List PicAniInfo) (s : Scene)
    (id k : Int) (i : Nat) (o : PictureObject)
    (h : s.getPictureObjectById id k = some (i, o)) :
    ∃ o2, (sceneApplyInfos e a l s).getPictureObjectById id k = some (i, o2) ∧
      o2._id = o._id := by
  induction l generalizing s o with
  | nil => exact ⟨o, h, rfl⟩
  | cons info rest ih =>
    obtain ⟨o1, h1, hid1⟩ := sceneApplyInfo_pic_any e a info s id k i o h
    obtain ⟨o2, h2, hid2⟩ := ih _ o1 h1
    exact ⟨o2, h2, hid2.trans hid1⟩

/-- A list without a picture entry for (id, k) leaves the picture (id, k)
alone. -/
theorem sceneApplyInfos_pic_other (e : Engine) (a : Nat) (l : List PicAniInfo) (s : Scene)
    (id k : Int) (x : Nat × PictureObject)
    (hk : ∀ c2 ∈ l, c2.type &&& 2 ≠ 0 → ¬ (c2.objectId = id ∧ c2.field_8 = k))
    (h : s.getPictureObjectById id k = some x) :
    (sceneApplyInfos e a l s).getPictureObjectById id k = some x := by
  induction l generalizing s with
  | nil => exact h
  | cons info rest ih =>
    apply ih
    · intro c2 hc2
      exact hk c2 (List.mem_cons_of_mem _ hc2)
    · exact sceneApplyInfo_pic_other e a info s id k x (hk info (List.mem_cons_self _ _)) h

/-- A picture entry that no later picture entry of the list overrides
determines the final state of the picture it addresses. -/
theorem sceneApplyInfos_picture_last (e : Engine) (a : Nat) (pre post : List PicAniInfo)
    (c : PicAniInfo) (s : Scene) (i : Nat) (o : PictureObject)
    (hc : c.type &&& 2 ≠ 0)
    (hpost : ∀ c2 ∈ post, c2.type &&& 2 ≠ 0 →
      ¬ (c2.objectId = c.objectId ∧ c2.field_8 = c.field_8))
    (h : s.getPictureObjectById c.objectId c.field_8 = some (i, o)) :
    (sceneApplyInfos e a (pre ++ c :: post) s).getPictureObjectById c.objectId c.field_8
      = some (i, o.setPicAniInfo c) := by
  rw [sceneApplyInfos_append]
  obtain ⟨o1, h1, hid1⟩ := sceneApplyInfos_pic_any e a pre s c.objectId c.field_8 i o h
  simp only [sceneApplyInfos]
  apply sceneApplyInfos_pic_other e a post _ _ _ _ hpost
  have h2 : sceneApplyInfo e a c (sceneApplyInfos e a pre s)
      = (sceneApplyInfos e a pre s).applyPictureInfo c := by
    unfold sceneApplyInfo
    rw [if_pos hc]
  rw [h2, applyPictureInfo_same _ c i o1 h1]
  simp only [PictureObject.setPicAniInfo, hid1]

/-- Whether a scene id resolves does not depend on the contents of the scene
being written. -/
theorem accessScene_isSome_setScene (e : Engine) (a : Nat) (s s2 : Scene) (id : Int) :
    (accessScene (e.setScene a s) id).isSome = (accessScene (e.setScene a s2) id).isSome := by
  unfold accessScene
  simp only [Engine.setScene]
  cases e._sceneTagList.find? (fun t => t._sceneId == id) with
  | none => rfl
  | some t =>
    simp only
    cases ht : t._scene with
    | none => rfl
    | some b =>
      simp only
      rw [heapGet_heapSet_isSome, heapGet_heapSet_isSome]

/-- An entry leaves the animated object (id, k) alone unless it is a
non-picture entry naming `id` with copy index k or -1. -/
theorem sceneApplyInfo_ani_other (e : Engine) (a : Nat) (info : PicAniInfo) (s : Scene)
    (id k : Int) (x : Nat × StaticANIObject)
    (hk1 : k ≠ -1)
    (hk : info.type &&& 2 = 0 →
      ¬ (info.objectId = id ∧ (info.field_8 = k ∨ info.field_8 = -1)))
    (h : s.getStaticANIObject1ById id k = some x) :
    (sceneApplyInfo e a info s).getStaticANIObject1ById id k = some x := by
  unfold sceneApplyInfo
  split
  · simp only [Scene.getStaticANIObject1ById, applyPictureInfo_anis] at h ⊢
    exact h
  · rename_i h2
    split
    · exact h
    · split
      · exact h
      · exact applyAniInfo_other s _ info id k x hk1 (hk (by simpa using h2)) h

/-- A list leaves the animated object (id, k) alone when none of its
non-picture entries names `id` with copy index k or -1. -/
theorem sceneApplyInfos_ani_other (e : Engine) (a : Nat) (l : List PicAniInfo) (s : Scene)
    (id k : Int) (x : Nat × StaticANIObject)
    (hk1 : k ≠ -1)
    (hk : ∀ c2 ∈ l, c2.type &&& 2 = 0 →
      ¬ (c2.objectId = id ∧ (c2.field_8 = k ∨ c2.field_8 = -1)))
    (h : s.getStaticANIObject1ById id k = some x) :
    (sceneApplyInfos e a l s).getStaticANIObject1ById id k = some x := by
  induction l generalizing s with
  | nil => exact h
  | cons info rest ih =>
    apply ih
    · intro c2 hc2
      exact hk c2 (List.mem_cons_of_mem _ hc2)
    · exact sceneApplyInfo_ani_other e a info s id k x hk1 (hk info (List.mem_cons_self _ _)) h

/-- An entry that is not a wildcard entry for `id` keeps the animated object
(id, k) at its position and keeps its id. -/
theorem sceneApplyInfo_ani_any (e : Engine) (a : Nat) (info : PicAniInfo) (s : Scene)
    (id k : Int) (i : Nat) (o : StaticANIObject)
    (hk1 : k ≠ -1)
    (hw : info.type &&& 2 = 0 → ¬ (info.objectId = id ∧ info.field_8 = -1))
    (h : s.getStaticANIObject1ById id k = some (i, o)) :
    ∃ o2, (sceneApplyInfo e a info s).getStaticANIObject1ById id k = some (i, o2) ∧
      o2._id = o._id ∧ o2._sceneId = o._sceneId := by
  unfold sceneApplyInfo
  split
  · refine ⟨o, ?_, rfl, rfl⟩
    simp only [Scene.getStaticANIObject1ById, applyPictureInfo_anis] at h ⊢
    exact h
  · rename_i h2
    split
    · exact ⟨o, h, rfl, rfl⟩
    · split
      · exact ⟨o, h, rfl, rfl⟩
      · exact applyAniInfo_any s _ info id k i o hk1 (hw (by simpa using h2)) h

/-- A list without wildcard entries for `id` keeps the animated object (id, k)
at its position and keeps its id. -/
theorem sceneApplyInfos_ani_any (e : Engine) (a : Nat) (l : List PicAniInfo) (s : Scene)
    (id k : Int) (i : Nat) (o : StaticANIObject)
    (hk1 : k ≠ -1)
    (hw : ∀ c2 ∈ l, c2.type &&& 2 = 0 → ¬ (c2.objectId = id ∧ c2.field_8 = -1))
    (h : s.getStaticANIObject1ById id k = some (i, o)) :
    ∃ o2, (sceneApplyInfos e a l s).getStaticANIObject1ById id k = some (i, o2) ∧
      o2._id = o._id ∧ o2._sceneId = o._sceneId := by
  induction l generalizing s o with
  | nil => exact ⟨o, h, rfl, rfl⟩
  | cons info rest ih =>
    obtain ⟨o1, h1, hid1, hsc1⟩ :=
      sceneApplyInfo_ani_any e a info s id k i o hk1 (hw info (List.mem_cons_self _ _)) h
    obtain ⟨o2, h2, hid2, hsc2⟩ :=
      ih _ o1 (fun c2 hc2 => hw c2 (List.mem_cons_of_mem _ hc2)) h1
    exact ⟨o2, h2, hid2.trans hid1, hsc2.trans hsc1⟩

/-- An animated-object entry whose owning scene resolves, and which no later
non-picture entry of the list overrides, determines the final state of the
animated object it addresses (copy index -1, the wildcard of the lookup, set
aside). -/
theorem sceneApplyInfos_ani_last (e : Engine) (a : Nat) (pre post : List PicAniInfo)
    (c : PicAniInfo) (s : Scene) (i : Nat) (o : StaticANIObject)
    (hc2 : c.type &&& 2 = 0) (hc1 : c.type &&& 1 ≠ 0)
    (hk1 : c.field_8 ≠ -1)
    (hres : (accessScene (e.setScene a s) c.sceneId).isSome = true)
    (hpre : ∀ c2 ∈ pre, c2.type &&& 2 = 0 →
      ¬ (c2.objectId = c.objectId ∧ c2.field_8 = -1))
    (hpost : ∀ c2 ∈ post, c2.type &&& 2 = 0 →
      ¬ (c2.objectId = c.objectId ∧ (c2.field_8 = c.field_8 ∨ c2.field_8 = -1)))
    (h : s.getStaticANIObject1ById c.objectId c.field_8 = some (i, o)) :
    (sceneApplyInfos e a (pre ++ c :: post) s).getStaticANIObject1ById c.objectId c.field_8
      = some (i, o.setPicAniInfo c) := by
  rw [sceneApplyInfos_append]
  obtain ⟨o1, h1, hid1, hsc1⟩ :=
    sceneApplyInfos_ani_any e a pre s c.objectId c.field_8 i o hk1 hpre h
  simp only [sceneApplyInfos]
  apply sceneApplyInfos_ani_other e a post _ _ _ _ hk1 hpost
  have hres2 : (accessScene (e.setScene a (sceneApplyInfos e a pre s)) c.sceneId).isSome
      = true := by
    rw [accessScene_isSome_setScene e a _ s]
    exact hres
  obtain ⟨sn, hsn⟩ := Option.isSome_iff_exists.mp hres2
  have h2 : sceneApplyInfo e a c (sceneApplyInfos e a pre s)
      = (sceneApplyInfos e a pre s).applyAniInfo sn c := by
    unfold sceneApplyInfo
    simp only [hc2, ne_eq, not_true_eq_false, if_false, hc1, hsn]
  rw [h2, applyAniInfo_same _ sn c i o1 h1]
  simp only [StaticANIObject.setPicAniInfo, hid1, hsc1]

/-- Reading the entry that `updateAt` replaced. -/
theorem updateAt_getElem {α : Type} (l : List α) (i : Nat) (f : α → α) (x : α)
    (h : l[i]? = some x) : (updateAt l i f)[i]? = some (f x) := by
  induction l generalizing i with
  | nil => simp at h
  | cons y rest ih =>
    cases i with
    | zero =>
      simp only [List.getElem?_cons_zero, Option.some.injEq] at h
      simp [updateAt, h]
    | succ j =>
      simp only [List.getElem?_cons_succ] at h
      simp [updateAt, ih j h]


/-- C10: for a registered scene that has a live Scene after the construction
step, `loadScene` runs `init()` on the scene, then applies the whole default
list `_defPicAniInfos`, then the whole current list `_picAniInfos`, then sets
the record's `_scene` to the tag's scene and `_isLoaded` to true, and returns
true.  Because the current list is applied last, an object that an entry of
the current list addresses (the lookup of the loop body finds it) ends with
the state of that entry, whatever the default list did to it: a picture with
the state of the last picture entry for its id and copy index, an animated
object with the state of the last entry for its id and copy index whose
owning scene resolves (entries with the wildcard copy index -1 set aside). -/
theorem loadScene_applies_snapshots (env : Env) (e e1 : Engine) (sceneId : Int) (idx : Nat)
    (st : SceneTag) (a : Nat) (sc : Scene) (r : Sc2)
    (hl : getSceneTagBySceneId e sceneId = some idx)
    (hc : constructScene env sceneId idx e = .ok e1)
    (ht : e1._sceneTagList[idx]? = some st)
    (hst : st._scene = some a)
    (hsc : heapGet e1.heap a = some sc)
    (hr : e1._sc2array[idx]? = some r) :
    loadScene env sceneId e
      = .ok (true,
          (e1.setScene a
            (sceneApplyInfos e1 a r._picAniInfos
              (sceneApplyInfos e1 a r._defPicAniInfos (env.sceneInit sc)))).updSc2 idx
            (fun r => { r with _scene := st._scene, _isLoaded := true })) ∧
    applyPicAniInfos a r._defPicAniInfos (e1.setScene a (env.sceneInit sc))
      = .ok (e1.setScene a (sceneApplyInfos e1 a r._defPicAniInfos (env.sceneInit sc))) ∧
    applyPicAniInfos a r._picAniInfos
        (e1.setScene a (sceneApplyInfos e1 a r._defPicAniInfos (env.sceneInit sc)))
      = .ok (e1.setScene a
          (sceneApplyInfos e1 a r._picAniInfos
            (sceneApplyInfos e1 a r._defPicAniInfos (env.sceneInit sc)))) ∧
    Engine.sc2At
        ((e1.setScene a
          (sceneApplyInfos e1 a r._picAniInfos
            (sceneApplyInfos e1 a r._defPicAniInfos (env.sceneInit sc)))).updSc2 idx
          (fun r => { r with _scene := st._scene, _isLoaded := true })) idx
      = .ok { r with _scene := st._scene, _isLoaded := true } ∧
    (∀ (pre post : List PicAniInfo) (c : PicAniInfo) (i : Nat) (o : PictureObject),
      r._picAniInfos = pre ++ c :: post →
      c.type &&& 2 ≠ 0 →
      (∀ c2 ∈ post, c2.type &&& 2 ≠ 0 →
        ¬ (c2.objectId = c.objectId ∧ c2.field_8 = c.field_8)) →
      (sceneApplyInfos e1 a r._defPicAniInfos (env.sceneInit sc)).getPictureObjectById
          c.objectId c.field_8 = some (i, o) →
      (sceneApplyInfos e1 a r._picAniInfos
          (sceneApplyInfos e1 a r._defPicAniInfos (env.sceneInit sc))).getPictureObjectById
          c.objectId c.field_8 = some (i, o.setPicAniInfo c)) ∧
    (∀ (pre post : List PicAniInfo) (c : PicAniInfo) (i : Nat) (o : StaticANIObject),
      r._picAniInfos = pre ++ c :: post →
      c.type &&& 2 = 0 → c.type &&& 1 ≠ 0 →
      (accessScene
          (e1.setScene a (sceneApplyInfos e1 a r._defPicAniInfos (env.sceneInit sc)))
          c.sceneId).isSome = true →
      c.field_8 ≠ -1 →
      (∀ c2 ∈ pre, c2.type &&& 2 = 0 →
        ¬ (c2.objectId = c.objectId ∧ c2.field_8 = -1)) →
      (∀ c2 ∈ post, c2.type &&& 2 = 0 →
        ¬ (c2.objectId = c.objectId ∧ (c2.field_8 = c.field_8 ∨ c2.field_8 = -1))) →
      (sceneApplyInfos e1 a r._defPicAniInfos (env.sceneInit sc)).getStaticANIObject1ById
          c.objectId c.field_8 = some (i, o) →
      (sceneApplyInfos e1 a r._picAniInfos
          (sceneApplyInfos e1 a r._defPicAniInfos (env.sceneInit sc))).getStaticANIObject1ById
          c.objectId c.field_8 = some (i, o.setPicAniInfo c)) := by
  have hdef := applyPicAniInfos_setScene e1 a sc r._defPicAniInfos (env.sceneInit sc) hsc
  have hcur := applyPicAniInfos_setScene e1 a sc r._picAniInfos
    (sceneApplyInfos e1 a r._defPicAniInfos (env.sceneInit sc)) hsc
  refine ⟨?_, hdef, hcur, ?_, ?_, ?_⟩
  · unfold loadScene
    rw [hl]
    simp only [hc, bind, Except.bind, Engine.tagAt, ht, hst, Engine.deref, hsc, Engine.sc2At,
      Engine.setScene, hr, pure, Except.pure]
    simp only [Engine.setScene] at hdef hcur
    simp only [hdef, hr, hcur, ht, hst]
  · simp only [Engine.sc2At, Engine.updSc2, Engine.setScene,
      updateAt_getElem e1._sc2array idx _ r hr]
  · intro pre post c i o hsplit hc2 hpost hfound
    rw [hsplit]
    exact sceneApplyInfos_picture_last e1 a pre post c _ i o hc2 hpost hfound
  · intro pre post c i o hsplit hc2 hc1 hres hk1 hpre hpost hfound
    rw [hsplit]
    exact sceneApplyInfos_ani_last e1 a pre post c _ i o hc2 hc1 hk1 hres hpre hpost hfound

/-- Witness of C10: scene 5 is built by the construction step; the default
snapshot moves picture 1 to (10, 10), the current snapshot then moves it to
(20, 20), the record is marked loaded and points to the scene. -/
theorem loadScene_applies_snapshots_witness :
    loadScene buildEnv 5 snapEngine
      = .ok (true,
          { snapBuilt with
            heap := [(7, { sampleScene with _picObjList := [some ⟨1, 0, 0, 0, 20, 20, 2⟩] })]
            _sc2array := [{ snapSc2 with _scene := some 7, _isLoaded := true }] }) ∧
    (sceneApplyInfos snapBuilt 7 snapSc2._picAniInfos
        (sceneApplyInfos snapBuilt 7 snapSc2._defPicAniInfos
          (buildEnv.sceneInit sampleScene))).getPictureObjectById 1 0
      = some (0, ⟨1, 0, 0, 0, 20, 20, 2⟩) :=
  ⟨(loadScene_applies_snapshots buildEnv snapEngine snapBuilt 5 0 ⟨5, some 7⟩ 7 sampleScene
      snapSc2 rfl rfl rfl rfl rfl rfl).1,
   (loadScene_applies_snapshots buildEnv snapEngine snapBuilt 5 0 ⟨5, some 7⟩ 7 sampleScene
      snapSc2 rfl rfl rfl rfl rfl rfl).2.2.2.2.1 [] [] (pictureInfo 20 20 2) 0
      ⟨1, 0, 0, 0, 10, 10, 1⟩ rfl (by decide) (by simp) rfl⟩

/-! ## unloadScene -/

/-- Two updates of the same entry are one update with the composed function. -/
theorem updateAt_updateAt {α : Type} (l : List α) (i : Nat) (f g : α → α) :
    updateAt (updateAt l i f) i g = updateAt l i (fun x => g (f x)) := by
  induction l generalizing i with
  | nil => rfl
  | cons y rest ih =>
    cases i with
    | zero => rfl
    | succ j => simp [updateAt, ih j]

/-- An update that does not change the entry it is applied to changes nothing. -/
theorem updateAt_self {α : Type} (l : List α) (i : Nat) (f : α → α) (x : α)
    (h : l[i]? = some x) (hf : f x = x) : updateAt l i f = l := by
  induction l generalizing i with
  | nil => rfl
  | cons y rest ih =>
    cases i with
    | zero =>
      simp only [List.getElem?_cons_zero, Option.some.injEq] at h
      simp [updateAt, h, hf]
    | succ j =>
      simp only [List.getElem?_cons_succ] at h
      simp [updateAt, ih j h]

/-- An update leaves the other entries alone. -/
theorem updateAt_getElem_ne {α : Type} (l : List α) (i j : Nat) (f : α → α) (h : j ≠ i) :
    (updateAt l i f)[j]? = l[j]? := by
  induction l generalizing i j with
  | nil => rfl
  | cons y rest ih =>
    cases i with
    | zero =>
      cases j with
      | zero => exact absurd rfl h
      | succ k => simp [updateAt]
    | succ i2 =>
      cases j with
      | zero => simp [updateAt]
      | succ k =>
        simp only [updateAt, List.getElem?_cons_succ]
        exact ih i2 k (fun hc => h (by omega))

/-- An update keeps the length. -/
theorem updateAt_length {α : Type} (l : List α) (i : Nat) (f : α → α) :
    (updateAt l i f).length = l.length := by
  induction l generalizing i with
  | nil => rfl
  | cons y rest ih =>
    cases i with
    | zero => rfl
    | succ j => simp [updateAt, ih j]

/-- What `unloadScene` does to a registered record that is not loaded and has
a motion controller: it returns true, detaches the controller's objects,
destroys the scene of the tag if there is one and clears the flag and both
scene references; the snapshot lists are not touched. -/
theorem unloadScene_unloaded_result (e : Engine) (sceneId : Int) (idx : Nat) (r : Sc2)
    (t : SceneTag) (mc : MotionController)
    (hl : getSceneTagBySceneId e sceneId = some idx)
    (hr : e._sc2array[idx]? = some r)
    (ht : e._sceneTagList[idx]? = some t)
    (hu : r._isLoaded = false)
    (hmc : r._motionController = some mc)
    (hts : t._scene = none ∨ ∃ a s, t._scene = some a ∧ heapGet e.heap a = some s) :
    unloadScene sceneId e
      = .ok (true,
          { e with
            _sc2array := updateAt e._sc2array idx (fun r =>
              { r with _motionController := some mc.detachAllObjects,
                       _isLoaded := false, _scene := none })
            _sceneTagList := updateAt e._sceneTagList idx (fun t => { t with _scene := none })
            heap := match t._scene with
              | none => e.heap
              | some a => heapFree e.heap a }) := by
  have hr1 : (updateAt e._sc2array idx (fun r =>
      { r with _motionController := some mc.detachAllObjects }))[idx]?
      = some { r with _motionController := some mc.detachAllObjects } :=
    updateAt_getElem _ _ _ _ hr
  unfold unloadScene
  rw [hl]
  rcases hts with hn | ⟨a, s, ha, hs⟩
  · simp only [Engine.sc2At, hr, bind, Except.bind, hu, Bool.false_eq_true, if_false, pure,
      Except.pure, hmc, Engine.updSc2, Engine.tagAt, ht, hn, Engine.updTag, hr1,
      updateAt_updateAt]
  · simp only [Engine.sc2At, hr, bind, Except.bind, hu, Bool.false_eq_true, if_false, pure,
      Except.pure, hmc, Engine.updSc2, Engine.tagAt, ht, ha, Engine.deref, hs, Engine.updTag,
      hr1, updateAt_updateAt]

/-- C12 (as amended): for a registered scene whose record is not loaded and
has a motion controller, `unloadScene` completes and returns true (not
false); the record's current snapshot list is unchanged; the controller's
objects are detached, a scene still held by the tag is destroyed, and the
flag and both scene references are cleared.  When the controller has no
attached objects and both references are already null (the state a previous
`unloadScene` leaves), the whole state is unchanged. -/
theorem unloadScene_unloaded_returns_true (e : Engine) (sceneId : Int) (idx : Nat) (r : Sc2)
    (t : SceneTag) (mc : MotionController)
    (hl : getSceneTagBySceneId e sceneId = some idx)
    (hr : e._sc2array[idx]? = some r)
    (ht : e._sceneTagList[idx]? = some t)
    (hu : r._isLoaded = false)
    (hmc : r._motionController = some mc)
    (hts : t._scene = none ∨ ∃ a s, t._scene = some a ∧ heapGet e.heap a = some s) :
    (∃ e2, unloadScene sceneId e = .ok (true, e2) ∧
      e2._sc2array[idx]? =
        some { r with _motionController := some mc.detachAllObjects,
                      _isLoaded := false, _scene := none } ∧
      (∀ r2, e2._sc2array[idx]? = some r2 → r2._picAniInfos = r._picAniInfos) ∧
      e2._sceneTagList[idx]? = some { t with _scene := none }) ∧
    (mc.attached = [] → r._scene = none → t._scene = none →
      unloadScene sceneId e = .ok (true, e)) := by
  have hrun := unloadScene_unloaded_result e sceneId idx r t mc hl hr ht hu hmc hts
  refine ⟨⟨_, hrun, ?_, ?_, ?_⟩, ?_⟩
  · exact updateAt_getElem _ _ _ _ hr
  · intro r2 h2
    rw [updateAt_getElem _ _ _ _ hr] at h2
    simp only [Option.some.injEq] at h2
    rw [← h2]
  · exact updateAt_getElem _ _ _ _ ht
  · intro hatt hrs htn
    rw [hrun]
    have h1 : updateAt e._sc2array idx (fun r =>
        { r with _motionController := some mc.detachAllObjects,
                 _isLoaded := false, _scene := none }) = e._sc2array := by
      apply updateAt_self _ _ _ r hr
      cases r
      cases mc
      simp_all [MotionController.detachAllObjects]
    have h2 : updateAt e._sceneTagList idx (fun t => { t with _scene := none })
        = e._sceneTagList := by
      apply updateAt_self _ _ _ t ht
      cases t
      simp_all
    simp only [h1, h2, htn]

/-- Witness of C12 (as amended): scene 5 of `sampleUnloaded` is registered,
not loaded, and its controller has no attached objects. -/
theorem unloadScene_unloaded_returns_true_witness :
    unloadScene 5 sampleUnloaded = .ok (true, sampleUnloaded) :=
  (unloadScene_unloaded_returns_true sampleUnloaded 5 0
    { sampleSc2 with _scene := none, _isLoaded := false } ⟨5, none⟩ ⟨0, []⟩
    rfl rfl rfl rfl rfl (Or.inl rfl)).2 rfl rfl rfl

/-- Counterexample to C12 as stated: scene 5 of `sampleUnloaded` is registered
and its record is not loaded, yet `unloadScene(5)` returns true. -/
theorem unloadScene_unloaded_counterexample :
    getSceneTagBySceneId sampleUnloaded 5 = some 0 ∧
    sampleUnloaded._sc2array[0]? = some { sampleSc2 with _scene := none, _isLoaded := false } ∧
    unloadScene 5 sampleUnloaded = .ok (true, sampleUnloaded) ∧
    unloadScene 5 sampleUnloaded ≠ .ok (false, sampleUnloaded) := by
  refine ⟨rfl, rfl, rfl, ?_⟩
  intro h
  have h2 : unloadScene 5 sampleUnloaded = .ok (true, sampleUnloaded) := rfl
  rw [h2] at h
  simp at h

/-- What `unloadScene` does to a registered, loaded record that has a motion
controller and whose tag holds a live scene `s`: it returns true, stores
`savePicAniInfos(s, 0, 128)` as the current snapshot list, detaches the
controller's objects, destroys the scene and clears the flag and both scene
references; default snapshot list and entrance data are not touched. -/
theorem unloadScene_loaded_result (e : Engine) (sceneId : Int) (idx : Nat) (r : Sc2)
    (t : SceneTag) (mc : MotionController) (a : Nat) (s : Scene)
    (hl : getSceneTagBySceneId e sceneId = some idx)
    (hr : e._sc2array[idx]? = some r)
    (ht : e._sceneTagList[idx]? = some t)
    (hloaded : r._isLoaded = true)
    (hmc : r._motionController = some mc)
    (hta : t._scene = some a)
    (hs : heapGet e.heap a = some s) :
    unloadScene sceneId e
      = .ok (true,
          { e with
            _sc2array := updateAt e._sc2array idx (fun r =>
              { r with _picAniInfos := savePicAniInfos (some s) 0 128,
                       _motionController := some mc.detachAllObjects,
                       _isLoaded := false, _scene := none })
            _sceneTagList := updateAt e._sceneTagList idx (fun t => { t with _scene := none })
            heap := heapFree e.heap a }) := by
  have hsave : saveScenePicAniInfos sceneId e
      = .ok (e.updSc2 idx (fun r => { r with _picAniInfos := savePicAniInfos (some s) 0 128 })) := by
    unfold saveScenePicAniInfos
    rw [hl]
    simp only [Engine.sc2At, hr, bind, Except.bind, hloaded, Bool.not_true, Bool.false_eq_true,
      if_false, Engine.tagAt, ht, hta, Engine.deref, hs, pure, Except.pure]
  have hr1 : (updateAt e._sc2array idx (fun r =>
      { r with _picAniInfos := savePicAniInfos (some s) 0 128 }))[idx]?
      = some { r with _picAniInfos := savePicAniInfos (some s) 0 128 } :=
    updateAt_getElem _ _ _ _ hr
  have hr2 : (updateAt e._sc2array idx (fun x =>
      { ({ x with _picAniInfos := savePicAniInfos (some s) 0 128 } : Sc2) with
        _motionController := some mc.detachAllObjects }))[idx]?
      = some { ({ r with _picAniInfos := savePicAniInfos (some s) 0 128 } : Sc2) with
        _motionController := some mc.detachAllObjects } :=
    updateAt_getElem _ _ _ _ hr
  unfold unloadScene
  rw [hl]
  simp only [Engine.sc2At, hr, bind, Except.bind, hloaded, if_true, hsave, Engine.updSc2, hr1,
    hmc, pure, Except.pure, Engine.tagAt, ht, hta, Engine.deref, hs, Engine.updTag,
    updateAt_updateAt, hr2]

/-- C13 at the failing input: scene 5 of `sampleNoController` is registered and
loaded, its tag holds the live scene at address 7, and its record has no
motion controller.  `unloadScene(5)` takes the snapshot and then calls
`detachAllObjects` through the null `_motionController`: the call does not
return. -/
theorem unloadScene_null_controller_fault :
    getSceneTagBySceneId sampleNoController 5 = some 0 ∧
    sampleNoController._sc2array[0]? = some { sampleSc2 with _motionController := none } ∧
    sampleSc2._isLoaded = true ∧
    sampleNoController._sceneTagList[0]? = some ⟨5, some 7⟩ ∧
    heapGet sampleNoController.heap 7 = some sampleScene ∧
    unloadScene 5 sampleNoController = .error Fault.badPointer :=
  ⟨rfl, rfl, rfl, rfl, rfl, rfl⟩

/-! ## Registry lookup -/

/-- The inner loop of the lookup returns the position of the first tag
carrying the id. -/
theorem findSceneTag_some (sceneId : Int) (tags : List SceneTag) (num k : Nat)
    (h : findSceneTag sceneId tags num = some k) :
    ∃ j t, k = num + j ∧ tags[j]? = some t ∧ t._sceneId = sceneId ∧
      ∀ j2, j2 < j → ∀ t2, tags[j2]? = some t2 → t2._sceneId ≠ sceneId := by
  induction tags generalizing num with
  | nil => simp [findSceneTag] at h
  | cons s rest ih =>
    simp only [findSceneTag] at h
    by_cases hc : (s._sceneId == sceneId) = true
    · rw [if_pos hc] at h
      simp only [Option.some.injEq] at h
      refine ⟨0, s, by omega, by simp, by simpa using hc, ?_⟩
      intro j2 hj2
      omega
    · rw [if_neg hc] at h
      obtain ⟨j, t, hk, hget, hid, hmin⟩ := ih (num + 1) h
      refine ⟨j + 1, t, by omega, by simpa using hget, hid, ?_⟩
      intro j2 hj2 t2 ht2
      cases j2 with
      | zero =>
        simp only [List.getElem?_cons_zero, Option.some.injEq] at ht2
        subst ht2
        simpa using hc
      | succ j3 =>
        simp only [List.getElem?_cons_succ] at ht2
        exact hmin j3 (by omega) t2 ht2

/-- The inner loop of the lookup finds a tag whenever one carries the id. -/
theorem findSceneTag_isSome (sceneId : Int) (tags : List SceneTag) (num : Nat)
    (h : ∃ t ∈ tags, t._sceneId = sceneId) :
    ∃ k, findSceneTag sceneId tags num = some k := by
  induction tags generalizing num with
  | nil =>
    obtain ⟨t, ht, _⟩ := h
    simp at ht
  | cons s rest ih =>
    simp only [findSceneTag]
    by_cases hc : (s._sceneId == sceneId) = true
    · rw [if_pos hc]
      exact ⟨num, rfl⟩
    · rw [if_neg hc]
      apply ih
      obtain ⟨t, ht, hid⟩ := h
      rcases List.mem_cons.mp ht with h1 | h1
      · subst h1
        simp [hid] at hc
      · exact ⟨t, h1, hid⟩

/-- The outer loop of the lookup returns nothing when no record carries the
id. -/
theorem scanSc2array_none (tags : List SceneTag) (sceneId : Int) (recs : List Sc2)
    (h : ∀ r ∈ recs, r._sceneId ≠ sceneId) :
    scanSc2array tags sceneId recs = none := by
  induction recs with
  | nil => rfl
  | cons r rest ih =>
    have h1 : (r._sceneId == sceneId) = false := by
      simpa using h r (List.mem_cons_self _ _)
    simp only [scanSc2array, h1, Bool.false_eq_true, if_false]
    exact ih (fun x hx => h x (List.mem_cons_of_mem _ hx))

/-- The outer loop of the lookup returns the result of the tag scan when a
record carries the id and the tag scan succeeds. -/
theorem scanSc2array_some (tags : List SceneTag) (sceneId : Int) (recs : List Sc2) (k : Nat)
    (h : ∃ r ∈ recs, r._sceneId = sceneId)
    (hk : findSceneTag sceneId tags 0 = some k) :
    scanSc2array tags sceneId recs = some k := by
  induction recs with
  | nil =>
    obtain ⟨r, hr, _⟩ := h
    simp at hr
  | cons r rest ih =>
    simp only [scanSc2array]
    by_cases hc : (r._sceneId == sceneId) = true
    · rw [if_pos hc, hk]
    · rw [if_neg hc]
      apply ih
      obtain ⟨x, hx, hid⟩ := h
      rcases List.mem_cons.mp hx with h1 | h1
      · subst h1
        simp [hid] at hc
      · exact ⟨x, h1, hid⟩

/-- In an aligned registry the record and the tag at one index carry the same
scene id, and an index valid in one list is valid in the other. -/
theorem Engine.Aligned.pair (e : Engine) (h : e.Aligned) (j : Nat) :
    (∀ t, e._sceneTagList[j]? = some t →
      ∃ r, e._sc2array[j]? = some r ∧ r._sceneId = t._sceneId) ∧
    (∀ r, e._sc2array[j]? = some r →
      ∃ t, e._sceneTagList[j]? = some t ∧ t._sceneId = r._sceneId) := by
  have hj : (e._sc2array.map (fun r => r._sceneId))[j]?
      = (e._sceneTagList.map (fun t => t._sceneId))[j]? := by
    unfold Engine.Aligned at h
    rw [h]
  simp only [List.getElem?_map] at hj
  constructor
  · intro t ht
    rw [ht] at hj
    cases hr : e._sc2array[j]? with
    | none => simp [hr] at hj
    | some r =>
      rw [hr] at hj
      simp only [Option.map_some', Option.some.injEq] at hj
      exact ⟨r, rfl, hj⟩
  · intro r hr
    rw [hr] at hj
    cases ht : e._sceneTagList[j]? with
    | none => simp [ht] at hj
    | some t =>
      rw [ht] at hj
      simp only [Option.map_some', Option.some.injEq] at hj
      exact ⟨t, rfl, hj.symm⟩

/-- C14: in a registry whose record list and tag list have the same length and
carry the same scene id at every index, `getSceneTagBySceneId(sceneId)`
returns -1 with a null tag when no record carries the id, and otherwise the
smallest index `idx` with `_sc2array[idx]._sceneId == sceneId`, the tag being
the one stored at that index, which carries the id too; `idx` is a valid
index into both lists. -/
theorem getSceneTagBySceneId_aligned (e : Engine) (sceneId : Int) (h : e.Aligned) :
    ((∀ r ∈ e._sc2array, r._sceneId ≠ sceneId) → getSceneTagBySceneId e sceneId = none) ∧
    ((∃ r ∈ e._sc2array, r._sceneId = sceneId) →
      ∃ idx r t, getSceneTagBySceneId e sceneId = some idx ∧
        e._sc2array[idx]? = some r ∧ r._sceneId = sceneId ∧
        e._sceneTagList[idx]? = some t ∧ t._sceneId = sceneId ∧
        idx < e._sc2array.length ∧ idx < e._sceneTagList.length ∧
        ∀ j, j < idx → ∀ r2, e._sc2array[j]? = some r2 → r2._sceneId ≠ sceneId) := by
  constructor
  · intro hno
    unfold getSceneTagBySceneId
    split
    · exact scanSc2array_none _ _ _ hno
    · rfl
  · intro hex
    obtain ⟨r0, hr0, hid0⟩ := hex
    -- the record has a position, and the tag list has a tag with the id there
    obtain ⟨n0, hn0⟩ := List.getElem?_of_mem hr0
    obtain ⟨t0, ht0, htid0⟩ := (Engine.Aligned.pair e h n0).2 r0 hn0
    have htmem : ∃ t ∈ e._sceneTagList, t._sceneId = sceneId :=
      ⟨t0, List.getElem?_mem ht0, htid0.trans hid0⟩
    obtain ⟨k, hk⟩ := findSceneTag_isSome sceneId e._sceneTagList 0 htmem
    obtain ⟨j, t, hkj, htj, htid, hmin⟩ := findSceneTag_some sceneId e._sceneTagList 0 k hk
    have hkj2 : k = j := by omega
    subst hkj2
    obtain ⟨r, hr, hrid⟩ := (Engine.Aligned.pair e h k).1 t htj
    have hlen1 : 0 < e._sc2array.length := List.length_pos_of_mem hr0
    have hlen2 : 0 < e._sceneTagList.length := List.length_pos_of_mem (List.getElem?_mem ht0)
    refine ⟨k, r, t, ?_, hr, hrid.trans htid, htj, htid, ?_, ?_, ?_⟩
    · unfold getSceneTagBySceneId
      rw [if_pos ⟨hlen1, hlen2⟩]
      exact scanSc2array_some _ _ _ k ⟨r0, hr0, hid0⟩ hk
    · exact (List.getElem?_eq_some_iff.mp hr).1
    · exact (List.getElem?_eq_some_iff.mp htj).1
    · intro j2 hj2 r2 hr2 hc
      obtain ⟨t2, ht2, htid2⟩ := (Engine.Aligned.pair e h j2).2 r2 hr2
      exact hmin j2 hj2 t2 ht2 (htid2.trans hc)

/-- Witness of C14: `sampleEngine` is aligned and scene 5 sits at index 0 of
both lists. -/
theorem getSceneTagBySceneId_aligned_witness :
    ∃ idx r t, getSceneTagBySceneId sampleEngine 5 = some idx ∧
      sampleEngine._sc2array[idx]? = some r ∧ r._sceneId = 5 ∧
      sampleEngine._sceneTagList[idx]? = some t ∧ t._sceneId = 5 ∧
      idx < sampleEngine._sc2array.length ∧ idx < sampleEngine._sceneTagList.length ∧
      ∀ j, j < idx → ∀ r2, sampleEngine._sc2array[j]? = some r2 → r2._sceneId ≠ 5 :=
  (getSceneTagBySceneId_aligned sampleEngine 5 rfl).2 ⟨sampleSc2, by decide, rfl⟩

/-! ## savePicAniInfos -/

/-- With both masks 0 every non-null picture is captured. -/
theorem savePictures_zero_masks (pics : List PictureObject) :
    savePictures 0 0 (pics.map some) = pics.map (fun o => o.getPicAniInfo) := by
  induction pics with
  | nil => rfl
  | cons o rest ih =>
    have hpass : passesMasks o._flags o._field_8 0 0 = true := by simp [passesMasks]
    simp only [savePictures] at ih
    simp only [savePictures, List.map_cons, List.filterMap_cons, hpass, if_true]
    rw [ih]

/-- With both masks 0 every non-null animated object is captured, its type
masked with 0xFFFF. -/
theorem saveAnis_zero_masks (anis : List StaticANIObject) :
    saveAnis 0 0 (anis.map some)
      = anis.map (fun o => { o.getPicAniInfo with type := o.getPicAniInfo.type &&& 0xFFFF }) := by
  induction anis with
  | nil => rfl
  | cons o rest ih =>
    have hpass : passesMasks o._flags o._field_8 0 0 = true := by simp [passesMasks]
    simp only [saveAnis] at ih
    simp only [saveAnis, List.map_cons, List.filterMap_cons, hpass, if_true]
    rw [ih]

/-- C16 (as amended): for a scene with p >= 1 pictures and a >= 0 animated
objects, all non-null, and p + a >= 2, `savePicAniInfos(scene, 0, 0)` returns
exactly p + a entries: the snapshots of the pictures in scene order followed
by the snapshots of the animated objects in scene order.  For p = 1 and
a = 0 the guard `numInfos < 1` returns the empty list. -/
theorem savePicAniInfos_zero_masks (sc : Scene) (pics : List PictureObject)
    (anis : List StaticANIObject)
    (hp : sc._picObjList = pics.map some)
    (ha : sc._staticANIObjectList1 = anis.map some)
    (hp1 : 1 ≤ pics.length) :
    (2 ≤ pics.length + anis.length →
      savePicAniInfos (some sc) 0 0
        = pics.map (fun o => o.getPicAniInfo) ++
          anis.map (fun o => { o.getPicAniInfo with type := o.getPicAniInfo.type &&& 0xFFFF }) ∧
      (savePicAniInfos (some sc) 0 0).length = pics.length + anis.length) ∧
    (pics.length = 1 → anis.length = 0 → savePicAniInfos (some sc) 0 0 = []) := by
  have hlen0 : ¬ (sc._picObjList.length = 0) := by
    rw [hp, List.length_map]
    omega
  constructor
  · intro h2
    have hnum : ¬ (((sc._staticANIObjectList1.length : Int) + sc._picObjList.length - 1) < 1) := by
      rw [hp, ha, List.length_map, List.length_map]
      omega
    have heq : savePicAniInfos (some sc) 0 0
        = pics.map (fun o => o.getPicAniInfo) ++
          anis.map (fun o =>
            { o.getPicAniInfo with type := o.getPicAniInfo.type &&& 0xFFFF }) := by
      simp only [savePicAniInfos, hlen0, if_false, hnum]
      rw [hp, ha, savePictures_zero_masks, saveAnis_zero_masks]
    refine ⟨heq, ?_⟩
    rw [heq]
    simp
  · intro h1 h0
    have hnum : ((sc._staticANIObjectList1.length : Int) + sc._picObjList.length - 1) < 1 := by
      rw [hp, ha, List.length_map, List.length_map]
      omega
    simp only [savePicAniInfos, hlen0, if_false, hnum, if_true]

/-- Witness of C16 (as amended): three pictures and two animated objects give
five entries, pictures first. -/
theorem savePicAniInfos_zero_masks_witness :
    savePicAniInfos (some fiveObjectScene) 0 0
      = [(⟨1, 0, 0, 0, 0, 0, 0⟩ : PictureObject).getPicAniInfo,
         (⟨2, 0, 0, 0, 5, 5, 1⟩ : PictureObject).getPicAniInfo,
         (⟨3, 0, 0, 0, 9, 9, 2⟩ : PictureObject).getPicAniInfo,
         (⟨10, 0, 0, 0, 1, 2, 3, 8, 0, 0, 0, 0, 0⟩ : StaticANIObject).getPicAniInfo,
         (⟨11, 0, 0, 0, 4, 5, 6, 8, 0, 0, 0, 0, 0⟩ : StaticANIObject).getPicAniInfo] ∧
    (savePicAniInfos (some fiveObjectScene) 0 0).length = 3 + 2 :=
  (savePicAniInfos_zero_masks fiveObjectScene
    [⟨1, 0, 0, 0, 0, 0, 0⟩, ⟨2, 0, 0, 0, 5, 5, 1⟩, ⟨3, 0, 0, 0, 9, 9, 2⟩]
    [⟨10, 0, 0, 0, 1, 2, 3, 8, 0, 0, 0, 0, 0⟩, ⟨11, 0, 0, 0, 4, 5, 6, 8, 0, 0, 0, 0, 0⟩]
    rfl rfl (by decide)).1 (by decide)

/-- Counterexample to C16 as stated: `sampleScene` has one non-null picture
and no animated object (p = 1, a = 0), and `savePicAniInfos(scene, 0, 0)`
returns no entry instead of one. -/
theorem savePicAniInfos_single_picture_counterexample :
    sampleScene._picObjList = [some ⟨1, 0, 0, 0, 0, 0, 0⟩] ∧
    sampleScene._staticANIObjectList1 = [] ∧
    savePicAniInfos (some sampleScene) 0 0 = [] ∧
    (savePicAniInfos (some sampleScene) 0 0).length ≠ 1 + 0 :=
  ⟨rfl, rfl, rfl, by decide⟩

/-- Selecting with a function that selects less gives a subsequence. -/
theorem filterMap_sublist_of_imp {α β : Type} (f g : α → Option β)
    (h : ∀ x y, f x = some y → g x = some y) (l : List α) :
    List.Sublist (l.filterMap f) (l.filterMap g) := by
  induction l with
  | nil => exact List.Sublist.slnil
  | cons x rest ih =>
    cases hf : f x with
    | none =>
      rw [List.filterMap_cons_none hf]
      cases hg : g x with
      | none =>
        rw [List.filterMap_cons_none hg]
        exact ih
      | some z =>
        rw [List.filterMap_cons_some hg]
        exact List.Sublist.cons _ ih
    | some y =>
      rw [List.filterMap_cons_some hf, List.filterMap_cons_some (h x y hf)]
      exact List.Sublist.cons₂ _ ih

/-- The pictures captured under masks form a subsequence of the pictures
captured without masks. -/
theorem savePictures_sublist (flag1 flag2 : Nat) (l : List (Option PictureObject)) :
    List.Sublist (savePictures flag1 flag2 l) (savePictures 0 0 l) := by
  unfold savePictures
  apply filterMap_sublist_of_imp
  intro x y hxy
  cases x with
  | none => simp at hxy
  | some o =>
    have hpass : passesMasks o._flags o._field_8 0 0 = true := by simp [passesMasks]
    by_cases hp : passesMasks o._flags o._field_8 flag1 flag2 = true
    · simp only [hp, if_true] at hxy
      simp only [hpass, if_true]
      exact hxy
    · simp [hp] at hxy

/-- The animated objects captured under masks form a subsequence of the
animated objects captured without masks. -/
theorem saveAnis_sublist (flag1 flag2 : Nat) (l : List (Option StaticANIObject)) :
    List.Sublist (saveAnis flag1 flag2 l) (saveAnis 0 0 l) := by
  unfold saveAnis
  apply filterMap_sublist_of_imp
  intro x y hxy
  cases x with
  | none => simp at hxy
  | some o =>
    have hpass : passesMasks o._flags o._field_8 0 0 = true := by simp [passesMasks]
    by_cases hp : passesMasks o._flags o._field_8 flag1 flag2 = true
    · simp only [hp, if_true] at hxy
      simp only [hpass, if_true]
      exact hxy
    · simp [hp] at hxy

/-- Every captured picture entry is the snapshot of a picture of the list that
passes both masks. -/
theorem savePictures_mem (flag1 flag2 : Nat) (l : List (Option PictureObject))
    (info : PicAniInfo) (h : info ∈ savePictures flag1 flag2 l) :
    ∃ obj, some obj ∈ l ∧ (obj._flags &&& flag1) = flag1 ∧ (obj._field_8 &&& flag2) = flag2 ∧
      info = obj.getPicAniInfo := by
  simp only [savePictures, List.mem_filterMap] at h
  obtain ⟨x, hx, hinfo⟩ := h
  cases x with
  | none => simp at hinfo
  | some o =>
    by_cases hp : passesMasks o._flags o._field_8 flag1 flag2 = true
    · simp only [hp, if_true, Option.some.injEq] at hinfo
      simp only [passesMasks, Bool.and_eq_true, beq_iff_eq] at hp
      exact ⟨o, hx, hp.1, hp.2, hinfo.symm⟩
    · simp [hp] at hinfo

/-- Every captured animated-object entry is the snapshot, type masked with
0xFFFF, of an animated object of the list that passes both masks. -/
theorem saveAnis_mem (flag1 flag2 : Nat) (l : List (Option StaticANIObject))
    (info : PicAniInfo) (h : info ∈ saveAnis flag1 flag2 l) :
    ∃ obj, some obj ∈ l ∧ (obj._flags &&& flag1) = flag1 ∧ (obj._field_8 &&& flag2) = flag2 ∧
      info = { obj.getPicAniInfo with type := obj.getPicAniInfo.type &&& 0xFFFF } := by
  simp only [saveAnis, List.mem_filterMap] at h
  obtain ⟨x, hx, hinfo⟩ := h
  cases x with
  | none => simp at hinfo
  | some o =>
    by_cases hp : passesMasks o._flags o._field_8 flag1 flag2 = true
    · simp only [hp, if_true, Option.some.injEq] at hinfo
      simp only [passesMasks, Bool.and_eq_true, beq_iff_eq] at hp
      exact ⟨o, hx, hp.1, hp.2, hinfo.symm⟩
    · simp [hp] at hinfo

/-- C17: for every scene and all masks, the result of `savePicAniInfos` is a
subsequence of the snapshots of the scene's pictures followed by those of its
animated objects, and every entry of it is the snapshot of an object with
`(obj._flags & flag1) == flag1` and `(obj._field_8 & flag2) == flag2`; the
result is empty when the scene is null or has no picture objects, whatever
animated objects it has. -/
theorem savePicAniInfos_filters (flag1 flag2 : Nat) :
    savePicAniInfos none flag1 flag2 = [] ∧
    (∀ sc : Scene, sc._picObjList = [] → savePicAniInfos (some sc) flag1 flag2 = []) ∧
    (∀ sc : Scene,
      List.Sublist (savePicAniInfos (some sc) flag1 flag2)
        (savePictures 0 0 sc._picObjList ++ saveAnis 0 0 sc._staticANIObjectList1)) ∧
    (∀ (sc : Scene) (info : PicAniInfo), info ∈ savePicAniInfos (some sc) flag1 flag2 →
      (∃ obj, some obj ∈ sc._picObjList ∧
        (obj._flags &&& flag1) = flag1 ∧ (obj._field_8 &&& flag2) = flag2 ∧
        info = obj.getPicAniInfo) ∨
      (∃ obj, some obj ∈ sc._staticANIObjectList1 ∧
        (obj._flags &&& flag1) = flag1 ∧ (obj._field_8 &&& flag2) = flag2 ∧
        info = { obj.getPicAniInfo with type := obj.getPicAniInfo.type &&& 0xFFFF })) := by
  refine ⟨rfl, ?_, ?_, ?_⟩
  · intro sc h
    simp [savePicAniInfos, h]
  · intro sc
    simp only [savePicAniInfos]
    split
    · exact List.nil_sublist _
    · split
      · exact List.nil_sublist _
      · exact List.Sublist.append (savePictures_sublist _ _ _) (saveAnis_sublist _ _ _)
  · intro sc info h
    simp only [savePicAniInfos] at h
    split at h
    · simp at h
    · split at h
      · simp at h
      · rcases List.mem_append.mp h with h1 | h1
        · exact Or.inl (savePictures_mem _ _ _ _ h1)
        · exact Or.inr (saveAnis_mem _ _ _ _ h1)

/-! ## applyPicAniInfos: picture entries -/

/-- The object a lookup returns is the entry of the list at the returned
position. -/
theorem findObj_getElem {α : Type} (p : α → Bool) (l : List (Option α)) (i : Nat) (o : α)
    (h : findObj p l = some (i, o)) : l[i]? = some (some o) := by
  induction l generalizing i with
  | nil => simp [findObj] at h
  | cons x rest ih =>
    cases x with
    | none =>
      simp only [findObj, Option.map_eq_some', Prod.mk.injEq] at h
      obtain ⟨⟨j, o2⟩, hj, hi, ho⟩ := h
      subst ho
      simp only at hi
      subst hi
      simpa using ih j hj
    | some y =>
      simp only [findObj] at h
      by_cases hp : p y = true
      · rw [if_pos hp] at h
        simp only [Option.some.injEq, Prod.mk.injEq] at h
        obtain ⟨hi, ho⟩ := h
        subst hi
        subst ho
        simp
      · rw [if_neg hp] at h
        simp only [Option.map_eq_some', Prod.mk.injEq] at h
        obtain ⟨⟨j, o2⟩, hj, hi, ho⟩ := h
        subst ho
        simp only at hi
        subst hi
        simpa using ih j hj

/-- C20: for a live scene and a snapshot entry whose type has bit 2 set,
`applyPicAniInfos` is find-or-clone on the picture list and leaves the
animated objects alone: if the scene has a picture with (objectId, field_8),
the snapshot is set on that picture and the number of pictures is unchanged;
otherwise, if it has a picture with (objectId, 0), a copy of that picture with
the snapshot set on it is appended and the number of pictures grows by one;
otherwise the scene is unchanged.  An empty snapshot list changes nothing. -/
theorem applyPicAniInfos_picture_entry (e : Engine) (a : Nat) (s : Scene) (info : PicAniInfo)
    (hs : heapGet e.heap a = some s)
    (h2 : info.type &&& 2 ≠ 0) :
    applyPicAniInfos a [] e = .ok e ∧
    applyPicAniInfos a [info] e = .ok (e.setScene a (s.applyPictureInfo info)) ∧
    heapGet (e.setScene a (s.applyPictureInfo info)).heap a = some (s.applyPictureInfo info) ∧
    (s.applyPictureInfo info)._staticANIObjectList1 = s._staticANIObjectList1 ∧
    (∀ i o, s.getPictureObjectById info.objectId info.field_8 = some (i, o) →
      (s.applyPictureInfo info)._picObjList
        = updateAt s._picObjList i (Option.map (fun p => p.setPicAniInfo info)) ∧
      s._picObjList[i]? = some (some o) ∧
      (s.applyPictureInfo info)._picObjList[i]? = some (some (o.setPicAniInfo info)) ∧
      (∀ j, j ≠ i → (s.applyPictureInfo info)._picObjList[j]? = s._picObjList[j]?) ∧
      (s.applyPictureInfo info)._picObjList.length = s._picObjList.length) ∧
    (s.getPictureObjectById info.objectId info.field_8 = none →
      ∀ j p, s.getPictureObjectById info.objectId 0 = some (j, p) →
        (s.applyPictureInfo info)._picObjList
          = s._picObjList ++ [some (p.setPicAniInfo info)] ∧
        (s.applyPictureInfo info)._picObjList.length = s._picObjList.length + 1) ∧
    (s.getPictureObjectById info.objectId info.field_8 = none →
      s.getPictureObjectById info.objectId 0 = none →
      s.applyPictureInfo info = s) := by
  refine ⟨rfl, ?_, ?_, applyPictureInfo_anis s info, ?_, ?_, ?_⟩
  · simp only [applyPicAniInfos, applyPicAniInfo, h2, ne_eq, not_false_eq_true, if_true,
      Engine.deref, hs, bind, Except.bind, pure, Except.pure]
  · exact heapGet_heapSet_self e.heap a s _ hs
  · intro i o hfound
    have hget : s._picObjList[i]? = some (some o) := by
      simp only [Scene.getPictureObjectById] at hfound
      exact findObj_getElem _ _ _ _ hfound
    have hlist : (s.applyPictureInfo info)._picObjList
        = updateAt s._picObjList i (Option.map (fun p => p.setPicAniInfo info)) := by
      unfold Scene.applyPictureInfo
      rw [hfound]
    refine ⟨hlist, hget, ?_, ?_, ?_⟩
    · rw [hlist, updateAt_getElem _ _ _ _ hget]
      rfl
    · intro j hj
      rw [hlist]
      exact updateAt_getElem_ne _ _ _ _ hj
    · rw [hlist]
      exact updateAt_length _ _ _
  · intro hnone j p hzero
    have hlist : (s.applyPictureInfo info)._picObjList
        = s._picObjList ++ [some (p.setPicAniInfo info)] := by
      unfold Scene.applyPictureInfo
      rw [hnone, hzero]
    refine ⟨hlist, ?_⟩
    rw [hlist]
    simp
  · intro hnone hzero
    unfold Scene.applyPictureInfo
    rw [hnone, hzero]

/-- Witness of C20: the entry for picture 1, copy 3, finds no copy 3 in
`sampleScene` and clones copy 0. -/
theorem applyPicAniInfos_picture_entry_witness :
    applyPicAniInfos 7 [{ pictureInfo 4 5 6 with field_8 := 3 }] sampleEngine
      = .ok { sampleEngine with
              heap := [(7, { sampleScene with
                             _picObjList :=
                               [some ⟨1, 0, 0, 0, 0, 0, 0⟩, some ⟨1, 3, 0, 0, 4, 5, 6⟩] })] } :=
  (applyPicAniInfos_picture_entry sampleEngine 7 sampleScene
    { pictureInfo 4 5 6 with field_8 := 3 } rfl (by decide)).2.1

/-! ## Registration: scene ids -/

/-- One registration appends its scene id to the ids of the records and to
the ids of the tags, and leaves the live scenes alone. -/
theorem register_ids (op : Registration) (e e1 : Engine)
    (h : register op e = .ok e1) :
    e1._sc2array.map (fun r => r._sceneId)
      = e._sc2array.map (fun r => r._sceneId) ++ [op.sceneId e.heap] ∧
    e1._sceneTagList.map (fun t => t._sceneId)
      = e._sceneTagList.map (fun t => t._sceneId) ++ [op.sceneId e.heap] ∧
    e1.heap = e.heap := by
  cases op with
  | addSceneXML sceneId fname =>
    simp only [register, Except.ok.injEq] at h
    subst h
    simp [addSceneXML, Registration.sceneId]
  | makeSc2 scene =>
    simp only [register, makeSc2, Engine.deref, bind, Except.bind, pure, Except.pure] at h
    cases hs : heapGet e.heap scene with
    | none => simp [hs] at h
    | some sc =>
      simp only [hs, Except.ok.injEq] at h
      subst h
      simp [addSceneTag, Registration.sceneId, hs]

/-- A sequence of registrations appends its scene ids, in order, to the ids
of the records and to the ids of the tags. -/
theorem registerAll_ids (ops : List Registration) (e e1 : Engine)
    (h : registerAll ops e = .ok e1) :
    e1._sc2array.map (fun r => r._sceneId)
      = e._sc2array.map (fun r => r._sceneId) ++ ops.map (Registration.sceneId e.heap) ∧
    e1._sceneTagList.map (fun t => t._sceneId)
      = e._sceneTagList.map (fun t => t._sceneId) ++ ops.map (Registration.sceneId e.heap) ∧
    e1.heap = e.heap := by
  induction ops generalizing e with
  | nil =>
    simp only [registerAll, Except.ok.injEq] at h
    subst h
    simp
  | cons op rest ih =>
    simp only [registerAll] at h
    cases hr : register op e with
    | error f => simp [hr] at h
    | ok e2 =>
      rw [hr] at h
      obtain ⟨h1, h2, h3⟩ := register_ids op e e2 hr
      obtain ⟨k1, k2, k3⟩ := ih e2 h
      rw [h3] at k1 k2 k3
      refine ⟨?_, ?_, k3⟩
      · rw [k1, h1]
        simp
      · rw [k2, h2]
        simp

/-- Appending tags does not change a successful tag scan. -/
theorem findSceneTag_append (sceneId : Int) (tags more : List SceneTag) (num k : Nat)
    (h : findSceneTag sceneId tags num = some k) :
    findSceneTag sceneId (tags ++ more) num = some k := by
  induction tags generalizing num with
  | nil => simp [findSceneTag] at h
  | cons s rest ih =>
    simp only [findSceneTag] at h
    change findSceneTag sceneId (s :: (rest ++ more)) num = some k
    simp only [findSceneTag]
    by_cases hc : (s._sceneId == sceneId) = true
    · rw [if_pos hc] at h ⊢
      exact h
    · rw [if_neg hc] at h ⊢
      exact ih (num + 1) h

/-- A successful scan of the records found a record carrying the id and a
tag at the returned position. -/
theorem scanSc2array_inv (tags : List SceneTag) (sceneId : Int) (recs : List Sc2) (k : Nat)
    (h : scanSc2array tags sceneId recs = some k) :
    (∃ r ∈ recs, r._sceneId = sceneId) ∧ findSceneTag sceneId tags 0 = some k := by
  induction recs with
  | nil => simp [scanSc2array] at h
  | cons r rest ih =>
    simp only [scanSc2array] at h
    by_cases hc : (r._sceneId == sceneId) = true
    · rw [if_pos hc] at h
      cases hf : findSceneTag sceneId tags 0 with
      | some n =>
        rw [hf] at h
        simp only [Option.some.injEq] at h
        subst h
        exact ⟨⟨r, List.mem_cons_self _ _, by simpa using hc⟩, rfl⟩
      | none =>
        rw [hf] at h
        obtain ⟨⟨x, hx, hid⟩, hk⟩ := ih h
        rw [hf] at hk
        simp at hk
    · rw [if_neg hc] at h
      obtain ⟨⟨x, hx, hid⟩, hk⟩ := ih h
      exact ⟨⟨x, List.mem_cons_of_mem _ hx, hid⟩, hk⟩

/-- Appending records and tags does not change a successful lookup. -/
theorem getSceneTagBySceneId_append (e e1 : Engine) (sceneId : Int) (idx : Nat)
    (recs : List Sc2) (tags : List SceneTag)
    (h1 : e1._sc2array = e._sc2array ++ recs)
    (h2 : e1._sceneTagList = e._sceneTagList ++ tags)
    (h : getSceneTagBySceneId e sceneId = some idx) :
    getSceneTagBySceneId e1 sceneId = some idx := by
  unfold getSceneTagBySceneId at h ⊢
  by_cases hlen : e._sc2array.length > 0 ∧ e._sceneTagList.length > 0
  · rw [if_pos hlen] at h
    obtain ⟨⟨r, hr, hid⟩, hk⟩ := scanSc2array_inv _ _ _ _ h
    have hlen1 : e1._sc2array.length > 0 ∧ e1._sceneTagList.length > 0 := by
      rw [h1, h2, List.length_append, List.length_append]
      omega
    rw [if_pos hlen1, h1, h2]
    exact scanSc2array_some _ _ _ idx ⟨r, List.mem_append_left _ hr, hid⟩
      (findSceneTag_append _ _ _ _ _ hk)
  · rw [if_neg hlen] at h
    simp at h

/-- C15 (as amended): after any sequence of registrations through
`addSceneXML` and `makeSc2` starting from an empty registry, the records and
the tags carry exactly the registered scene ids, in registration order and
with repetitions, so the two lists are aligned, and no two records and no two
tags carry the same id as long as no id was registered twice.  Neither
function looks the id up: registering an id that is already present appends
a second record and a second tag; a lookup of an id that was present returns
the same index before and after. -/
theorem registerAll_from_empty (heap : List (Nat × Scene)) (ops : List Registration)
    (e : Engine)
    (h : registerAll ops (emptyRegistry heap) = .ok e) :
    e._sc2array.map (fun r => r._sceneId) = ops.map (Registration.sceneId heap) ∧
    e._sceneTagList.map (fun t => t._sceneId) = ops.map (Registration.sceneId heap) ∧
    e.Aligned ∧
    ((ops.map (Registration.sceneId heap)).Nodup →
      (e._sc2array.map (fun r => r._sceneId)).Nodup ∧
      (e._sceneTagList.map (fun t => t._sceneId)).Nodup) ∧
    (∀ (op : Registration) (e2 : Engine), register op e = .ok e2 →
      e2._sc2array.length = e._sc2array.length + 1 ∧
      e2._sceneTagList.length = e._sceneTagList.length + 1 ∧
      ∀ sceneId idx, getSceneTagBySceneId e sceneId = some idx →
        getSceneTagBySceneId e2 sceneId = some idx) := by
  obtain ⟨h1, h2, _⟩ := registerAll_ids ops (emptyRegistry heap) e h
  simp only [emptyRegistry, List.map_nil, List.nil_append] at h1 h2
  refine ⟨h1, h2, ?_, ?_, ?_⟩
  · unfold Engine.Aligned
    rw [h1, h2]
  · intro hnd
    rw [h1, h2]
    exact ⟨hnd, hnd⟩
  · intro op e2 hreg
    cases op with
    | addSceneXML sceneId fname =>
      simp only [register, Except.ok.injEq] at hreg
      subst hreg
      refine ⟨by simp [addSceneXML], by simp [addSceneXML], ?_⟩
      intro sid idx hlook
      exact getSceneTagBySceneId_append e _ sid idx _ _ rfl rfl hlook
    | makeSc2 scene =>
      simp only [register, makeSc2, Engine.deref, bind, Except.bind, pure, Except.pure] at hreg
      cases hs : heapGet e.heap scene with
      | none => simp [hs] at hreg
      | some sc =>
        simp only [hs, Except.ok.injEq] at hreg
        subst hreg
        refine ⟨by simp, by simp [addSceneTag], ?_⟩
        intro sid idx hlook
        exact getSceneTagBySceneId_append e _ sid idx _ _ rfl rfl hlook

/-- Witness of C15 (as amended): scene 5 registered by `addSceneXML`, then the
live scene 8 by `makeSc2`. -/
theorem registerAll_from_empty_witness :
    registerAll [Registration.addSceneXML 5 "sc5.xml", Registration.makeSc2 3]
        (emptyRegistry [(3, fiveObjectScene)]) = .ok twoRegistered ∧
    twoRegistered._sc2array.map (fun r => r._sceneId) = [5, 8] ∧
    twoRegistered._sceneTagList.map (fun t => t._sceneId) = [5, 8] ∧
    (twoRegistered._sc2array.map (fun r => r._sceneId)).Nodup :=
  ⟨rfl,
   (registerAll_from_empty [(3, fiveObjectScene)]
      [Registration.addSceneXML 5 "sc5.xml", Registration.makeSc2 3] twoRegistered rfl).1,
   (registerAll_from_empty [(3, fiveObjectScene)]
      [Registration.addSceneXML 5 "sc5.xml", Registration.makeSc2 3] twoRegistered rfl).2.1,
   ((registerAll_from_empty [(3, fiveObjectScene)]
      [Registration.addSceneXML 5 "sc5.xml", Registration.makeSc2 3] twoRegistered rfl).2.2.2.1
      (by decide)).1⟩

/-- Counterexample to C15 as stated: registering scene 5 twice through
`addSceneXML`, starting from an empty registry, leaves two records and two
tags with id 5; the lookup of 5 returns index 0 before and after the second
registration. -/
theorem registerAll_duplicate_counterexample :
    (addSceneXML 5 "b.xml" (addSceneXML 5 "a.xml" (emptyRegistry [])))._sc2array.map
        (fun r => r._sceneId) = [5, 5] ∧
    (addSceneXML 5 "b.xml" (addSceneXML 5 "a.xml" (emptyRegistry [])))._sceneTagList.map
        (fun t => t._sceneId) = [5, 5] ∧
    registerAll [Registration.addSceneXML 5 "a.xml", Registration.addSceneXML 5 "b.xml"]
        (emptyRegistry [])
      = .ok (addSceneXML 5 "b.xml" (addSceneXML 5 "a.xml" (emptyRegistry []))) ∧
    ¬ ((addSceneXML 5 "b.xml" (addSceneXML 5 "a.xml" (emptyRegistry [])))._sc2array.map
        (fun r => r._sceneId)).Nodup ∧
    getSceneTagBySceneId (addSceneXML 5 "a.xml" (emptyRegistry [])) 5 = some 0 ∧
    getSceneTagBySceneId (addSceneXML 5 "b.xml" (addSceneXML 5 "a.xml" (emptyRegistry []))) 5
      = some 0 :=
  ⟨rfl, rfl, rfl, by decide, rfl, rfl⟩

/-! ## loadSceneXML: the backdrop header -/

/-- One step of the tile loop succeeds when slot `i` exists after the push;
the array grows by one and `type` is raised iff the tile read has one of the
three tags. -/
theorem tileStep_ok (loadTile : Nat → BigPicture) (xDim i j : Nat) (s : TileScan)
    (hi : i ≤ s._bigPictureArray.length) :
    ∃ s1, tileStep loadTile xDim i j s = .ok s1 ∧
      s1._bigPictureArray.length = s._bigPictureArray.length + 1 ∧
      (s1.type = true ↔
        s.type = true ∨
          isHighDepthTag (loadTile ((j * xDim + i) % 4294967296)).bitmapType = true) := by
  have hlt : i < (s._bigPictureArray ++ [none]).length := by
    rw [List.length_append]
    simp
    omega
  unfold tileStep
  simp only [if_pos hlt]
  rw [List.getElem?_set_self hlt]
  refine ⟨_, rfl, ?_, ?_⟩
  · simp
  · by_cases hh : isHighDepthTag (loadTile ((j * xDim + i) % 4294967296)).bitmapType = true
    · simp [hh]
    · simp [hh]

/-- The inner tile loop succeeds; the array grows by the number of iterations
and `type` is raised iff one of the tiles read has one of the three tags. -/
theorem tileColumn_ok (loadTile : Nat → BigPicture) (xDim i : Nat) (n j : Nat) (s : TileScan)
    (hi : i ≤ s._bigPictureArray.length) :
    ∃ s1, tileColumn loadTile xDim i n j s = .ok s1 ∧
      s1._bigPictureArray.length = s._bigPictureArray.length + n ∧
      (s1.type = true ↔
        s.type = true ∨ ∃ k, j ≤ k ∧ k < j + n ∧
          isHighDepthTag (loadTile ((k * xDim + i) % 4294967296)).bitmapType = true) := by
  induction n generalizing j s with
  | zero =>
    refine ⟨s, rfl, rfl, ?_⟩
    constructor
    · intro h
      exact Or.inl h
    · rintro (h | ⟨k, h1, h2, _⟩)
      · exact h
      · omega
  | succ n ih =>
    obtain ⟨s1, h1, hlen1, ht1⟩ := tileStep_ok loadTile xDim i j s hi
    obtain ⟨s2, h2, hlen2, ht2⟩ := ih (j + 1) s1 (by omega)
    refine ⟨s2, ?_, by omega, ?_⟩
    · simp only [tileColumn, h1]
      exact h2
    · rw [ht2, ht1]
      constructor
      · rintro ((h | h) | ⟨k, hk1, hk2, hk3⟩)
        · exact Or.inl h
        · exact Or.inr ⟨j, Nat.le_refl _, by omega, h⟩
        · exact Or.inr ⟨k, by omega, by omega, hk3⟩
      · rintro (h | ⟨k, hk1, hk2, hk3⟩)
        · exact Or.inl (Or.inl h)
        · by_cases hkj : k = j
          · subst hkj
            exact Or.inl (Or.inr hk3)
          · exact Or.inr ⟨k, by omega, by omega, hk3⟩

/-- The outer tile loop succeeds when the columns before `i` were filled, and
`type` is raised iff one of the tiles read has one of the three tags. -/
theorem tileGrid_ok (loadTile : Nat → BigPicture) (xDim yDim : Nat) (n i : Nat) (s : TileScan)
    (hi : i * yDim ≤ s._bigPictureArray.length) :
    ∃ s1, tileGrid loadTile xDim yDim n i s = .ok s1 ∧
      (s1.type = true ↔
        s.type = true ∨ ∃ c k, i ≤ c ∧ c < i + n ∧ k < yDim ∧
          isHighDepthTag (loadTile ((k * xDim + c) % 4294967296)).bitmapType = true) := by
  induction n generalizing i s with
  | zero =>
    refine ⟨s, rfl, ?_⟩
    constructor
    · intro h
      exact Or.inl h
    · rintro (h | ⟨c, k, h1, h2, _⟩)
      · exact h
      · omega
  | succ n ih =>
    by_cases hy : yDim = 0
    · subst hy
      obtain ⟨s2, h2, ht2⟩ := ih (i + 1)
        { s with height := 0, width := s.width + s.dim.1 } (by simp)
      refine ⟨s2, ?_, ?_⟩
      · simp only [tileGrid, tileColumn]
        exact h2
      · rw [ht2]
        constructor
        · rintro (h | ⟨c, k, _, _, hk, _⟩)
          · exact Or.inl h
          · omega
        · rintro (h | ⟨c, k, _, _, hk, _⟩)
          · exact Or.inl h
          · omega
    · have hcol : i ≤ ({ s with height := 0 } : TileScan)._bigPictureArray.length := by
        have : i ≤ i * yDim := Nat.le_mul_of_pos_right i (Nat.pos_of_ne_zero hy)
        exact Nat.le_trans this hi
      obtain ⟨s1, h1, hlen1, ht1⟩ :=
        tileColumn_ok loadTile xDim i yDim 0 { s with height := 0 } hcol
      have hnext : (i + 1) * yDim ≤
          ({ s1 with width := s1.width + s1.dim.1 } : TileScan)._bigPictureArray.length := by
        have : (i + 1) * yDim = i * yDim + yDim := Nat.succ_mul i yDim
        simp only [hlen1]
        omega
      obtain ⟨s2, h2, ht2⟩ := ih (i + 1) { s1 with width := s1.width + s1.dim.1 } hnext
      refine ⟨s2, ?_, ?_⟩
      · simp only [tileGrid, h1]
        exact h2
      · rw [ht2]
        simp only [ht1]
        constructor
        · rintro ((h | ⟨k, _, hk2, hk3⟩) | ⟨c, k, hc1, hc2, hk, hk3⟩)
          · exact Or.inl h
          · exact Or.inr ⟨i, k, Nat.le_refl _, by omega, by omega, hk3⟩
          · exact Or.inr ⟨c, k, by omega, by omega, hk, hk3⟩
        · rintro (h | ⟨c, k, hc1, hc2, hk, hk3⟩)
          · exact Or.inl (Or.inl h)
          · by_cases hci : c = i
            · subst hci
              exact Or.inl (Or.inr ⟨k, Nat.zero_le _, by omega, hk3⟩)
            · exact Or.inr ⟨c, k, by omega, by omega, hk, hk3⟩

/-- C19: for every scene node, the tile loop of `loadSceneXML(GameVar*)` runs
to its end and the header of the synthesized backdrop is written; its type
word is `MKTAG('C','B',0x88,0x88)` if at least one tile of the grid (the
tile files `j * nPartsX + i` with `i < nPartsX`, `j < nPartsY`) has a bitmap
of type `MKTAG('C','B',0x88,0x88)`, `MKTAG('C','B',0x80,0x08)` or
`MKTAG('C','B',0x08,0x88)`, and `MKTAG('C','B',0x05,0x65)` otherwise, in
particular for an empty grid and for a grid whose tiles all have the latter
type. -/
theorem backdropHeader_type (loadTile : Int → Nat → BigPicture) (height0 : Int) (gv : GameVar) :
    ∃ hdr, backdropHeader loadTile height0 gv = .ok hdr ∧
      ((∃ i j, i < toUint (gv.getPropertyAsInt "nPartsX") ∧
          j < toUint (gv.getPropertyAsInt "nPartsY") ∧
          ((loadTile (gv.getPropertyAsInt "id")
              ((j * toUint (gv.getPropertyAsInt "nPartsX") + i) % 4294967296)).bitmapType
              = MKTAG 'C'.toNat 'B'.toNat 0x88 0x88 ∨
           (loadTile (gv.getPropertyAsInt "id")
              ((j * toUint (gv.getPropertyAsInt "nPartsX") + i) % 4294967296)).bitmapType
              = MKTAG 'C'.toNat 'B'.toNat 0x80 0x08 ∨
           (loadTile (gv.getPropertyAsInt "id")
              ((j * toUint (gv.getPropertyAsInt "nPartsX") + i) % 4294967296)).bitmapType
              = MKTAG 'C'.toNat 'B'.toNat 0x08 0x88)) →
        hdr.type = MKTAG 'C'.toNat 'B'.toNat 0x88 0x88) ∧
      ((¬ ∃ i j, i < toUint (gv.getPropertyAsInt "nPartsX") ∧
          j < toUint (gv.getPropertyAsInt "nPartsY") ∧
          ((loadTile (gv.getPropertyAsInt "id")
              ((j * toUint (gv.getPropertyAsInt "nPartsX") + i) % 4294967296)).bitmapType
              = MKTAG 'C'.toNat 'B'.toNat 0x88 0x88 ∨
           (loadTile (gv.getPropertyAsInt "id")
              ((j * toUint (gv.getPropertyAsInt "nPartsX") + i) % 4294967296)).bitmapType
              = MKTAG 'C'.toNat 'B'.toNat 0x80 0x08 ∨
           (loadTile (gv.getPropertyAsInt "id")
              ((j * toUint (gv.getPropertyAsInt "nPartsX") + i) % 4294967296)).bitmapType
              = MKTAG 'C'.toNat 'B'.toNat 0x08 0x88)) →
        hdr.type = MKTAG 'C'.toNat 'B'.toNat 0x05 0x65) ∧
      ((toUint (gv.getPropertyAsInt "nPartsX") = 0 ∨ toUint (gv.getPropertyAsInt "nPartsY") = 0) →
        hdr.type = MKTAG 'C'.toNat 'B'.toNat 0x05 0x65) ∧
      ((∀ n, (loadTile (gv.getPropertyAsInt "id") n).bitmapType
          = MKTAG 'C'.toNat 'B'.toNat 0x05 0x65) →
        hdr.type = MKTAG 'C'.toNat 'B'.toNat 0x05 0x65) := by
  obtain ⟨s, hs, ht⟩ := tileGrid_ok (loadTile (gv.getPropertyAsInt "id"))
    (toUint (gv.getPropertyAsInt "nPartsX")) (toUint (gv.getPropertyAsInt "nPartsY"))
    (toUint (gv.getPropertyAsInt "nPartsX")) 0 ⟨[], false, (0, 0), 0, height0⟩ (by simp)
  have hhigh : ∀ t : Nat, isHighDepthTag t = true ↔
      (t = MKTAG 'C'.toNat 'B'.toNat 0x88 0x88 ∨ t = MKTAG 'C'.toNat 'B'.toNat 0x80 0x08 ∨
        t = MKTAG 'C'.toNat 'B'.toNat 0x08 0x88) := by
    intro t
    simp [isHighDepthTag, or_assoc]
  have hyes : (∃ i j, i < toUint (gv.getPropertyAsInt "nPartsX") ∧
      j < toUint (gv.getPropertyAsInt "nPartsY") ∧
      isHighDepthTag (loadTile (gv.getPropertyAsInt "id")
        ((j * toUint (gv.getPropertyAsInt "nPartsX") + i) % 4294967296)).bitmapType = true) →
      s.type = true := by
    rintro ⟨i, j, hi, hj, h⟩
    exact ht.2 (Or.inr ⟨i, j, Nat.zero_le _, by omega, hj, h⟩)
  have hno : (¬ ∃ i j, i < toUint (gv.getPropertyAsInt "nPartsX") ∧
      j < toUint (gv.getPropertyAsInt "nPartsY") ∧
      isHighDepthTag (loadTile (gv.getPropertyAsInt "id")
        ((j * toUint (gv.getPropertyAsInt "nPartsX") + i) % 4294967296)).bitmapType = true) →
      s.type = false := by
    intro hn
    cases hst : s.type with
    | false => rfl
    | true =>
      exfalso
      rcases ht.1 hst with h | ⟨c, k, _, hc, hk, h⟩
      · simp at h
      · exact hn ⟨c, k, by omega, hk, h⟩
  have hb : backdropHeader loadTile height0 gv =
      .ok { x := 0
            y := 0
            width := toUint s.width
            height := toUint s.height
            pixels := 0
            type := if s.type then MKTAG 'C'.toNat 'B'.toNat 0x88 0x88
                    else MKTAG 'C'.toNat 'B'.toNat 0x05 0x65
            flags := 0 } := by
    simp only [backdropHeader, hs]
  refine ⟨_, hb, ?_, ?_, ?_, ?_⟩
  · rintro ⟨i, j, hi, hj, h⟩
    have := hyes ⟨i, j, hi, hj, (hhigh _).2 h⟩
    simp [this]
  · intro hn
    have := hno (fun ⟨i, j, hi, hj, h⟩ => hn ⟨i, j, hi, hj, (hhigh _).1 h⟩)
    simp [this]
  · intro h0
    have := hno (fun ⟨i, j, hi, hj, _⟩ => by omega)
    simp [this]
  · intro hall
    have := hno (fun ⟨i, j, _, _, h⟩ => by
      rw [hall] at h
      revert h
      decide)
    simp [this]

/-! ## The loaded flag and the tag's scene reference -/

/-- Mapping after an update that does not change the image. -/
theorem map_updateAt_same {α β : Type} (g : α → β) (f : α → α) (l : List α) (i : Nat)
    (h : ∀ x, g (f x) = g x) : (updateAt l i f).map g = l.map g := by
  induction l generalizing i with
  | nil => rfl
  | cons y rest ih =>
    cases i with
    | zero => simp [updateAt, h]
    | succ j => simp [updateAt, ih j]

/-- Mapping after an update that sets the image to a fixed value. -/
theorem map_updateAt_const {α β : Type} (g : α → β) (f : α → α) (v : β) (l : List α) (i : Nat)
    (h : ∀ x, g (f x) = v) : (updateAt l i f).map g = updateAt (l.map g) i (fun _ => v) := by
  induction l generalizing i with
  | nil => rfl
  | cons y rest ih =>
    cases i with
    | zero => simp [updateAt, h]
    | succ j => simp [updateAt, ih j]

/-- Reading a mapped list. -/
theorem getElem?_map_some {α β : Type} (g : α → β) (l : List α) (i : Nat) (x : α)
    (h : l[i]? = some x) : (l.map g)[i]? = some (g x) := by
  simp [List.getElem?_map, h]

/-- Setting the same value at the same index of two agreeing flag lists keeps
them agreeing. -/
theorem flagsAgree_updateAt (a b : List Bool) (i : Nat) (v : Bool)
    (h : flagsAgree a b = true) :
    flagsAgree (updateAt a i (fun _ => v)) (updateAt b i (fun _ => v)) = true := by
  induction a generalizing b i with
  | nil =>
    cases b <;> simp [updateAt, flagsAgree]
  | cons x xs ih =>
    cases b with
    | nil =>
      cases i <;> simp [updateAt, flagsAgree]
    | cons y ys =>
      simp only [flagsAgree, Bool.and_eq_true] at h
      cases i with
      | zero => simp [updateAt, flagsAgree, h.2]
      | succ j => simp [updateAt, flagsAgree, h.1, ih ys j h.2]

/-- Appending agreeing flags to agreeing lists of equal length keeps them
agreeing. -/
theorem flagsAgree_append (a b : List Bool) (x y : Bool) (hl : a.length = b.length) :
    flagsAgree (a ++ [x]) (b ++ [y]) = (flagsAgree a b && (x == y)) := by
  induction a generalizing b with
  | nil =>
    cases b with
    | nil => simp [flagsAgree]
    | cons y ys => simp at hl
  | cons z zs ih =>
    cases b with
    | nil => simp at hl
    | cons w ws =>
      simp only [List.length_cons, Nat.add_right_cancel_iff] at hl
      change ((z == w) && flagsAgree (zs ++ [x]) (ws ++ [y]))
        = (((z == w) && flagsAgree zs ws) && (x == y))
      rw [ih ws hl, Bool.and_assoc]

/-- Agreeing lists agree but at any index. -/
theorem flagsAgreeBut_of_flagsAgree (a b : List Bool) (i : Nat) (h : flagsAgree a b = true) :
    flagsAgreeBut i a b = true := by
  induction a generalizing b i with
  | nil => cases i <;> simp [flagsAgreeBut]
  | cons x xs ih =>
    cases b with
    | nil => cases i <;> simp [flagsAgreeBut]
    | cons y ys =>
      simp only [flagsAgree, Bool.and_eq_true, beq_iff_eq] at h
      cases i with
      | zero =>
        simp only [flagsAgreeBut, h.2, Bool.and_true]
        rw [h.1]
        cases y <;> rfl
      | succ j => simp [flagsAgreeBut, h.1, ih ys j h.2]

/-- Lists that agree but at `i` agree once the first flag at `i` is raised,
when the second flag at `i` is raised. -/
theorem flagsAgree_of_but_raise (a b : List Bool) (i : Nat)
    (h : flagsAgreeBut i a b = true) (hb : b[i]? = some true) :
    flagsAgree (updateAt a i (fun _ => true)) b = true := by
  induction a generalizing b i with
  | nil => simp [updateAt, flagsAgree]
  | cons x xs ih =>
    cases b with
    | nil => simp at hb
    | cons y ys =>
      cases i with
      | zero =>
        simp only [List.getElem?_cons_zero, Option.some.injEq] at hb
        simp only [flagsAgreeBut, Bool.and_eq_true] at h
        simp [updateAt, flagsAgree, hb, h.2]
      | succ j =>
        simp only [List.getElem?_cons_succ] at hb
        simp only [flagsAgreeBut, Bool.and_eq_true] at h
        simp only [updateAt, flagsAgree, Bool.and_eq_true]
        exact ⟨h.1, ih ys j h.2 hb⟩

/-- Lists that agree but at `i` agree when the second flag at `i` is not
raised. -/
theorem flagsAgree_of_but_low (a b : List Bool) (i : Nat)
    (h : flagsAgreeBut i a b = true) (hb : b[i]? = some false) :
    flagsAgree a b = true := by
  induction a generalizing b i with
  | nil => simp [flagsAgree]
  | cons x xs ih =>
    cases b with
    | nil => simp at hb
    | cons y ys =>
      cases i with
      | zero =>
        simp only [List.getElem?_cons_zero, Option.some.injEq] at hb
        simp only [flagsAgreeBut, Bool.and_eq_true] at h
        subst hb
        simp only [flagsAgree, h.2, Bool.and_true]
        have := h.1
        cases x <;> simp_all
      | succ j =>
        simp only [List.getElem?_cons_succ] at hb
        simp only [flagsAgreeBut, Bool.and_eq_true] at h
        simp only [flagsAgree, Bool.and_eq_true]
        exact ⟨h.1, ih ys j h.2 hb⟩

/-- The agreement depends on the two registry lists only. -/
theorem loadedAgrees_of_lists (e e1 : Engine) (h1 : e1._sc2array = e._sc2array)
    (h2 : e1._sceneTagList = e._sceneTagList) : e1.loadedAgrees = e.loadedAgrees := by
  simp only [Engine.loadedAgrees, Engine.loadedFlags, Engine.sceneFlags, h1, h2]

/-- `saveScenePicAniInfos` changes neither a loaded flag nor a tag. -/
theorem saveScenePicAniInfos_flags (sceneId : Int) (e e1 : Engine)
    (h : saveScenePicAniInfos sceneId e = .ok e1) :
    e1.loadedFlags = e.loadedFlags ∧ e1._sceneTagList = e._sceneTagList := by
  unfold saveScenePicAniInfos at h
  cases hl : getSceneTagBySceneId e sceneId with
  | none =>
    rw [hl] at h
    simp only [Except.ok.injEq] at h
    subst h
    exact ⟨rfl, rfl⟩
  | some idx =>
    rw [hl] at h
    simp only [Engine.sc2At, Engine.tagAt, Engine.deref, bind, Except.bind, pure,
      Except.pure] at h
    repeat' split at h
    all_goals first
      | (simp only [Except.ok.injEq] at h
         subst h
         first
          | exact ⟨rfl, rfl⟩
          | exact ⟨map_updateAt_same _ _ _ _ (by intro x; rfl), rfl⟩)
      | simp at h

/-- What `unloadScene` does to the flags when it returns: nothing, or both the
loaded flag and the tag's reference at one index are cleared. -/
theorem unloadScene_flags (sceneId : Int) (e e1 : Engine) (b : Bool)
    (h : unloadScene sceneId e = .ok (b, e1)) :
    (e1.loadedFlags = e.loadedFlags ∧ e1.sceneFlags = e.sceneFlags) ∨
    ∃ idx, e1.loadedFlags = updateAt e.loadedFlags idx (fun _ => false) ∧
      e1.sceneFlags = updateAt e.sceneFlags idx (fun _ => false) := by
  unfold unloadScene at h
  cases hl : getSceneTagBySceneId e sceneId with
  | none =>
    rw [hl] at h
    simp only [Except.ok.injEq, Prod.mk.injEq] at h
    rw [← h.2]
    exact Or.inl ⟨rfl, rfl⟩
  | some idx =>
    rw [hl] at h
    right
    refine ⟨idx, ?_⟩
    simp only [bind, Except.bind, pure, Except.pure] at h
    repeat' split at h
    all_goals first
      | (simp at h; done)
      | (simp only [Except.ok.injEq, Prod.mk.injEq] at h
         obtain ⟨_, rfl⟩ := h
         have hfl := saveScenePicAniInfos_flags _ _ _ (by assumption)
         simp only [Engine.loadedFlags, Engine.sceneFlags, Engine.updSc2, Engine.updTag] at hfl ⊢
         rw [map_updateAt_const (fun r : Sc2 => r._isLoaded) _ false _ _ (by intro x; rfl),
           map_updateAt_same (fun r : Sc2 => r._isLoaded) _ _ _ (by intro x; rfl), hfl.1,
           map_updateAt_const (fun t : SceneTag => t._scene.isSome) _ false _ _ (by intro x; rfl),
           hfl.2]
         exact ⟨rfl, rfl⟩)
      | (simp only [Except.ok.injEq, Prod.mk.injEq] at h
         obtain ⟨_, rfl⟩ := h
         simp only [Engine.loadedFlags, Engine.sceneFlags, Engine.updSc2, Engine.updTag]
         rw [map_updateAt_const (fun r : Sc2 => r._isLoaded) _ false _ _ (by intro x; rfl),
           map_updateAt_same (fun r : Sc2 => r._isLoaded) _ _ _ (by intro x; rfl),
           map_updateAt_const (fun t : SceneTag => t._scene.isSome) _ false _ _ (by intro x; rfl)]
         exact ⟨rfl, rfl⟩)

/-- The construction step of `loadScene` keeps the agreement but for the tag
it builds a scene for, when the collaborators do. -/
theorem constructScene_flags (env : Env) (hk : EnvKeeps env) (sceneId : Int) (idx : Nat)
    (e e1 : Engine) (hl : getSceneTagBySceneId e sceneId = some idx)
    (ha : e.loadedAgrees = true) (h : constructScene env sceneId idx e = .ok e1) :
    e1.loadedAgreesBut idx = true := by
  have hid : e.loadedAgreesBut idx = true := flagsAgreeBut_of_flagsAgree _ _ idx ha
  unfold constructScene at h
  simp only [bind, Except.bind, pure, Except.pure, Engine.tagAt, Engine.sc2At] at h
  repeat' split at h
  all_goals first
    | (simp at h; done)
    | (simp only [Except.ok.injEq] at h
       subst h
       first
        | exact hid
        | exact hk.tagLoadScene idx e ha
        | exact hk.loadSceneXML sceneId idx e hl ha)

/-- `loadScene` keeps the agreement of loaded flag and tag reference when the
collaborators do. -/
theorem loadScene_flags (env : Env) (hk : EnvKeeps env) (sceneId : Int) (e e1 : Engine)
    (b : Bool) (ha : e.loadedAgrees = true) (h : loadScene env sceneId e = .ok (b, e1)) :
    e1.loadedAgrees = true := by
  unfold loadScene at h
  cases hl : getSceneTagBySceneId e sceneId with
  | none =>
    rw [hl] at h
    simp only [Except.ok.injEq, Prod.mk.injEq] at h
    rw [← h.2]
    exact ha
  | some idx =>
    rw [hl] at h
    cases hc : constructScene env sceneId idx e with
    | error f => simp [hc, bind, Except.bind] at h
    | ok ec =>
      have hbut := constructScene_flags env hk sceneId idx e ec hl ha hc
      simp only [hc, bind, Except.bind, Engine.tagAt] at h
      cases ht : ec._sceneTagList[idx]? with
      | none => simp [ht] at h
      | some st =>
        simp only [ht] at h
        cases hst : st._scene with
        | none =>
          simp only [hst, pure, Except.pure, Except.ok.injEq, Prod.mk.injEq] at h
          rw [← h.2]
          apply flagsAgree_of_but_low _ _ idx hbut
          simp [Engine.sceneFlags, List.getElem?_map, ht, hst]
        | some a =>
          simp only [hst, Engine.deref] at h
          cases hsc : heapGet ec.heap a with
          | none => simp [hsc] at h
          | some sc =>
            simp only [hsc] at h
            have hsf : ec.sceneFlags[idx]? = some true := by
              simp [Engine.sceneFlags, List.getElem?_map, ht, hst]
            cases hr : ec._sc2array[idx]? with
            | none => simp [Engine.sc2At, Engine.setScene, hr] at h
            | some r =>
              have hdef := applyPicAniInfos_setScene ec a sc r._defPicAniInfos
                (env.sceneInit sc) hsc
              have hcur := applyPicAniInfos_setScene ec a sc r._picAniInfos
                (sceneApplyInfos ec a r._defPicAniInfos (env.sceneInit sc)) hsc
              simp only [Engine.setScene] at hdef hcur
              simp only [Engine.sc2At, Engine.setScene, hr, hdef, hcur, Engine.tagAt, ht,
                pure, Except.pure, Except.ok.injEq, Prod.mk.injEq] at h
              rw [← h.2]
              simp only [Engine.loadedAgrees, Engine.loadedFlags, Engine.sceneFlags,
                Engine.updSc2]
              rw [map_updateAt_const (fun r : Sc2 => r._isLoaded) _ true _ _ (by intro x; rfl)]
              exact flagsAgree_of_but_raise _ _ idx hbut hsf

/-- The part of `gotoScene` after the hook keeps the agreement when chaining
does. -/
theorem gotoSceneEnter_flags (env : Env) (hk : EnvKeeps env) (sc2idx entranceIdx : Nat)
    (g : GameLoader) (ha : g.eng.loadedAgrees = true) :
    (gotoSceneEnter env sc2idx entranceIdx g).2.eng.loadedAgrees = true := by
  unfold gotoSceneEnter
  dsimp only
  repeat' split
  all_goals first
    | exact ha
    | exact hk.chain _ _ ha

/-- `gotoScene` keeps the agreement when hook and chaining do. -/
theorem gotoScene_flags (env : Env) (hk : EnvKeeps env) (sceneId entranceId : Int)
    (g : GameLoader) (ha : g.eng.loadedAgrees = true) :
    (gotoScene env sceneId entranceId g).2.eng.loadedAgrees = true := by
  unfold gotoScene
  dsimp only
  repeat' split
  all_goals first
    | exact ha
    | exact hk.sceneSwitcher _ _ ha
    | exact gotoSceneEnter_flags env hk _ _ _ (hk.sceneSwitcher _ _ ha)

/-- `saveScenePicAniInfos` keeps the agreement. -/
theorem saveScenePicAniInfos_agrees (sceneId : Int) (e e1 : Engine)
    (ha : e.loadedAgrees = true) (h : saveScenePicAniInfos sceneId e = .ok e1) :
    e1.loadedAgrees = true := by
  obtain ⟨h1, h2⟩ := saveScenePicAniInfos_flags sceneId e e1 h
  simp only [Engine.loadedAgrees, Engine.sceneFlags, h1, h2]
  exact ha

/-- `unloadScene` keeps the agreement. -/
theorem unloadScene_agrees (sceneId : Int) (e e1 : Engine) (b : Bool)
    (ha : e.loadedAgrees = true) (h : unloadScene sceneId e = .ok (b, e1)) :
    e1.loadedAgrees = true := by
  rcases unloadScene_flags sceneId e e1 b h with ⟨h1, h2⟩ | ⟨idx, h1, h2⟩
  · simp only [Engine.loadedAgrees, h1, h2]
    exact ha
  · simp only [Engine.loadedAgrees, h1, h2]
    exact flagsAgree_updateAt _ _ idx false ha

/-- The guarded callback call keeps the agreement when the callback does. -/
theorem callPreloadCallback_flags (env : Env) (hk : EnvKeeps env) (idx : Nat) (flag : Int)
    (g : GameLoader) (ha : g.eng.loadedAgrees = true) :
    (GameLoader.callPreloadCallback env idx flag g).2.eng.loadedAgrees = true := by
  unfold GameLoader.callPreloadCallback
  split
  · exact hk.callback _ _ _ _ (by assumption) ha
  · exact ha

/-- Clearing the current scene keeps the agreement. -/
theorem clearCurrentScene_agrees (sceneId : Int) (e e1 : Engine)
    (ha : e.loadedAgrees = true) (h : clearCurrentScene sceneId e = .ok e1) :
    e1.loadedAgrees = true := by
  unfold clearCurrentScene at h
  simp only [bind, Except.bind, pure, Except.pure, Engine.deref] at h
  repeat' split at h
  all_goals first
    | (simp at h; done)
    | (simp only [Except.ok.injEq] at h
       subst h
       exact ha)

/-- The swap of `preloadScene` keeps the agreement when the collaborators do. -/
theorem preloadSwap_flags (env : Env) (hk : EnvKeeps env) (sceneId : Int) (idx : Nat)
    (g1 : GameLoader) (ha : g1.eng.loadedAgrees = true) :
    (preloadSwap env sceneId idx g1).2.eng.loadedAgrees = true := by
  unfold preloadSwap
  cases hc : clearCurrentScene sceneId g1.eng with
  | error f => exact ha
  | ok e2 =>
    have h2 := clearCurrentScene_agrees sceneId _ e2 ha hc
    dsimp only
    cases hs : saveScenePicAniInfos sceneId e2 with
    | error f => exact h2
    | ok e3 =>
      have h3 := saveScenePicAniInfos_agrees sceneId e2 e3 h2 hs
      have h4 := hk.clear e3 h3
      dsimp only
      cases hu : unloadScene sceneId (env.clearGlobalMessageQueueList1 e3) with
      | error f => exact h4
      | ok p =>
        obtain ⟨b, e5⟩ := p
        have h5 := unloadScene_agrees sceneId _ e5 b h4 hu
        dsimp only
        have h6 := callPreloadCallback_flags env hk idx 50
          { g1 with
            eng := e5
            trace := (g1.trace ++ [Event.saveScenePicAniInfos sceneId]) ++
              [Event.clearGlobalMessageQueueList1, Event.unloadScene sceneId] } h5
        generalize (GameLoader.callPreloadCallback env idx 50
          { g1 with
            eng := e5
            trace := (g1.trace ++ [Event.saveScenePicAniInfos sceneId]) ++
              [Event.clearGlobalMessageQueueList1, Event.unloadScene sceneId] }).2 = g6 at h6 ⊢
        cases hi : g6._preloadItems[idx]? with
        | none => exact h6
        | some item =>
          dsimp only
          cases hload : loadScene env item.sceneId g6.eng with
          | error f => exact h6
          | ok q =>
            obtain ⟨b2, e8⟩ := q
            have h8 := loadScene_flags env hk item.sceneId g6.eng e8 b2 h6 hload
            exact callPreloadCallback_flags env hk idx 100 _ h8

/-- `preloadScene` keeps the agreement when the collaborators do. -/
theorem preloadScene_flags (env : Env) (hk : EnvKeeps env) (sceneId entranceId : Int)
    (g : GameLoader) (ha : g.eng.loadedAgrees = true) :
    (preloadScene env sceneId entranceId g).2.eng.loadedAgrees = true := by
  unfold preloadScene
  split
  · exact ha
  · split
    · exact ha
    · dsimp only
      split
      · exact callPreloadCallback_flags env hk _ 0 g ha
      · exact preloadSwap_flags env hk sceneId _ _ (callPreloadCallback_flags env hk _ 0 g ha)

/-- Raising the second flag at `i` of two agreeing lists leaves them agreeing
but at `i`. -/
theorem flagsAgreeBut_raise (a b : List Bool) (i : Nat) (h : flagsAgree a b = true) :
    flagsAgreeBut i a (updateAt b i (fun _ => true)) = true := by
  induction a generalizing b i with
  | nil => cases i <;> simp [flagsAgreeBut]
  | cons x xs ih =>
    cases b with
    | nil => cases i <;> simp [updateAt, flagsAgreeBut]
    | cons y ys =>
      simp only [flagsAgree, Bool.and_eq_true] at h
      cases i with
      | zero => simp [updateAt, flagsAgreeBut, h.2]
      | succ j => simp [updateAt, flagsAgreeBut, h.1, ih ys j h.2]

/-- The collaborators `buildEnv` keep the agreement of loaded flag and tag
reference. -/
theorem buildEnv_keeps : EnvKeeps buildEnv where
  sceneSwitcher := fun _ _ ha => ha
  chain := fun _ _ ha => ha
  clear := fun _ ha => ha
  callback := fun cb _ _ _ hcb _ => by
    simp [buildEnv, sampleEnv] at hcb
  tagLoadScene := fun idx e ha => by
    simp only [Engine.loadedAgreesBut, Engine.loadedFlags, Engine.sceneFlags, buildEnv]
    rw [map_updateAt_const (fun t : SceneTag => t._scene.isSome) _ true _ _ (by intro x; rfl)]
    exact flagsAgreeBut_raise _ _ idx ha
  loadSceneXML := fun _ idx _ _ ha => flagsAgreeBut_of_flagsAgree _ _ idx ha

/-- C11 (as amended): the agreement "at every index of the registry the
record's `_isLoaded` is true iff the tag's `_scene` is non-null" is kept by
`saveScenePicAniInfos`, by `unloadScene` (whenever it returns), by
`addSceneXML` (on a registry whose two lists have the same length), and by
`loadScene`, `gotoScene` and `preloadScene` as long as the hook, the chaining,
the queue clearing and the preload callback keep it and the construction step
breaks it at most by giving the tag of the scene under construction its
scene, which `loadScene` then repairs by setting `_isLoaded`.  `makeSc2` and
the two overloads of `loadSceneXML` do not keep it: they store the new scene
in the tag and leave `_isLoaded` false until `loadScene` runs. -/
theorem loadedAgrees_preserved (env : Env) (hk : EnvKeeps env) :
    (∀ sceneId e e1, e.loadedAgrees = true → saveScenePicAniInfos sceneId e = .ok e1 →
      e1.loadedAgrees = true) ∧
    (∀ sceneId e b e1, e.loadedAgrees = true → unloadScene sceneId e = .ok (b, e1) →
      e1.loadedAgrees = true) ∧
    (∀ sceneId fname e, e.loadedAgrees = true →
      e._sc2array.length = e._sceneTagList.length →
      (addSceneXML sceneId fname e).loadedAgrees = true) ∧
    (∀ sceneId e b e1, e.loadedAgrees = true → loadScene env sceneId e = .ok (b, e1) →
      e1.loadedAgrees = true) ∧
    (∀ sceneId entranceId g, g.eng.loadedAgrees = true →
      (gotoScene env sceneId entranceId g).2.eng.loadedAgrees = true) ∧
    (∀ sceneId entranceId g, g.eng.loadedAgrees = true →
      (preloadScene env sceneId entranceId g).2.eng.loadedAgrees = true) := by
  refine ⟨?_, ?_, ?_, ?_, ?_, ?_⟩
  · intro sceneId e e1 ha h
    exact saveScenePicAniInfos_agrees sceneId e e1 ha h
  · intro sceneId e b e1 ha h
    exact unloadScene_agrees sceneId e e1 b ha h
  · intro sceneId fname e ha hlen
    simp only [Engine.loadedAgrees, Engine.loadedFlags, Engine.sceneFlags, addSceneXML,
      List.map_append, List.map_cons, List.map_nil]
    rw [flagsAgree_append _ _ _ _ (by simpa using hlen)]
    simp only [Engine.loadedAgrees, Engine.loadedFlags, Engine.sceneFlags] at ha
    simp [ha]
  · intro sceneId e b e1 ha h
    exact loadScene_flags env hk sceneId e e1 b ha h
  · intro sceneId entranceId g ha
    exact gotoScene_flags env hk sceneId entranceId g ha
  · intro sceneId entranceId g ha
    exact preloadScene_flags env hk sceneId entranceId g ha

/-- Witness of C11 (as amended): with the collaborators `buildEnv`, whose
construction step stores the scene it builds in the tag, unloading scene 5 of
`sampleEngine` leaves `sampleUnloaded`, where record and tag agree, and
`loadScene`, `gotoScene` and `preloadScene` leave states where they agree. -/
theorem loadedAgrees_preserved_witness :
    sampleEngine.loadedAgrees = true ∧
    snapEngine.loadedAgrees = true ∧
    unloadScene 5 sampleEngine = .ok (true, sampleUnloaded) ∧
    sampleUnloaded.loadedAgrees = true ∧
    (loadScene buildEnv 5 snapEngine).map (fun r => (r.1, r.2.loadedFlags, r.2.sceneFlags))
      = .ok (true, [true], [true]) ∧
    (gotoScene buildEnv 5 1 sampleLoader).2.eng.loadedAgrees = true ∧
    (preloadScene buildEnv 5 1 sampleLoader).2.eng.loadedAgrees = true :=
  ⟨rfl, rfl, rfl,
   (loadedAgrees_preserved buildEnv buildEnv_keeps).2.1 5 sampleEngine true sampleUnloaded
     rfl rfl,
   rfl,
   (loadedAgrees_preserved buildEnv buildEnv_keeps).2.2.2.2.1 5 1 sampleLoader rfl,
   (loadedAgrees_preserved buildEnv buildEnv_keeps).2.2.2.2.2 5 1 sampleLoader rfl⟩

/-- Counterexample to C11 as stated: scene 5 is registered by `addSceneXML`
(record not loaded, tag without scene: the flags agree).  Both overloads of
`loadSceneXML` then build the scene and store it in the record and in the tag
while `_isLoaded` stays false; `makeSc2` on an empty registry appends a record
that is not loaded and a tag that refers to the scene. -/
theorem loadedAgrees_counterexample :
    (addSceneXML 5 "sc5.xml" (emptyRegistry [])).loadedAgrees = true ∧
    (loadSceneXMLGameVar sampleLoaders sceneNode5
        (addSceneXML 5 "sc5.xml" (emptyRegistry []))).map
        (fun e => (e.loadedFlags, e._sceneTagList, e.loadedAgrees))
      = .ok ([false], [⟨5, some 1⟩], false) ∧
    (loadSceneXML sampleLoaders 5 (addSceneXML 5 "sc5.xml" (emptyRegistry []))).map
        (fun r => (r.1, r.2.loadedFlags, r.2._sceneTagList, r.2.loadedAgrees))
      = .ok (true, [false], [⟨5, some 1⟩], false) ∧
    (emptyRegistry [(3, fiveObjectScene)]).loadedAgrees = true ∧
    (makeSc2 3 (emptyRegistry [(3, fiveObjectScene)])).map
        (fun e => (e.loadedFlags, e._sceneTagList, e.loadedAgrees))
      = .ok ([false], [⟨8, some 3⟩], false) :=
  ⟨rfl, rfl, rfl, rfl, rfl⟩

/-! ## Capture, reload, reapply -/

/-- Writing a scene its own contents changes nothing. -/
theorem setScene_same (e : Engine) (a : Nat) (s : Scene) (hl : heapGet e.heap a = some s) :
    e.setScene a s = e := by
  cases e
  simp only [Engine.setScene] at hl ⊢
  rw [heapSet_same _ a s hl]

/-- A captured entry has the kind of a picture (type 2) or, the type being
masked with 0xFFFF, of an animated object (type 1). -/
theorem savePicAniInfos_type (sc : Scene) (flag1 flag2 : Nat) (c : PicAniInfo)
    (h : c ∈ savePicAniInfos (some sc) flag1 flag2) : c.type = 2 ∨ c.type = 1 := by
  simp only [savePicAniInfos] at h
  split at h
  · simp at h
  · split at h
    · simp at h
    · rcases List.mem_append.mp h with h1 | h1
      · obtain ⟨obj, _, _, _, hc⟩ := savePictures_mem _ _ _ _ h1
        left
        rw [hc]
        rfl
      · obtain ⟨obj, _, _, _, hc⟩ := saveAnis_mem _ _ _ _ h1
        right
        rw [hc]
        simp only [StaticANIObject.getPicAniInfo]
        have := Nat.and_pow_two_sub_one_eq_mod (obj._messageQueueId * 65536 + 1) 16
        norm_num at this
        rw [this]
        omega

/-- C18 (as amended): let L be captured from a scene with `savePicAniInfos`
and applied with `applyPicAniInfos` to the scene as it is live again after an
unload and a reload, whatever the reload built.  If the entries of L have
pairwise distinct (kind, id, copy index) keys and no animated entry has the
copy index -1, then every picture of the reloaded scene that an entry
addresses ends with the position recorded in the entry, and every animated
object of the reloaded scene that an entry addresses, and whose owning scene
resolves through `accessScene`, ends with the position, static pose id,
movement id and movement phase index recorded in the entry; capturing the
object again reports these values. -/
theorem snapshot_round_trip (e : Engine) (a : Nat) (captured reloaded : Scene)
    (flag1 flag2 : Nat) (pre post : List PicAniInfo) (c : PicAniInfo)
    (hlive : heapGet e.heap a = some reloaded)
    (hL : savePicAniInfos (some captured) flag1 flag2 = pre ++ c :: post)
    (hkeys : ((pre ++ c :: post).map (fun x => (x.type, x.objectId, x.field_8))).Nodup)
    (hwild : ∀ x ∈ pre ++ c :: post, x.type = 1 → x.field_8 ≠ -1) :
    applyPicAniInfos a (pre ++ c :: post) e
      = .ok (e.setScene a (sceneApplyInfos e a (pre ++ c :: post) reloaded)) ∧
    (c.type = 2 ∨ c.type = 1) ∧
    (∀ i o, c.type = 2 →
      reloaded.getPictureObjectById c.objectId c.field_8 = some (i, o) →
      (sceneApplyInfos e a (pre ++ c :: post) reloaded).getPictureObjectById
          c.objectId c.field_8 = some (i, o.setPicAniInfo c) ∧
      (o.setPicAniInfo c)._ox = c.ox ∧ (o.setPicAniInfo c)._oy = c.oy ∧
      (o.setPicAniInfo c).getPicAniInfo.ox = c.ox ∧
      (o.setPicAniInfo c).getPicAniInfo.oy = c.oy) ∧
    (∀ i o, c.type = 1 → (accessScene e c.sceneId).isSome = true →
      reloaded.getStaticANIObject1ById c.objectId c.field_8 = some (i, o) →
      (sceneApplyInfos e a (pre ++ c :: post) reloaded).getStaticANIObject1ById
          c.objectId c.field_8 = some (i, o.setPicAniInfo c) ∧
      (o.setPicAniInfo c)._ox = c.ox ∧ (o.setPicAniInfo c)._oy = c.oy ∧
      (o.setPicAniInfo c)._statics = c.staticsId ∧
      (o.setPicAniInfo c)._movement = c.movementId ∧
      (o.setPicAniInfo c)._dynamicPhaseIndex = c.dynamicPhaseIndex ∧
      (o.setPicAniInfo c).getPicAniInfo.ox = c.ox ∧
      (o.setPicAniInfo c).getPicAniInfo.oy = c.oy ∧
      (o.setPicAniInfo c).getPicAniInfo.staticsId = c.staticsId ∧
      (o.setPicAniInfo c).getPicAniInfo.movementId = c.movementId ∧
      (o.setPicAniInfo c).getPicAniInfo.dynamicPhaseIndex = c.dynamicPhaseIndex) := by
  have hsame : e.setScene a reloaded = e := setScene_same e a reloaded hlive
  have htype : ∀ x ∈ pre ++ c :: post, x.type = 2 ∨ x.type = 1 := by
    intro x hx
    rw [← hL] at hx
    exact savePicAniInfos_type captured flag1 flag2 x hx
  have hcmem : c ∈ pre ++ c :: post := by simp
  have hnd : ((c :: post).map (fun x => (x.type, x.objectId, x.field_8))).Nodup := by
    rw [List.map_append] at hkeys
    exact hkeys.of_append_right
  have hpostkey : ∀ c2 ∈ post,
      (c2.type, c2.objectId, c2.field_8) ≠ (c.type, c.objectId, c.field_8) := by
    intro c2 hc2 heq
    rw [List.map_cons, List.nodup_cons] at hnd
    apply hnd.1
    rw [← heq]
    exact List.mem_map_of_mem _ hc2
  refine ⟨?_, htype c hcmem, ?_, ?_⟩
  · have := applyPicAniInfos_setScene e a reloaded (pre ++ c :: post) reloaded hlive
    rw [hsame] at this
    exact this
  · intro i o hc2 hfound
    have hbit : c.type &&& 2 ≠ 0 := by
      rw [hc2]
      decide
    refine ⟨sceneApplyInfos_picture_last e a pre post c reloaded i o hbit ?_ hfound,
      rfl, rfl, rfl, rfl⟩
    intro c2 hm hb2 hkey
    have hm2 : c2 ∈ pre ++ c :: post := by simp [hm]
    have ht2 : c2.type = 2 := by
      rcases htype c2 hm2 with h | h
      · exact h
      · rw [h] at hb2
        exact absurd rfl hb2
    apply hpostkey c2 hm
    rw [ht2, hc2, hkey.1, hkey.2]
  · intro i o hc1 hres hfound
    have hb2 : c.type &&& 2 = 0 := by
      rw [hc1]
      decide
    have hb1 : c.type &&& 1 ≠ 0 := by
      rw [hc1]
      decide
    have hone : ∀ c2 ∈ pre ++ c :: post, c2.type &&& 2 = 0 → c2.type = 1 := by
      intro c2 hm h0
      rcases htype c2 hm with h | h
      · rw [h] at h0
        exact absurd h0 (by decide)
      · exact h
    have hres2 : (accessScene (e.setScene a reloaded) c.sceneId).isSome = true := by
      rw [hsame]
      exact hres
    refine ⟨sceneApplyInfos_ani_last e a pre post c reloaded i o hb2 hb1
      (hwild c hcmem hc1) hres2 ?_ ?_ hfound, rfl, rfl, rfl, rfl, rfl, rfl, rfl, rfl, rfl, rfl⟩
    · intro c2 hm h0 hkey
      have hm2 : c2 ∈ pre ++ c :: post := by simp [hm]
      exact hwild c2 hm2 (hone c2 hm2 h0) hkey.2
    · intro c2 hm h0 hkey
      have hm2 : c2 ∈ pre ++ c :: post := by simp [hm]
      have ht2 := hone c2 hm2 h0
      rcases hkey.2 with hk | hk
      · apply hpostkey c2 hm
        rw [ht2, hc1, hkey.1, hk]
      · exact hwild c2 hm2 ht2 hk
/-- Witness of C18 (as amended): the four objects of `roundTripScene` are
captured, scene 5 is unloaded and loaded again (the reload builds
`rebuiltScene`), and the captured list is applied; the animated object 10,
whose owning scene 5 resolves, is back at (3, 3) with pose 4, movement 6 and
phase 1. -/
theorem snapshot_round_trip_witness :
    savePicAniInfos (some roundTripScene) 0 0
      = [⟨2, 1, 0, 0, 0, 0, 0, 0, 0, 0, 0, 0, 0⟩, ⟨2, 2, 0, 0, 5, 5, 1, 0, 0, 0, 0, 0, 0⟩,
         ⟨1, 10, 0, 5, 3, 3, 2, 4, 6, 1, 0, 0, 0⟩, ⟨1, 11, 0, 99, 6, 6, 2, 0, 0, 0, 0, 0, 0⟩] ∧
    unloadScene 5 roundTripEngine = .ok (true, sampleUnloaded) ∧
    loadScene rebuildEnv 5 sampleUnloaded = .ok (true, roundTripReloaded) ∧
    (sceneApplyInfos roundTripReloaded 7
        [⟨2, 1, 0, 0, 0, 0, 0, 0, 0, 0, 0, 0, 0⟩, ⟨2, 2, 0, 0, 5, 5, 1, 0, 0, 0, 0, 0, 0⟩,
         ⟨1, 10, 0, 5, 3, 3, 2, 4, 6, 1, 0, 0, 0⟩, ⟨1, 11, 0, 99, 6, 6, 2, 0, 0, 0, 0, 0, 0⟩]
        rebuiltScene).getStaticANIObject1ById 10 0
      = some (0, ⟨10, 0, 0, 0, 3, 3, 2, 5, 0, 4, 6, 1, 0⟩) :=
  ⟨rfl, rfl, rfl,
   ((snapshot_round_trip roundTripReloaded 7 roundTripScene rebuiltScene 0 0
      [⟨2, 1, 0, 0, 0, 0, 0, 0, 0, 0, 0, 0, 0⟩, ⟨2, 2, 0, 0, 5, 5, 1, 0, 0, 0, 0, 0, 0⟩]
      [⟨1, 11, 0, 99, 6, 6, 2, 0, 0, 0, 0, 0, 0⟩]
      ⟨1, 10, 0, 5, 3, 3, 2, 4, 6, 1, 0, 0, 0⟩
      rfl rfl (by decide) (by decide)).2.2.2
      0 ⟨10, 0, 0, 0, 0, 0, 0, 5, 0, 0, 0, 0, 0⟩ rfl rfl rfl).1⟩

/-- Counterexample to C18 as stated: the captured list of `roundTripScene`
has an entry for the animated object 11 recording the position (6, 6) and
the owning scene 99, which is not registered.  After scene 5 is unloaded and
loaded again and the list is applied, the entry for object 11 has been
skipped: the object is still where the reload put it, at (0, 0), and
capturing again reports (0, 0). -/
theorem snapshot_round_trip_counterexample :
    savePicAniInfos (some roundTripScene) 0 0
      = [⟨2, 1, 0, 0, 0, 0, 0, 0, 0, 0, 0, 0, 0⟩, ⟨2, 2, 0, 0, 5, 5, 1, 0, 0, 0, 0, 0, 0⟩,
         ⟨1, 10, 0, 5, 3, 3, 2, 4, 6, 1, 0, 0, 0⟩, ⟨1, 11, 0, 99, 6, 6, 2, 0, 0, 0, 0, 0, 0⟩] ∧
    unloadScene 5 roundTripEngine = .ok (true, sampleUnloaded) ∧
    loadScene rebuildEnv 5 sampleUnloaded = .ok (true, roundTripReloaded) ∧
    rebuiltScene.getStaticANIObject1ById 11 0
      = some (1, ⟨11, 0, 0, 0, 0, 0, 0, 99, 0, 0, 0, 0, 0⟩) ∧
    accessScene roundTripReloaded 99 = none ∧
    (applyPicAniInfos 7 (savePicAniInfos (some roundTripScene) 0 0) roundTripReloaded).map
        (fun e1 => (heapGet e1.heap 7).map (fun s => s.getStaticANIObject1ById 11 0))
      = .ok (some (some (1, ⟨11, 0, 0, 0, 0, 0, 0, 99, 0, 0, 0, 0, 0⟩))) ∧
    (applyPicAniInfos 7 (savePicAniInfos (some roundTripScene) 0 0) roundTripReloaded).map
        (fun e1 => (savePicAniInfos (heapGet e1.heap 7) 0 0)[3]?)
      = .ok (some ⟨1, 11, 0, 99, 0, 0, 0, 0, 0, 0, 0, 0, 0⟩) :=
  ⟨rfl, rfl, rfl, rfl, rfl, rfl, rfl⟩

/-- The tile loop on `gridNode` with `gridTiles`: both tile files are loaded
into slot 0 of the array, one after the other, and the second slot stays
blank; the first file raises `type`, so the header carries
`MKTAG('C','B',0x88,0x88)`, width 10 and height 20. -/
theorem backdropHeader_sample :
    tileGrid (gridTiles 5) 1 2 1 0 ⟨[], false, (0, 0), 0, 0⟩
      = .ok ⟨[some ⟨10, 10, MKTAG 'C'.toNat 'B'.toNat 0x05 0x65⟩, none], true, (10, 10), 10, 20⟩ ∧
    backdropHeader gridTiles 0 gridNode
      = .ok ⟨0, 0, 10, 20, 0, MKTAG 'C'.toNat 'B'.toNat 0x88 0x88, 0⟩ ∧
    MKTAG 'C'.toNat 'B'.toNat 0x88 0x88 = 0x43428888 ∧
    MKTAG 'C'.toNat 'B'.toNat 0x05 0x65 = 0x43420565 :=
  ⟨rfl, rfl, rfl, rfl⟩

/-! ## gotoScene: the hook rejects -/

/-- C21 (as amended): when an entrance is selected and the scene-switch hook
returns false, `gotoScene` returns false, and the state after the call is the
state the hook leaves; the hook is handed the state before the call with the
saved `Entrance` variable already set to `entranceId`.  So when the hook leaves
the state alone, the current scene, the pending input coordinates and the
registry keep their previous values, and the saved `Entrance` variable holds
`entranceId`, whatever it held before. -/
theorem gotoScene_hook_rejects (env : Env) (g : GameLoader) (sceneId entranceId : Int)
    (idx i : Nat) (r : Sc2) (en : EntranceInfo) (e2 : Engine)
    (hl : getSceneTagBySceneId g.eng sceneId = some idx)
    (hr : g.eng._sc2array[idx]? = some r)
    (hloaded : r._isLoaded = true)
    (hne : r._entranceData ≠ [])
    (hsel : selectEntrance sceneId entranceId r._entranceData = .ok (some i))
    (hen : r._entranceData[i]? = some en)
    (hsw : env.sceneSwitcher en { g.eng with savedEntrance := some entranceId } = (false, e2)) :
    gotoScene env sceneId entranceId g
      = (.ok false, { g with eng := e2, trace := g.trace ++ [Event.sceneSwitcher en] }) ∧
    (e2 = { g.eng with savedEntrance := some entranceId } →
      (gotoScene env sceneId entranceId g).2.eng._currentScene = g.eng._currentScene ∧
      (gotoScene env sceneId entranceId g).2.eng._msgX = g.eng._msgX ∧
      (gotoScene env sceneId entranceId g).2.eng._msgY = g.eng._msgY ∧
      (gotoScene env sceneId entranceId g).2.eng._msgObjectId2 = g.eng._msgObjectId2 ∧
      (gotoScene env sceneId entranceId g).2.eng._sc2array = g.eng._sc2array ∧
      (gotoScene env sceneId entranceId g).2.eng._sceneTagList = g.eng._sceneTagList ∧
      (gotoScene env sceneId entranceId g).2.eng.heap = g.eng.heap ∧
      (gotoScene env sceneId entranceId g).2.eng.savedEntrance = some entranceId) := by
  have hlen : ¬ (r._entranceData.length < 1) := by
    cases hd : r._entranceData with
    | nil => exact absurd hd hne
    | cons a b => simp
  have hlen0 : ¬ (r._entranceData.length = 0) := by omega
  have hat : Engine.entranceAt { g.eng with savedEntrance := some entranceId } idx i
      = .ok en := by
    simp only [Engine.entranceAt, Engine.sc2At, hr, hen, bind, Except.bind]
  have hrun : gotoScene env sceneId entranceId g
      = (.ok false, { g with eng := e2, trace := g.trace ++ [Event.sceneSwitcher en] }) := by
    unfold gotoScene
    rw [hl]
    simp only [Engine.sc2At, hr, hloaded, Bool.not_true, Bool.false_eq_true, if_false, hlen,
      hlen0, hsel, hat, hsw, Bool.not_false, if_true]
  refine ⟨hrun, ?_⟩
  intro he2
  rw [hrun, he2]
  exact ⟨rfl, rfl, rfl, rfl, rfl, rfl, rfl, rfl⟩

/-- Witness of C21 (as amended): scene 5 has the entrance with hint id 1, the
hook of `rejectEnv` rejects it and leaves the state alone. -/
theorem gotoScene_hook_rejects_witness :
    gotoScene rejectEnv 5 1 sampleLoader
      = (.ok false,
          { sampleLoader with
            eng := { sampleEngine with savedEntrance := some 1 }
            trace := sampleLoader.trace ++ [Event.sceneSwitcher ⟨5, 1, 9⟩] }) :=
  (gotoScene_hook_rejects rejectEnv sampleLoader 5 1 0 0 sampleSc2 ⟨5, 1, 9⟩
    { sampleEngine with savedEntrance := some 1 } rfl rfl rfl (by decide) rfl rfl rfl).1

/-- Counterexample to C21 as stated: before `gotoScene(5, 1)` the saved
`Entrance` variable of `sampleLoader` was never written; the hook of
`rejectEnv` returns false without touching the state, `gotoScene` returns
false, and the saved `Entrance` variable holds 1 afterwards. -/
theorem gotoScene_hook_rejects_counterexample :
    sampleLoader.eng.savedEntrance = none ∧
    selectEntrance 5 1 sampleSc2._entranceData = .ok (some 0) ∧
    rejectEnv.sceneSwitcher ⟨5, 1, 9⟩ { sampleEngine with savedEntrance := some 1 }
      = (false, { sampleEngine with savedEntrance := some 1 }) ∧
    (gotoScene rejectEnv 5 1 sampleLoader).1 = .ok false ∧
    (gotoScene rejectEnv 5 1 sampleLoader).2.eng.savedEntrance = some 1 ∧
    (gotoScene rejectEnv 5 1 sampleLoader).2.eng ≠ sampleLoader.eng := by
  refine ⟨rfl, rfl, rfl, rfl, rfl, ?_⟩
  intro h
  have h2 := congrArg Engine.savedEntrance h
  exact absurd h2 (by decide)

/-! ## savePicAniInfos: the type field -/

/-- Masking with 0xFFFF is reduction modulo 2^16. -/
theorem and_0xFFFF (x : Nat) : x &&& 0xFFFF = x % 65536 := by
  have := Nat.and_pow_two_sub_one_eq_mod x 16
  norm_num at this
  exact this

/-- C22: for every scene and all masks, the result of `savePicAniInfos` is a
list of picture entries followed by a list of animated-object entries; every
animated-object entry is the snapshot its object reports with the type field
replaced by the reported type modulo 2^16, so its type is below 65536; every
picture entry is the snapshot its object reports, type field included. -/
theorem savePicAniInfos_type_mask (sc : Scene) (flag1 flag2 : Nat) :
    ∃ ps as, savePicAniInfos (some sc) flag1 flag2 = ps ++ as ∧
      (∀ c ∈ ps, ∃ obj, some obj ∈ sc._picObjList ∧ c = obj.getPicAniInfo ∧
        c.type = obj.getPicAniInfo.type) ∧
      (∀ c ∈ as, ∃ obj, some obj ∈ sc._staticANIObjectList1 ∧
        c = { obj.getPicAniInfo with type := obj.getPicAniInfo.type % 65536 } ∧
        c.type = obj.getPicAniInfo.type % 65536 ∧ c.type < 65536) := by
  simp only [savePicAniInfos]
  split
  · exact ⟨[], [], rfl, by simp, by simp⟩
  · split
    · exact ⟨[], [], rfl, by simp, by simp⟩
    · refine ⟨savePictures flag1 flag2 sc._picObjList,
        saveAnis flag1 flag2 sc._staticANIObjectList1, rfl, ?_, ?_⟩
      · intro c hc
        obtain ⟨obj, hm, _, _, hobj⟩ := savePictures_mem _ _ _ _ hc
        exact ⟨obj, hm, hobj, by rw [hobj]⟩
      · intro c hc
        obtain ⟨obj, hm, _, _, hobj⟩ := saveAnis_mem _ _ _ _ hc
        rw [and_0xFFFF] at hobj
        refine ⟨obj, hm, hobj, by rw [hobj], ?_⟩
        rw [hobj]
        exact Nat.mod_lt _ (by decide)

/-- The type mask on `busyScene`: the first animated object reports the type
3 * 65536 + 1, and its entry carries the type 1; the picture entries carry the
type 2 their objects report. -/
theorem savePicAniInfos_type_mask_sample :
    (savePicAniInfos (some busyScene) 0 0).map (fun c => c.type) = [2, 2, 2, 1, 1] ∧
    busyScene._staticANIObjectList1.map (Option.map (fun o => o.getPicAniInfo.type))
      = [some 196609, some 1] ∧
    busyScene._picObjList.map (Option.map (fun o => o.getPicAniInfo.type))
      = [some 2, some 2, some 2] :=
  ⟨rfl, rfl, rfl⟩

/-! ## applyPicAniInfos: animated-object entries -/

/-- C23 (as amended): for a live scene and a snapshot entry whose type has
bit 2 clear.  With bit 1 clear too the entry changes nothing.  With bit 1 set
the owning scene of the entry is resolved first: if it does not resolve, the
entry changes nothing, whether or not the scene has an animated object with
(objectId, field_8).  If it resolves and the scene has an animated object with
(objectId, field_8), the snapshot is set on that object; if the scene has
none and the owning scene has an object with (objectId, 0), a copy of that
object with the snapshot set on it is appended to the animated objects of the
target scene; otherwise the scene is unchanged.  The pictures are left alone
in every case. -/
theorem applyPicAniInfos_ani_entry (e : Engine) (a : Nat) (s : Scene) (info : PicAniInfo)
    (hs : heapGet e.heap a = some s)
    (h2 : info.type &&& 2 = 0) :
    (info.type &&& 1 = 0 → applyPicAniInfos a [info] e = .ok e) ∧
    (info.type &&& 1 ≠ 0 → accessScene e info.sceneId = none →
      applyPicAniInfos a [info] e = .ok e) ∧
    (info.type &&& 1 ≠ 0 → ∀ scNew, accessScene e info.sceneId = some scNew →
      applyPicAniInfos a [info] e = .ok (e.setScene a (s.applyAniInfo scNew info)) ∧
      heapGet (e.setScene a (s.applyAniInfo scNew info)).heap a
        = some (s.applyAniInfo scNew info) ∧
      (s.applyAniInfo scNew info)._picObjList = s._picObjList ∧
      (∀ i o, s.getStaticANIObject1ById info.objectId info.field_8 = some (i, o) →
        (s.applyAniInfo scNew info)._staticANIObjectList1
          = updateAt s._staticANIObjectList1 i (Option.map (fun p => p.setPicAniInfo info)) ∧
        s._staticANIObjectList1[i]? = some (some o) ∧
        (s.applyAniInfo scNew info)._staticANIObjectList1[i]?
          = some (some (o.setPicAniInfo info)) ∧
        (∀ j, j ≠ i →
          (s.applyAniInfo scNew info)._staticANIObjectList1[j]? = s._staticANIObjectList1[j]?) ∧
        (s.applyAniInfo scNew info)._staticANIObjectList1.length
          = s._staticANIObjectList1.length) ∧
      (s.getStaticANIObject1ById info.objectId info.field_8 = none →
        ∀ j p, scNew.getStaticANIObject1ById info.objectId 0 = some (j, p) →
          (s.applyAniInfo scNew info)._staticANIObjectList1
            = s._staticANIObjectList1 ++ [some (p.setPicAniInfo info)] ∧
          (s.applyAniInfo scNew info)._staticANIObjectList1.length
            = s._staticANIObjectList1.length + 1) ∧
      (s.getStaticANIObject1ById info.objectId info.field_8 = none →
        scNew.getStaticANIObject1ById info.objectId 0 = none →
        s.applyAniInfo scNew info = s)) := by
  have hn2 : ¬ (info.type &&& 2 ≠ 0) := by simp [h2]
  refine ⟨?_, ?_, ?_⟩
  · intro h1
    simp only [applyPicAniInfos, applyPicAniInfo, hn2, if_false, h1, if_true, pure, Except.pure]
  · intro h1 hacc
    simp only [applyPicAniInfos, applyPicAniInfo, hn2, if_false, h1, hacc, pure, Except.pure]
  · intro h1 scNew hacc
    refine ⟨?_, ?_, applyAniInfo_pictures s scNew info, ?_, ?_, ?_⟩
    · simp only [applyPicAniInfos, applyPicAniInfo, hn2, if_false, h1, hacc, Engine.deref, hs,
        bind, Except.bind, pure, Except.pure]
    · exact heapGet_heapSet_self e.heap a s _ hs
    · intro i o hfound
      have hget : s._staticANIObjectList1[i]? = some (some o) := by
        simp only [Scene.getStaticANIObject1ById] at hfound
        exact findObj_getElem _ _ _ _ hfound
      have hlist : (s.applyAniInfo scNew info)._staticANIObjectList1
          = updateAt s._staticANIObjectList1 i
              (Option.map (fun p => p.setPicAniInfo info)) := by
        unfold Scene.applyAniInfo
        rw [hfound]
      refine ⟨hlist, hget, ?_, ?_, ?_⟩
      · rw [hlist, updateAt_getElem _ _ _ _ hget]
        rfl
      · intro j hj
        rw [hlist]
        exact updateAt_getElem_ne _ _ _ _ hj
      · rw [hlist]
        exact updateAt_length _ _ _
    · intro hnone j p hzero
      have hlist : (s.applyAniInfo scNew info)._staticANIObjectList1
          = s._staticANIObjectList1 ++ [some (p.setPicAniInfo info)] := by
        unfold Scene.applyAniInfo
        rw [hnone, hzero]
        rfl
      refine ⟨hlist, ?_⟩
      rw [hlist]
      simp
    · intro hnone hzero
      unfold Scene.applyAniInfo
      rw [hnone, hzero]

/-- Witness of C23 (as amended): in `roundTripReloaded` scene 5 is live at
address 7; the entry for the animated object 10, whose owning scene 5
resolves, is set on that object. -/
theorem applyPicAniInfos_ani_entry_witness :
    applyPicAniInfos 7 [⟨1, 10, 0, 5, 3, 3, 2, 4, 6, 1, 0, 0, 0⟩] roundTripReloaded
      = .ok { roundTripReloaded with
              heap := [(7, { rebuiltScene with
                             _staticANIObjectList1 :=
                               [some ⟨10, 0, 0, 0, 3, 3, 2, 5, 0, 4, 6, 1, 0⟩,
                                some ⟨11, 0, 0, 0, 0, 0, 0, 99, 0, 0, 0, 0, 0⟩] })] } :=
  ((applyPicAniInfos_ani_entry roundTripReloaded 7 rebuiltScene
    ⟨1, 10, 0, 5, 3, 3, 2, 4, 6, 1, 0, 0, 0⟩ rfl (by decide)).2.2 (by decide)
    rebuiltScene rfl).1

/-- Counterexample to C23 as stated: `rebuiltScene`, live at address 7 of
`roundTripReloaded`, has the animated object (11, 0); the entry for (11, 0)
names the owning scene 99, which does not resolve; the entry is skipped and
the snapshot is not set on the object. -/
theorem applyPicAniInfos_ani_entry_counterexample :
    heapGet roundTripReloaded.heap 7 = some rebuiltScene ∧
    rebuiltScene.getStaticANIObject1ById 11 0
      = some (1, ⟨11, 0, 0, 0, 0, 0, 0, 99, 0, 0, 0, 0, 0⟩) ∧
    accessScene roundTripReloaded 99 = none ∧
    applyPicAniInfos 7 [⟨1, 11, 0, 99, 6, 6, 2, 0, 0, 0, 0, 0, 0⟩] roundTripReloaded
      = .ok roundTripReloaded ∧
    (⟨11, 0, 0, 0, 0, 0, 0, 99, 0, 0, 0, 0, 0⟩ : StaticANIObject).setPicAniInfo
        ⟨1, 11, 0, 99, 6, 6, 2, 0, 0, 0, 0, 0, 0⟩
      ≠ ⟨11, 0, 0, 0, 0, 0, 0, 99, 0, 0, 0, 0, 0⟩ :=
  ⟨rfl, rfl, rfl, rfl, by decide⟩

/-! ## LoadReactPolygonalXML -/

/-- One iteration of the point loop below the size of the array: the point is
written from the current node and the loop goes on with the same chain. -/
theorem reactLoop_step (node : GameVar) (next : List GameVar) (points : List (Int × Int))
    (point : Nat) (h : point < points.length) :
    reactLoop (node :: next) points point
      = reactLoop (node :: next)
          (points.set point (node.getPropertyAsInt "x", node.getPropertyAsInt "y"))
          (point + 1) := by
  rw [reactLoop]
  simp only [h, if_true]

/-- The point loop at or past the size of the array accesses `_points[point]`
there. -/
theorem reactLoop_end (node : GameVar) (next : List GameVar) (points : List (Int × Int))
    (point : Nat) (h : points.length ≤ point) :
    reactLoop (node :: next) points point = .error .outOfBounds := by
  rw [reactLoop]
  have : ¬ (point < points.length) := by omega
  simp only [this, if_false]

/-- On a non-null chain the point loop never leaves through its condition. -/
theorem reactLoop_fault (node : GameVar) (next : List GameVar) (k : Nat) :
    ∀ (points : List (Int × Int)) (point : Nat), points.length - point = k →
      reactLoop (node :: next) points point = .error .outOfBounds := by
  induction k with
  | zero =>
    intro points point hk
    exact reactLoop_end node next points point (by omega)
  | succ k ih =>
    intro points point hk
    rw [reactLoop_step node next points point (by omega)]
    apply ih
    simp only [List.length_set]
    omega

/-- `LoadReactPolygonalXML` on a node does not return. -/
theorem LoadReactPolygonalXML_fault (node : GameVar) (next : List GameVar) :
    LoadReactPolygonalXML (node :: next) = .error .outOfBounds := by
  simp only [LoadReactPolygonalXML, reactLoop_fault node next _ _ 0 rfl]

/-- C27 on the code: for every reaction-zone node, whatever siblings follow
it, `LoadReactPolygonalXML` does not return a zone.  The loop increment
`gv->_nextVarObj` does not assign, so every iteration works on the same node:
as long as `point` is below the size of `_points`, the point is written from
that node and the loop goes on with the same chain and `point + 1`; once
`point` reaches the size, `_points[point]` is accessed past the end. -/
theorem LoadReactPolygonalXML_no_return (node : GameVar) (next : List GameVar) :
    LoadReactPolygonalXML (node :: next) = .error Fault.outOfBounds ∧
    (∀ (points : List (Int × Int)) (point : Nat), point < points.length →
      reactLoop (node :: next) points point
        = reactLoop (node :: next)
            (points.set point (node.getPropertyAsInt "x", node.getPropertyAsInt "y"))
            (point + 1)) ∧
    (∀ (points : List (Int × Int)) (point : Nat), points.length ≤ point →
      reactLoop (node :: next) points point = .error Fault.outOfBounds) :=
  ⟨LoadReactPolygonalXML_fault node next,
   fun points point h => reactLoop_step node next points point h,
   fun points point h => reactLoop_end node next points point h⟩

/-- The point loop on `zoneNode1` (one point announced), alone and followed by
a sibling: slot 0 is written from the node, then `_points[1]` is accessed in
an array of size 1. -/
theorem LoadReactPolygonalXML_sample :
    toUint (zoneNode1.getPropertyAsInt "iNumPoints") = 1 ∧
    reactLoop [zoneNode1] [(0, 0)] 0 = reactLoop [zoneNode1] [(3, 4)] 1 ∧
    reactLoop [zoneNode1] [(3, 4)] 1 = .error Fault.outOfBounds ∧
    LoadReactPolygonalXML [zoneNode1] = .error Fault.outOfBounds ∧
    LoadReactPolygonalXML [zoneNode1, gridNode1] = .error Fault.outOfBounds :=
  ⟨rfl, reactLoop_step zoneNode1 [] [(0, 0)] 0 (by decide),
   reactLoop_end zoneNode1 [] [(3, 4)] 1 (by decide),
   LoadReactPolygonalXML_fault zoneNode1 [], LoadReactPolygonalXML_fault zoneNode1 [gridNode1]⟩

/-! ## LoadMctlCompoundXML -/

/-- The loop body on a node that is not a reaction zone builds the plain item
and leaves the chain where it is. -/
theorem mctlItemXML_plain (c : GameVar) (rest : List GameVar)
    (hc : (c._varName == "MCTLREACTZONE") = false) :
    mctlItemXML (c :: rest) = .ok (plainItem c, c :: rest) := by
  unfold mctlItemXML plainItem
  simp only [hc, Bool.false_eq_true, if_false]
  split <;> rfl

/-- The loop body on a reaction zone does not return. -/
theorem mctlItemXML_zone (c : GameVar) (rest : List GameVar)
    (hc : (c._varName == "MCTLREACTZONE") = true) :
    mctlItemXML (c :: rest) = .error .outOfBounds := by
  unfold mctlItemXML
  simp only [hc, if_true, LoadReactPolygonalXML_fault]

/-- The item loop on a chain without reaction zone among the nodes it visits,
long enough for the iterations left: every node gives one item. -/
theorem mctlLoop_plain (n : Nat) :
    ∀ (sv : List GameVar) (items : List MctlItem), n ≤ sv.length →
      (∀ c ∈ sv.take n, c._varName ≠ "MCTLREACTZONE") →
      mctlLoop n sv items = .ok (items ++ (sv.take n).map plainItem) := by
  induction n with
  | zero =>
    intro sv items _ _
    simp [mctlLoop]
  | succ n ih =>
    intro sv items hlen hno
    cases sv with
    | nil => simp at hlen
    | cons c rest =>
      have hc : (c._varName == "MCTLREACTZONE") = false := by
        have := hno c (by simp)
        simpa using this
      have hrest := ih rest (items ++ [plainItem c]) (by simpa using hlen)
        (fun d hd => hno d (by simp [hd]))
      simp only [mctlLoop, mctlItemXML_plain c rest hc, hrest]
      simp

/-- The item loop does not return when the chain ends before the iterations
do, or when one of the nodes it visits is a reaction zone. -/
theorem mctlLoop_fault (n : Nat) :
    ∀ (sv : List GameVar) (items : List MctlItem),
      (sv.length < n ∨ ∃ c ∈ sv.take n, c._varName = "MCTLREACTZONE") →
      ∃ f, mctlLoop n sv items = .error f := by
  induction n with
  | zero =>
    intro sv items h
    rcases h with h | ⟨c, hc, _⟩
    · omega
    · simp at hc
  | succ n ih =>
    intro sv items h
    cases sv with
    | nil => exact ⟨Fault.badPointer, by simp [mctlLoop, mctlItemXML]⟩
    | cons c rest =>
      cases hc : (c._varName == "MCTLREACTZONE") with
      | true =>
        exact ⟨Fault.outOfBounds, by simp only [mctlLoop, mctlItemXML_zone c rest hc]⟩
      | false =>
        have hrest : rest.length < n ∨ ∃ d ∈ rest.take n, d._varName = "MCTLREACTZONE" := by
          rcases h with h | ⟨d, hd, hz⟩
          · left
            simpa using h
          · simp only [List.take_succ_cons, List.mem_cons] at hd
            rcases hd with hd | hd
            · subst hd
              rw [hz] at hc
              simp at hc
            · exact Or.inr ⟨d, hd, hz⟩
        obtain ⟨f, hf⟩ := ih rest (items ++ [plainItem c]) hrest
        exact ⟨f, by simp only [mctlLoop, mctlItemXML_plain c rest hc, hf]⟩

/-- C24 on the code: `LoadMctlCompoundXML` returns a compound only for a node
that has at least `nNumChildren` children none of the first `nNumChildren` of
which is a reaction zone; the compound then has one item per visited child, a
grid child giving an item with the grid and no zone.  For every other node the
call does not return: a reaction zone is handed to `LoadReactPolygonalXML`,
which does not return, and when the children run out the advance
`sv = sv->_nextVarObj` goes through the null `sv`.  No item holding both a
zone and a grid is ever returned. -/
theorem LoadMctlCompoundXML_completes_iff (gv : GameVar) :
    ((∃ c, LoadMctlCompoundXML gv = .ok c) ↔
      ((gv.getPropertyAsInt "nNumChildren").toNat ≤ gv._subVars.length ∧
        ∀ c ∈ gv._subVars.take (gv.getPropertyAsInt "nNumChildren").toNat,
          c._varName ≠ "MCTLREACTZONE")) ∧
    (∀ c, LoadMctlCompoundXML gv = .ok c →
      c._motionControllers
        = (gv._subVars.take (gv.getPropertyAsInt "nNumChildren").toNat).map plainItem ∧
      c._motionControllers.length = (gv.getPropertyAsInt "nNumChildren").toNat ∧
      ∀ it ∈ c._motionControllers, it._movGraphReactObj = none) := by
  have hgood : ((gv.getPropertyAsInt "nNumChildren").toNat ≤ gv._subVars.length ∧
      ∀ c ∈ gv._subVars.take (gv.getPropertyAsInt "nNumChildren").toNat,
        c._varName ≠ "MCTLREACTZONE") →
      LoadMctlCompoundXML gv
        = .ok ⟨(gv._subVars.take (gv.getPropertyAsInt "nNumChildren").toNat).map plainItem⟩ := by
    rintro ⟨hlen, hno⟩
    simp only [LoadMctlCompoundXML, mctlLoop_plain _ _ [] hlen hno, List.nil_append]
  have hbad : ¬ ((gv.getPropertyAsInt "nNumChildren").toNat ≤ gv._subVars.length ∧
      ∀ c ∈ gv._subVars.take (gv.getPropertyAsInt "nNumChildren").toNat,
        c._varName ≠ "MCTLREACTZONE") →
      ∃ f, LoadMctlCompoundXML gv = .error f := by
    intro hn
    have hcase : gv._subVars.length < (gv.getPropertyAsInt "nNumChildren").toNat ∨
        ∃ c ∈ gv._subVars.take (gv.getPropertyAsInt "nNumChildren").toNat,
          c._varName = "MCTLREACTZONE" := by
      by_cases hlen : (gv.getPropertyAsInt "nNumChildren").toNat ≤ gv._subVars.length
      · right
        by_contra hcon
        apply hn
        refine ⟨hlen, ?_⟩
        intro c hc hz
        exact hcon ⟨c, hc, hz⟩
      · left
        omega
    obtain ⟨f, hf⟩ := mctlLoop_fault _ gv._subVars [] hcase
    exact ⟨f, by simp only [LoadMctlCompoundXML, hf]⟩
  have hiff : (∃ c, LoadMctlCompoundXML gv = .ok c) ↔
      ((gv.getPropertyAsInt "nNumChildren").toNat ≤ gv._subVars.length ∧
        ∀ c ∈ gv._subVars.take (gv.getPropertyAsInt "nNumChildren").toNat,
          c._varName ≠ "MCTLREACTZONE") := by
    constructor
    · rintro ⟨c, hc⟩
      by_contra hn
      obtain ⟨f, hf⟩ := hbad hn
      rw [hf] at hc
      simp at hc
    · intro h
      exact ⟨_, hgood h⟩
  refine ⟨hiff, ?_⟩
  intro c hc
  have hg := hgood (hiff.1 ⟨c, hc⟩)
  rw [hg] at hc
  simp only [Except.ok.injEq] at hc
  subst hc
  refine ⟨rfl, ?_, ?_⟩
  · simp only [List.length_map, List.length_take]
    exact Nat.min_eq_left (hiff.1 ⟨_, hg⟩).1
  · intro it hit
    simp only [List.mem_map] at hit
    obtain ⟨d, _, hd⟩ := hit
    rw [← hd]
    unfold plainItem
    split <;> rfl

/-- `LoadMctlCompoundXML` on three nodes: one announced child and one grid
child give one item with the grid; two announced children and one grid child
end in the advance through the null `sv`; a reaction zone followed by a grid
ends in `LoadReactPolygonalXML`. -/
theorem LoadMctlCompoundXML_sample :
    (LoadMctlCompoundXML compoundOneGrid).map
        (fun c => c._motionControllers.map
          (fun it => (it._movGraphReactObj,
            it._motionControllerObj.map (fun g => (g.width, g.height, g.node._varName)))))
      = .ok [(none, some (800, 600, "MCTLGRID"))] ∧
    (LoadMctlCompoundXML compoundShort).map (fun c => c._motionControllers.length)
      = .error Fault.badPointer ∧
    (LoadMctlCompoundXML compoundZoneGrid).map (fun c => c._motionControllers.length)
      = .error Fault.outOfBounds := by
  refine ⟨rfl, rfl, ?_⟩
  have hz : mctlItemXML [zoneNode1, gridNode1] = .error Fault.outOfBounds :=
    mctlItemXML_zone zoneNode1 [gridNode1] rfl
  have hn : (compoundZoneGrid.getPropertyAsInt "nNumChildren").toNat = 1 := rfl
  have hs : compoundZoneGrid._subVars = [zoneNode1, gridNode1] := rfl
  simp only [LoadMctlCompoundXML, hn, hs, mctlLoop, hz, Except.map]

/-! ## LoadMovementXML: the phase list -/

/-- The phase loop runs to its end when the offset array has room for every
PHASE child; it pushes one live phase per PHASE child, in order, and keeps the
size of the offset array. -/
theorem phaseLoop_ok (movPrefix : String) (id : Int) (cs : List GameVar) :
    ∀ s : PhaseScan,
      s.phase + (cs.filter (fun k => k._varName == "PHASE")).length ≤ s._framePosOffsets.length →
      ∃ offs, phaseLoop movPrefix id cs s
          = .ok ⟨offs, s.phase + (cs.filter (fun k => k._varName == "PHASE")).length,
              s._dynamicPhases ++
                (phasesFrom movPrefix id s.phase
                  (cs.filter (fun k => k._varName == "PHASE"))).map PhasePtr.phase⟩ ∧
        offs.length = s._framePosOffsets.length := by
  induction cs with
  | nil =>
    intro s _
    exact ⟨s._framePosOffsets, by simp [phaseLoop, phasesFrom], rfl⟩
  | cons k rest ih =>
    intro s hroom
    cases hk : (k._varName == "PHASE") with
    | false =>
      simp only [List.filter_cons, hk, Bool.false_eq_true, if_false] at hroom ⊢
      obtain ⟨offs, h1, h2⟩ := ih s hroom
      exact ⟨offs, by simp only [phaseLoop, hk, Bool.false_eq_true, if_false, h1], h2⟩
    | true =>
      simp only [List.filter_cons, hk, if_true, List.length_cons] at hroom ⊢
      have hlt : s.phase < s._framePosOffsets.length := by omega
      obtain ⟨offs, h1, h2⟩ := ih
        { _framePosOffsets := s._framePosOffsets.set s.phase
            (k.getPropertyAsInt "csStep.x", k.getPropertyAsInt "csStep.y")
          phase := s.phase + 1
          _dynamicPhases :=
            s._dynamicPhases ++ [PhasePtr.phase (loadPhase movPrefix id (s.phase + 1) k)] }
        (by simp only [List.length_set]; omega)
      refine ⟨offs, ?_, by simpa using h2⟩
      simp only [phaseLoop, hk, if_true, phaseStep, hlt, h1, phasesFrom, List.map_cons,
        List.append_assoc, List.singleton_append, Except.ok.injEq, PhaseScan.mk.injEq,
        true_and, and_true]
      omega

/-- The phase loop does not return when the offset array has no room for a
PHASE child. -/
theorem phaseLoop_fault (movPrefix : String) (id : Int) (cs : List GameVar) :
    ∀ s : PhaseScan, s.phase ≤ s._framePosOffsets.length →
      s._framePosOffsets.length < s.phase + (cs.filter (fun k => k._varName == "PHASE")).length →
      phaseLoop movPrefix id cs s = .error .outOfBounds := by
  induction cs with
  | nil =>
    intro s hle h
    simp only [List.filter_nil, List.length_nil, Nat.add_zero] at h
    omega
  | cons k rest ih =>
    intro s hle hroom
    cases hk : (k._varName == "PHASE") with
    | false =>
      simp only [List.filter_cons, hk, Bool.false_eq_true, if_false] at hroom
      simp only [phaseLoop, hk, Bool.false_eq_true, if_false, ih s hle hroom]
    | true =>
      simp only [List.filter_cons, hk, if_true, List.length_cons] at hroom
      by_cases hlt : s.phase < s._framePosOffsets.length
      · have := ih
          { _framePosOffsets := s._framePosOffsets.set s.phase
              (k.getPropertyAsInt "csStep.x", k.getPropertyAsInt "csStep.y")
            phase := s.phase + 1
            _dynamicPhases :=
              s._dynamicPhases ++ [PhasePtr.phase (loadPhase movPrefix id (s.phase + 1) k)] }
          (by simp only [List.length_set]; omega)
          (by simp only [List.length_set]; omega)
        simp only [phaseLoop, hk, if_true, phaseStep, hlt, this]
      · simp only [phaseLoop, hk, if_true, phaseStep, hlt, if_false]

/-- The loop builds one phase per node. -/
theorem phasesFrom_length (movPrefix : String) (id : Int) (nodes : List GameVar) :
    ∀ start, (phasesFrom movPrefix id start nodes).length = nodes.length := by
  induction nodes with
  | nil =>
    intro start
    rfl
  | cons k rest ih =>
    intro start
    simp [phasesFrom, ih]

/-- Destroying the last of a non-empty list of live phases keeps its pointer
in the list. -/
theorem deleteLastPhase_phases (P : List DynamicPhase) (h : P ≠ []) :
    deleteLastPhase (P.map PhasePtr.phase)
      = .ok (P.dropLast.map PhasePtr.phase ++ P.getLast?.toList.map PhasePtr.deleted) := by
  rcases List.eq_nil_or_concat P with hnil | ⟨L, b, hP⟩
  · exact absurd hnil h
  · subst hP
    simp [deleteLastPhase]

/-- C25 on the code: for a non-mirrored MOVEMENT node with n >= 1 PHASE
children.  When `dwNumPhases` is at least n, `LoadMovementXML` returns a
movement whose phase list has n + 1 entries, not n: the phases loaded from the
first n - 1 PHASE nodes, then the pointer to the phase loaded from the last
PHASE node, which `delete` has destroyed and which was not taken out of the
list, then the pointer to the 'next' pose `_staticsObj2`.  When `dwNumPhases`
is below n, the write `_framePosOffsets[phase]` goes past the end and the call
does not return. -/
theorem LoadMovementXML_phase_list (gv : GameVar) (filePrefix : String)
    (_staticsList : List Statics)
    (hm : gv.getPropertyAsInt "nIdMirror" = 0)
    (hn : 1 ≤ (phaseNodes gv).length) :
    ((phaseNodes gv).length ≤ toUint (gv.getPropertyAsInt "dwNumPhases") →
      (LoadMovementXML gv filePrefix _staticsList).map
          (Option.map (fun m => (m._dynamicPhases, m._staticsObj2)))
        = .ok (some
            ((loadedPhases gv filePrefix).dropLast.map PhasePtr.phase ++
              (loadedPhases gv filePrefix).getLast?.toList.map PhasePtr.deleted ++
              [PhasePtr.statics
                (findStatics (gv.getPropertyAsInt "nIdPrev") (gv.getPropertyAsInt "nIdNext")
                  _staticsList (none, none)).2],
             (findStatics (gv.getPropertyAsInt "nIdPrev") (gv.getPropertyAsInt "nIdNext")
                _staticsList (none, none)).2)) ∧
      (LoadMovementXML gv filePrefix _staticsList).map
          (Option.map (fun m => m._dynamicPhases.length))
        = .ok (some ((phaseNodes gv).length + 1)) ∧
      ((loadedPhases gv filePrefix).dropLast.map PhasePtr.phase).length
        = (phaseNodes gv).length - 1 ∧
      ((loadedPhases gv filePrefix).getLast?.toList.map PhasePtr.deleted).length = 1) ∧
    (toUint (gv.getPropertyAsInt "dwNumPhases") < (phaseNodes gv).length →
      LoadMovementXML gv filePrefix _staticsList = .error Fault.outOfBounds) := by
  have hmir : ¬ (gv.getPropertyAsInt "nIdMirror" ≠ 0) := by simp [hm]
  have hlen : (loadedPhases gv filePrefix).length = (phaseNodes gv).length := by
    unfold loadedPhases
    exact phasesFrom_length _ _ _ 0
  have hne : loadedPhases gv filePrefix ≠ [] := by
    intro h
    rw [h] at hlen
    simp only [List.length_nil] at hlen
    omega
  constructor
  · intro hd
    obtain ⟨offs, hloop, _⟩ := phaseLoop_ok
      (filePrefix ++ formatInt08 (gv.getPropertyAsInt "id") ++ String.singleton (Char.ofNat 92))
      (gv.getPropertyAsInt "id") gv._subVars
      ⟨List.replicate (toUint (gv.getPropertyAsInt "dwNumPhases")) (0, 0), 0, []⟩
      (by
        simp only [List.length_replicate, Nat.zero_add]
        exact hd)
    have hdel := deleteLastPhase_phases (loadedPhases gv filePrefix) hne
    simp only [List.nil_append] at hloop
    have hrun : LoadMovementXML gv filePrefix _staticsList
        = .ok (some
          { _id := gv.getPropertyAsInt "id"
            _objectName := gv.getPropertyAsString "title"
            _staticsObj1 :=
              (findStatics (gv.getPropertyAsInt "nIdPrev") (gv.getPropertyAsInt "nIdNext")
                _staticsList (none, none)).1
            _staticsObj2 :=
              (findStatics (gv.getPropertyAsInt "nIdPrev") (gv.getPropertyAsInt "nIdNext")
                _staticsList (none, none)).2
            _mx := gv.getPropertyAsInt "nPrevStepX"
            _my := gv.getPropertyAsInt "nPrevStepY"
            _m2x := gv.getPropertyAsInt "nNextStepX"
            _m2y := gv.getPropertyAsInt "nNextStepY"
            _counterMax := gv.getPropertyAsInt "dwLoopDelay"
            _field_50 := if gv.getPropertyAsInt "bUseAuto" ≠ 0 then some 0 else none
            _framePosOffsets := offs
            _dynamicPhases :=
              ((loadedPhases gv filePrefix).dropLast.map PhasePtr.phase ++
                (loadedPhases gv filePrefix).getLast?.toList.map PhasePtr.deleted) ++
              [PhasePtr.statics
                (findStatics (gv.getPropertyAsInt "nIdPrev") (gv.getPropertyAsInt "nIdNext")
                  _staticsList (none, none)).2] }) := by
      unfold LoadMovementXML
      simp only [hmir, if_false, hloop]
      unfold loadedPhases phaseNodes at hdel
      simp only [hdel]
      rfl
    have hl1 : ((loadedPhases gv filePrefix).dropLast.map PhasePtr.phase).length
        = (phaseNodes gv).length - 1 := by
      simp [hlen]
    have hl2 : ((loadedPhases gv filePrefix).getLast?.toList.map PhasePtr.deleted).length
        = 1 := by
      rcases List.eq_nil_or_concat (loadedPhases gv filePrefix) with hnil | ⟨L, b, hP⟩
      · exact absurd hnil hne
      · rw [hP]
        simp
    refine ⟨?_, ?_, hl1, hl2⟩
    · rw [hrun]
      rfl
    · rw [hrun]
      simp only [Except.map, Option.map_some', List.length_append, hl1, hl2,
        List.length_singleton]
      congr 2
      omega
  · intro hd
    have hloop := phaseLoop_fault
      (filePrefix ++ formatInt08 (gv.getPropertyAsInt "id") ++ String.singleton (Char.ofNat 92))
      (gv.getPropertyAsInt "id") gv._subVars
      ⟨List.replicate (toUint (gv.getPropertyAsInt "dwNumPhases")) (0, 0), 0, []⟩
      (by simp)
      (by
        simp only [List.length_replicate, Nat.zero_add]
        exact hd)
    unfold LoadMovementXML
    simp only [hmir, if_false, hloop]

/-- Witness of C25 on the code (the failing input): the movement node 7 with
one PHASE child and `dwNumPhases` 1; the phase list of the movement returned
has two entries, the destroyed phase and the pose 2. -/
theorem LoadMovementXML_phase_list_witness :
    (LoadMovementXML movementNode1 "p" poses12).map
        (Option.map (fun m => (m._dynamicPhases, m._staticsObj2)))
      = .ok (some
          ([PhasePtr.deleted
              ⟨"p00000007" ++ String.singleton (Char.ofNat 92) ++ "00000007.001", none, 6⟩,
            PhasePtr.statics (some ⟨"pose2.dib", "two", 2⟩)],
           some ⟨"pose2.dib", "two", 2⟩)) ∧
    (LoadMovementXML movementNode1 "p" poses12).map
        (Option.map (fun m => m._dynamicPhases.length))
      = .ok (some 2) :=
  ⟨((LoadMovementXML_phase_list movementNode1 "p" poses12 rfl (by decide)).1 (by decide)).1,
   ((LoadMovementXML_phase_list movementNode1 "p" poses12 rfl (by decide)).1 (by decide)).2.1⟩

/-! ## gotoScene: the indices read -/

/-- Without a matching entry the scan reads every index from where it is up to
and including the size of the array. -/
theorem scanEntrancesReads_no_match (entranceId : Int) (l : List EntranceInfo) :
    ∀ k, (∀ en ∈ l, en._field_4 ≠ entranceId) →
      scanEntrancesReads entranceId (k + l.length) l k = List.range' k (l.length + 1) := by
  induction l with
  | nil =>
    intro k _
    rfl
  | cons en rest ih =>
    intro k hno
    have h1 : (en._field_4 != entranceId) = true := by
      simpa using hno en (List.mem_cons_self _ _)
    have h2 : ¬ (k ≥ k + (en :: rest).length) := by
      simp only [List.length_cons]
      omega
    have h3 := ih (k + 1) (fun x hx => hno x (List.mem_cons_of_mem _ hx))
    have h4 : k + 1 + rest.length = k + (en :: rest).length := by
      simp only [List.length_cons]
      omega
    rw [h4] at h3
    simp only [scanEntrancesReads, h1, if_true, h2, if_false, h3]
    simp [List.range'_succ]

/-- When the scan leaves the loop with an index, every index it read is at
most that index, and that index is below the size of the array. -/
theorem scanEntrancesReads_match (entranceId : Int) (size : Nat) (l : List EntranceInfo) :
    ∀ k i, size = k + l.length → scanEntrances entranceId size l k = .ok (some i) →
      i < size ∧ ∀ j ∈ scanEntrancesReads entranceId size l k, j ≤ i := by
  induction l with
  | nil =>
    intro k i _ h
    simp [scanEntrances] at h
  | cons en rest ih =>
    intro k i hsz h
    simp only [List.length_cons] at hsz
    simp only [scanEntrances] at h
    by_cases hc : (en._field_4 != entranceId) = true
    · have hb : ¬ (k ≥ size) := by omega
      rw [if_pos hc, if_neg hb] at h
      obtain ⟨h1, h2⟩ := ih (k + 1) i (by omega) h
      refine ⟨h1, ?_⟩
      intro j hj
      simp only [scanEntrancesReads, hc, if_true, hb, if_false, List.mem_cons] at hj
      rcases hj with hj | hj
      · obtain ⟨j2, _, hk, _⟩ := scanEntrances_some entranceId size rest (k + 1) i h
        omega
      · exact h2 j hj
    · rw [if_neg hc] at h
      simp only [Except.ok.injEq, Option.some.injEq] at h
      subst h
      refine ⟨by omega, ?_⟩
      intro j hj
      simp only [scanEntrancesReads, hc, Bool.false_eq_true, if_false, List.mem_singleton] at hj
      omega

/-- C26 on the code: for a non-empty entrance list.  When an entrance is
selected, every index the scan read is at most the selected index, which is
below `_entranceData.size()`, so the reads in the scan and after it are in
bounds.  When no entry has the requested hint id (and the scene is not 726),
the scan reads the indices 0 up to and including `_entranceData.size()`: its
last read is one past the end, and the scan does not return. -/
theorem gotoScene_entrance_reads (entranceId : Int) (l : List EntranceInfo) (hne : l ≠ []) :
    (∀ sceneId i, selectEntrance sceneId entranceId l = .ok (some i) →
      i < l.length ∧
      (sceneId ≠ 726 → ∀ j ∈ scanEntrancesReads entranceId l.length l 0, j ≤ i ∧ j < l.length)) ∧
    ((∀ en ∈ l, en._field_4 ≠ entranceId) →
      scanEntrancesReads entranceId l.length l 0 = List.range (l.length + 1) ∧
      l.length ∈ scanEntrancesReads entranceId l.length l 0 ∧
      scanEntrances entranceId l.length l 0 = .error Fault.outOfBounds ∧
      ∀ sceneId, sceneId ≠ 726 →
        selectEntrance sceneId entranceId l = .error Fault.outOfBounds) := by
  constructor
  · intro sceneId i hsel
    obtain ⟨en, hen, _, _⟩ := selectEntrance_some sceneId entranceId l i hne hsel
    have hi : i < l.length := by
      rcases List.getElem?_eq_some_iff.mp hen with ⟨hlt, _⟩
      exact hlt
    refine ⟨hi, ?_⟩
    intro h726 j hj
    have hscan : scanEntrances entranceId l.length l 0 = .ok (some i) := by
      simpa [selectEntrance, h726] using hsel
    obtain ⟨_, h2⟩ := scanEntrancesReads_match entranceId l.length l 0 i (by omega) hscan
    have := h2 j hj
    exact ⟨this, by omega⟩
  · intro hno
    have hreads : scanEntrancesReads entranceId l.length l 0 = List.range (l.length + 1) := by
      have := scanEntrancesReads_no_match entranceId l 0 hno
      rw [Nat.zero_add] at this
      rw [this, List.range_eq_range']
    have hscan := scanEntrances_no_match entranceId l.length l 0 (by omega) hno
    refine ⟨hreads, ?_, hscan, ?_⟩
    · rw [hreads]
      simp
    · intro sceneId h726
      simp only [selectEntrance, h726, ne_eq, not_false_eq_true, if_true, hscan]

/-- Witness of C26 on the code (the failing input): scene 5 has the single
entrance with hint id 1; for the entrance id 2 the scan reads the indices 0
and 1 of an array of size 1, and `gotoScene(5, 2)` does not return. -/
theorem gotoScene_entrance_reads_witness :
    scanEntrancesReads 2 1 [⟨5, 1, 9⟩] 0 = [0, 1] ∧
    selectEntrance 5 2 [⟨5, 1, 9⟩] = .error Fault.outOfBounds ∧
    sampleSc2._entranceData = [⟨5, 1, 9⟩] ∧
    (gotoScene sampleEnv 5 2 sampleLoader).1 = .error Fault.outOfBounds :=
  ⟨((gotoScene_entrance_reads 2 [⟨5, 1, 9⟩] (by decide)).2 (by decide)).1,
   ((gotoScene_entrance_reads 2 [⟨5, 1, 9⟩] (by decide)).2 (by decide)).2.2.2 5 (by decide),
   rfl, rfl⟩

end NGI
